import Mathlib

/-!
Verification of the TypeScriptGN front end (lexical scanner and
recursive-descent parser) against its natural-language specification.

The development is a shallow embedding of the sources:
  * `src/src/lang-types.ts`  — `SyntaxKind`, `TokenFlags`, `CharacterCodes`,
    keyword table (the scanner's authority for token numbering);
  * `src/src/lexical.ts`     — the `Scanner` class (global-state tokenizer);
  * `src/unnamed/part_000`   — AST node shapes and `ParsingContext`;
  * `src/unnamed/part_003`   — the `Parser` namespace.

Modelling conventions:
  * source text is a `List Char`; `charCodeAt` returns `-1` out of range,
    mirroring the JS `NaN` whose comparisons with char codes are all false;
  * the mutable scanner/parser globals become explicit state records;
  * JS exceptions become `Except` failures, distinguishing a failed
    `assert` from a `TypeError` (property access on `undefined`);
  * unbounded `while` loops and the mutually recursive productions take an
    explicit fuel argument (structural recursion, so terms evaluate by
    `rfl`/`decide`); fuel exhaustion is a distinguished failure;
  * the error sink is an accumulated list of (message, position) pairs;
  * AST nodes are generic property maps (`kind`, range, named fields),
    mirroring the JS object model; the non-owning `parent` back-reference
    is omitted (spec section 6 requires it to be excluded when serializing).
-/

namespace TSGN

/-! ## Character codes (from `lang-types.ts`, `CharacterCodes`) -/

namespace CC

def lineFeed : Int := 0x0A
def carriageReturn : Int := 0x0D
def space : Int := 0x20
def tab : Int := 0x09
def verticalTab : Int := 0x0B
def formFeed : Int := 0x0C
def underscore : Int := 0x5F
def dollar : Int := 0x24
def d0 : Int := 0x30
def d1 : Int := 0x31
def d7 : Int := 0x37
def d9 : Int := 0x39
def la : Int := 0x61
def lb : Int := 0x62
def le : Int := 0x65
def lf : Int := 0x66
def ln : Int := 0x6E
def lo : Int := 0x6F
def lr : Int := 0x72
def lt : Int := 0x74
def lv : Int := 0x76
def lx : Int := 0x78
def lz : Int := 0x7A
def uA : Int := 0x41
def uB : Int := 0x42
def uE : Int := 0x45
def uF : Int := 0x46
def uO : Int := 0x4F
def uX : Int := 0x58
def uZ : Int := 0x5A
def ampersand : Int := 0x26
def asterisk : Int := 0x2A
def atSign : Int := 0x40
def backslash : Int := 0x5C
def bar : Int := 0x7C
def caret : Int := 0x5E
def closeBrace : Int := 0x7D
def closeBracket : Int := 0x5D
def closeParen : Int := 0x29
def colon : Int := 0x3A
def comma : Int := 0x2C
def dot : Int := 0x2E
def doubleQuote : Int := 0x22
def equals : Int := 0x3D
def exclamation : Int := 0x21
def greaterThan : Int := 0x3E
def lessThan : Int := 0x3C
def minus : Int := 0x2D
def openBrace : Int := 0x7B
def openBracket : Int := 0x5B
def openParen : Int := 0x28
def percent : Int := 0x25
def plus : Int := 0x2B
def question : Int := 0x3F
def semicolon : Int := 0x3B
def singleQuote : Int := 0x27
def slash : Int := 0x2F
def tilde : Int := 0x7E

end CC

/-! ## SyntaxKind (from `lang-types.ts`; the enum ordinal matters for the
range-based classification helpers, so kinds are plain `Nat` constants in
the enum's declaration order).  The parser's AST node kinds come from a
`./types` module that is not under `src/` (only `part_000`'s interfaces
declare them); they are modelled as distinct values above the token range,
which is faithful because no code compares node kinds with token markers. -/

namespace K

def Unknown : Nat := 0
def EndOfFileToken : Nat := 1
def NumericLiteral : Nat := 2
def StringLiteral : Nat := 3
def OpenBraceToken : Nat := 4
def CloseBraceToken : Nat := 5
def OpenParenToken : Nat := 6
def CloseParenToken : Nat := 7
def OpenBracketToken : Nat := 8
def CloseBracketToken : Nat := 9
def DotToken : Nat := 10
def DotDotDotToken : Nat := 11
def SemicolonToken : Nat := 12
def CommaToken : Nat := 13
def QuestionDotToken : Nat := 14
def ColonEqualsToken : Nat := 15
def AtToken : Nat := 16
def EqualsGreaterThanToken : Nat := 17
def QuestionToken : Nat := 18
def ColonToken : Nat := 19
def PlusPlusToken : Nat := 20
def MinusMinusToken : Nat := 21
def LessThanToken : Nat := 22
def GreaterThanToken : Nat := 23
def LessThanEqualsToken : Nat := 24
def GreaterThanEqualsToken : Nat := 25
def EqualsEqualsToken : Nat := 26
def ExclamationEqualsToken : Nat := 27
def EqualsEqualsEqualsToken : Nat := 28
def ExclamationEqualsEqualsToken : Nat := 29
def MinusGreaterThanToken : Nat := 30
def PlusToken : Nat := 31
def MinusToken : Nat := 32
def AsteriskToken : Nat := 33
def AsteriskAsteriskToken : Nat := 34
def SlashToken : Nat := 35
def PercentToken : Nat := 36
def LessThanLessThanToken : Nat := 37
def GreaterThanGreaterThanToken : Nat := 38
def GreaterThanGreaterThanGreaterThanToken : Nat := 39
def AmpersandToken : Nat := 40
def BarToken : Nat := 41
def CaretToken : Nat := 42
def ExclamationToken : Nat := 43
def TildeToken : Nat := 44
def AmpersandAmpersandToken : Nat := 45
def BarBarToken : Nat := 46
def QuestionQuestionToken : Nat := 47
def EqualsToken : Nat := 48
def PlusEqualsToken : Nat := 49
def MinusEqualsToken : Nat := 50
def AsteriskEqualsToken : Nat := 51
def AsteriskAsteriskEqualsToken : Nat := 52
def SlashEqualsToken : Nat := 53
def PercentEqualsToken : Nat := 54
def LessThanLessThanEqualsToken : Nat := 55
def GreaterThanGreaterThanEqualsToken : Nat := 56
def GreaterThanGreaterThanGreaterThanEqualsToken : Nat := 57
def AmpersandEqualsToken : Nat := 58
def BarEqualsToken : Nat := 59
def CaretEqualsToken : Nat := 60
def Identifier : Nat := 61
def BreakKeyword : Nat := 62
def CaseKeyword : Nat := 63
def CatchKeyword : Nat := 64
def ClassKeyword : Nat := 65
def ConstKeyword : Nat := 66
def ContinueKeyword : Nat := 67
def DebuggerKeyword : Nat := 68
def DefaultKeyword : Nat := 69
def DeleteKeyword : Nat := 70
def DoKeyword : Nat := 71
def ElifKeyword : Nat := 72
def ElseKeyword : Nat := 73
def EnumKeyword : Nat := 74
def ExportKeyword : Nat := 75
def ExtendsKeyword : Nat := 76
def FalseKeyword : Nat := 77
def FinallyKeyword : Nat := 78
def ForKeyword : Nat := 79
def FunctionKeyword : Nat := 80
def IfKeyword : Nat := 81
def ImportKeyword : Nat := 82
def InKeyword : Nat := 83
def InstanceOfKeyword : Nat := 84
def NewKeyword : Nat := 85
def NullKeyword : Nat := 86
def ReturnKeyword : Nat := 87
def SuperKeyword : Nat := 88
def SwitchKeyword : Nat := 89
def ThisKeyword : Nat := 90
def ThrowKeyword : Nat := 91
def TrueKeyword : Nat := 92
def TryKeyword : Nat := 93
def TypeOfKeyword : Nat := 94
def VarKeyword : Nat := 95
def VoidKeyword : Nat := 96
def WhileKeyword : Nat := 97
def WithKeyword : Nat := 98
def ImplementsKeyword : Nat := 99
def InterfaceKeyword : Nat := 100
def LetKeyword : Nat := 101
def PackageKeyword : Nat := 102
def PrivateKeyword : Nat := 103
def ProtectedKeyword : Nat := 104
def PublicKeyword : Nat := 105
def StaticKeyword : Nat := 106
def YieldKeyword : Nat := 107
def FallThroughKeyword : Nat := 108
def NodeKeyword : Nat := 109
def SubnetKeyword : Nat := 110
def UsingKeyword : Nat := 111
def AbstractKeyword : Nat := 112
def AsKeyword : Nat := 113
def AssertsKeyword : Nat := 114
def AnyKeyword : Nat := 115
def AsyncKeyword : Nat := 116
def AwaitKeyword : Nat := 117
def BooleanKeyword : Nat := 118
def ConstructorKeyword : Nat := 119
def DeclareKeyword : Nat := 120
def GetKeyword : Nat := 121
def InferKeyword : Nat := 122
def IsKeyword : Nat := 123
def KeyOfKeyword : Nat := 124
def ModuleKeyword : Nat := 125
def NamespaceKeyword : Nat := 126
def NeverKeyword : Nat := 127
def ReadonlyKeyword : Nat := 128
def RequireKeyword : Nat := 129
def NumberKeyword : Nat := 130
def ObjectKeyword : Nat := 131
def SetKeyword : Nat := 132
def StringKeyword : Nat := 133
def SymbolKeyword : Nat := 134
def TypeKeyword : Nat := 135
def UndefinedKeyword : Nat := 136
def UniqueKeyword : Nat := 137
def UnknownKeyword : Nat := 138
def FromKeyword : Nat := 139
def GlobalKeyword : Nat := 140
def BigIntKeyword : Nat := 141
def OfKeyword : Nat := 142
def StateKeyword : Nat := 143
def Count : Nat := 144

/- SyntaxKindMarker values (same module). -/
def FirstAssignment : Nat := EqualsToken
def LastAssignment : Nat := CaretEqualsToken
def FirstReservedWord : Nat := BreakKeyword
def LastReservedWord : Nat := UsingKeyword
def FirstKeyword : Nat := BreakKeyword
def LastKeyword : Nat := StateKeyword
def FirstContextualKeyword : Nat := AbstractKeyword
def LastContextualKeyword : Nat := StateKeyword

/- AST node kinds (modelled: declared in the parser's `./types` module
which is absent from `src/`; the shapes appear in `part_000`). -/
def SourceFile : Nat := 200
def EmptyStatement : Nat := 201
def Block : Nat := 202
def ExpressionStatement : Nat := 203
def LabeledStatement : Nat := 204
def BreakStatement : Nat := 205
def ContinueStatement : Nat := 206
def FallThroughStatement : Nat := 207
def ReturnStatement : Nat := 208
def DebuggerStatement : Nat := 209
def IfStatement : Nat := 210
def ElifClause : Nat := 211
def ForStatement : Nat := 212
def ForInStatement : Nat := 213
def ForOfStatement : Nat := 214
def SwitchStatement : Nat := 215
def CaseBlock : Nat := 216
def CaseClause : Nat := 217
def DefaultClause : Nat := 218
def TryStatement : Nat := 219
def CatchClause : Nat := 220
def UsingStatement : Nat := 221
def VariableDeclaration : Nat := 222
def VariableBinding : Nat := 223
def CommaExpression : Nat := 224
def ConnectionExpression : Nat := 225
def AssignmentExpression : Nat := 226
def ConditionalExpression : Nat := 227
def YieldExpression : Nat := 228
def ArrowFunction : Nat := 229
def Parameter : Nat := 230
def BinaryExpression : Nat := 231
def AsExpression : Nat := 232
def PrefixUnaryExpression : Nat := 233
def TypeAssertionExpression : Nat := 234
def PrefixUpdateExpression : Nat := 235
def PostfixUpdateExpression : Nat := 236
def PropertyAccessExpression : Nat := 237
def ElementAccessExpression : Nat := 238
def CallExpression : Nat := 239
def Arguments : Nat := 240
def NewExpression : Nat := 241
def NewTargetExpression : Nat := 242
def ParenthesizedExpression : Nat := 243
def ArrayLiteralExpression : Nat := 244
def SpreadExpression : Nat := 245
def OmittedExpression : Nat := 246
def ObjectLiteralExpression : Nat := 247
def ShorthandPropertyAssignment : Nat := 248
def PropertyAssignment : Nat := 249
def ComputedPropertyName : Nat := 250
def ClassExpression : Nat := 251
def FunctionExpression : Nat := 252
def NodeExpression : Nat := 253
def FunctionDeclaration : Nat := 254
def NodeDeclaration : Nat := 255
def NodeBlock : Nat := 256
def NodeStateDeclaration : Nat := 257
def NodeAllPortTypeDeclaration : Nat := 258
def NodePortTypeDeclaration : Nat := 259
def Decorator : Nat := 260
def TypeParameter : Nat := 261

/- Kind used to model the kind-less plain objects (`{} as any`) that
`parseDeclarationWorker` returns for the unimplemented declaration forms. -/
def EmptyObjectModel : Nat := 998

end K

/-! ## TokenFlags (from `lang-types.ts`). -/

namespace TF

def None : Nat := 0
def PrecedingLineBreak : Nat := 1
def Scientific : Nat := 2
def Octal : Nat := 4
def HexSpecifier : Nat := 8
def BinarySpecifier : Nat := 16
def OctalSpecifier : Nat := 32

end TF

/-! ## ParsingContext (from `part_000`). -/

namespace PC

def SourceElements : Nat := 0
def BlockStatements : Nat := 1
def SwitchClauses : Nat := 2
def SwitchClauseStatements : Nat := 3
def VariableDeclarations : Nat := 4
def ArgumentExpressions : Nat := 5
def ObjectLiteralMembers : Nat := 6
def ArrayLiteralMembers : Nat := 7
def Parameters : Nat := 8
def NodeBlock : Nat := 9

end PC

/-! ## Character classification (from `util.ts`, embedded in `part_003`
and mirrored by `lexical.ts`'s imports). -/

/-- `text.charCodeAt(i)` / `text.codePointAt(i)`: the character code at
index `i`, or `-1` when out of range (JS yields `NaN`/`undefined`, whose
comparisons with any character code are all false, as are `-1`'s, since
every classification below tests only codes `≥ 0`). -/
def charCodeAt (t : List Char) (i : Nat) : Int :=
  match t.get? i with
  | some c => (c.toNat : Int)
  | none => -1

/-- `text.substring(a, b)` for `a ≤ b` (the only way the sources use it). -/
def substring (t : List Char) (a b : Nat) : String :=
  String.mk ((t.take b).drop a)

def isDigit (ch : Int) : Bool := CC.d0 ≤ ch && ch ≤ CC.d9

def isLineBreak (ch : Int) : Bool := ch = CC.lineFeed || ch = CC.carriageReturn

def isOctalDigit (ch : Int) : Bool := CC.d0 ≤ ch && ch ≤ CC.d7

def isHexDigit (ch : Int) : Bool :=
  (CC.d0 ≤ ch && ch ≤ CC.d9) || (CC.la ≤ ch && ch ≤ CC.lf) || (CC.uA ≤ ch && ch ≤ CC.uF)

def isBinaryDigit (ch : Int) : Bool := ch = CC.d0 || ch = CC.d1

def isIdentifierStart (ch : Int) : Bool :=
  (CC.uA ≤ ch && ch ≤ CC.uZ) || (CC.la ≤ ch && ch ≤ CC.lz) ||
    ch = CC.dollar || ch = CC.underscore

def isIdentifierPart (ch : Int) : Bool :=
  (CC.uA ≤ ch && ch ≤ CC.uZ) || (CC.la ≤ ch && ch ≤ CC.lz) ||
    (CC.d0 ≤ ch && ch ≤ CC.d9) || ch = CC.dollar || ch = CC.underscore

/-- The keyword table `textToKeyword` (from `lang-types.ts`). -/
def textToKeyword (s : String) : Option Nat :=
  if s = "abstract" then some K.AbstractKeyword
  else if s = "any" then some K.AnyKeyword
  else if s = "as" then some K.AsKeyword
  else if s = "asserts" then some K.AssertsKeyword
  else if s = "bigint" then some K.BigIntKeyword
  else if s = "boolean" then some K.BooleanKeyword
  else if s = "break" then some K.BreakKeyword
  else if s = "case" then some K.CaseKeyword
  else if s = "catch" then some K.CatchKeyword
  else if s = "class" then some K.ClassKeyword
  else if s = "continue" then some K.ContinueKeyword
  else if s = "const" then some K.ConstKeyword
  else if s = "constructor" then some K.ConstructorKeyword
  else if s = "debugger" then some K.DebuggerKeyword
  else if s = "declare" then some K.DeclareKeyword
  else if s = "default" then some K.DefaultKeyword
  else if s = "delete" then some K.DeleteKeyword
  else if s = "do" then some K.DoKeyword
  else if s = "else" then some K.ElseKeyword
  else if s = "enum" then some K.EnumKeyword
  else if s = "elif" then some K.ElifKeyword
  else if s = "export" then some K.ExportKeyword
  else if s = "extends" then some K.ExtendsKeyword
  else if s = "fallthrough" then some K.FallThroughKeyword
  else if s = "false" then some K.FalseKeyword
  else if s = "finally" then some K.FinallyKeyword
  else if s = "for" then some K.ForKeyword
  else if s = "from" then some K.FromKeyword
  else if s = "function" then some K.FunctionKeyword
  else if s = "get" then some K.GetKeyword
  else if s = "if" then some K.IfKeyword
  else if s = "implements" then some K.ImplementsKeyword
  else if s = "import" then some K.ImportKeyword
  else if s = "in" then some K.InKeyword
  else if s = "infer" then some K.InferKeyword
  else if s = "instanceof" then some K.InstanceOfKeyword
  else if s = "interface" then some K.InterfaceKeyword
  else if s = "is" then some K.IsKeyword
  else if s = "keyof" then some K.KeyOfKeyword
  else if s = "let" then some K.LetKeyword
  else if s = "module" then some K.ModuleKeyword
  else if s = "namespace" then some K.NamespaceKeyword
  else if s = "never" then some K.NeverKeyword
  else if s = "new" then some K.NewKeyword
  else if s = "node" then some K.NodeKeyword
  else if s = "null" then some K.NullKeyword
  else if s = "number" then some K.NumberKeyword
  else if s = "object" then some K.ObjectKeyword
  else if s = "package" then some K.PackageKeyword
  else if s = "private" then some K.PrivateKeyword
  else if s = "protected" then some K.ProtectedKeyword
  else if s = "public" then some K.PublicKeyword
  else if s = "readonly" then some K.ReadonlyKeyword
  else if s = "require" then some K.RequireKeyword
  else if s = "global" then some K.GlobalKeyword
  else if s = "return" then some K.ReturnKeyword
  else if s = "set" then some K.SetKeyword
  else if s = "state" then some K.StateKeyword
  else if s = "static" then some K.StaticKeyword
  else if s = "string" then some K.StringKeyword
  else if s = "subnet" then some K.SubnetKeyword
  else if s = "super" then some K.SuperKeyword
  else if s = "switch" then some K.SwitchKeyword
  else if s = "symbol" then some K.SymbolKeyword
  else if s = "this" then some K.ThisKeyword
  else if s = "throw" then some K.ThrowKeyword
  else if s = "true" then some K.TrueKeyword
  else if s = "try" then some K.TryKeyword
  else if s = "type" then some K.TypeKeyword
  else if s = "typeof" then some K.TypeOfKeyword
  else if s = "undefined" then some K.UndefinedKeyword
  else if s = "unique" then some K.UniqueKeyword
  else if s = "unknown" then some K.UnknownKeyword
  else if s = "using" then some K.UsingKeyword
  else if s = "var" then some K.VarKeyword
  else if s = "void" then some K.VoidKeyword
  else if s = "while" then some K.WhileKeyword
  else if s = "with" then some K.WithKeyword
  else if s = "yield" then some K.YieldKeyword
  else if s = "async" then some K.AsyncKeyword
  else if s = "await" then some K.AwaitKeyword
  else if s = "of" then some K.OfKeyword
  else none

/-- `checkReservedWord` (from `util.ts`): keyword table hit only when the
first character is a lowercase letter. -/
def checkReservedWord (tokenValue : String) : Nat :=
  let ch := charCodeAt tokenValue.toList 0
  if CC.la ≤ ch && ch ≤ CC.lz then
    match textToKeyword tokenValue with
    | some keyword => keyword
    | none => K.Identifier
  else K.Identifier

end TSGN

namespace TSGN

/-! ## Scanner state (the module-level mutable globals of `lexical.ts`:
`text, startPos, tokenPos, pos, end, token, tokenValue, tokenFlags`, plus
the error sink registered via `setOnError`, modelled as an accumulated
list of (message, position) pairs). -/

structure S where
  text : List Char
  endP : Nat
  startPos : Nat
  tokenPos : Nat
  pos : Nat
  token : Nat
  tokenValue : Option String
  tokenFlags : Nat
  errors : List (String × Nat)
deriving Repr, DecidableEq

/-- `Scanner.error(message, errPos = pos)`: report through the sink at the
given position (the parser's `scanError` reads `scanner.pos`, which the
source temporarily sets to `errPos` around the callback). -/
def recordError (s : S) (msg : String) (errPos : Nat) : S :=
  { s with errors := s.errors ++ [(msg, errPos)] }

/-- `resetPos(newPos)` (the `newPos >= 0` assertion cannot fail on `Nat`). -/
def resetPos (s : S) (newPos : Nat) : S :=
  { s with pos := newPos, startPos := newPos, tokenPos := newPos,
           token := K.Unknown, tokenValue := none, tokenFlags := TF.None }

/-- `resetText(newText)`: install a new buffer and reset to offset 0. -/
def mkScanner (txt : String) : S :=
  resetPos
    { text := txt.toList, endP := txt.toList.length, startPos := 0, tokenPos := 0,
      pos := 0, token := K.Unknown, tokenValue := none, tokenFlags := TF.None,
      errors := [] } 0

/-- `setTextRange(start, length?)`. -/
def setTextRange (s : S) (start : Nat) (length : Option Nat) : S :=
  resetPos
    { s with endP := match length with
                     | none => s.text.length
                     | some l => start + l }
    start

/-- The lazily evaluated `tokenText` getter: `text.substring(tokenPos, pos)`. -/
def tokenTextS (s : S) : String := substring s.text s.tokenPos s.pos

/-- `Scanner.isIdentifier()`. -/
def scannerIsIdentifier (s : S) : Bool :=
  s.token = K.Identifier || s.token > K.LastReservedWord

/-- `Scanner.isReservedWord()`. -/
def scannerIsReservedWord (s : S) : Bool :=
  K.FirstReservedWord ≤ s.token && s.token ≤ K.LastReservedWord

/-- `Scanner.hasPrecedingLineBreak()`. -/
def hasPrecedingLineBreak (s : S) : Bool :=
  s.tokenFlags &&& TF.PrecedingLineBreak ≠ 0

/-- A `while p(text.charCodeAt(pos)) pos++` loop (used by
`scanNumberFragment`, `scanHexDigits`, `scanBinaryDigits`,
`scanOctalDigits`): final cursor after the run.  Fueled so it evaluates by
`rfl`; `t.length + 1 - pos` fuel is always sufficient because every
predicate used rejects the out-of-range code `-1`. -/
def runWhile (p : Int → Bool) (t : List Char) (fuel : Nat) : Nat → Nat :=
  Nat.rec (motive := fun _ => Nat → Nat)
    (fun pos => pos)
    (fun _ ih pos => if p (charCodeAt t pos) then ih (pos + 1) else pos)
    fuel

def runEndOf (p : Int → Bool) (t : List Char) (pos : Nat) : Nat :=
  runWhile p t (t.length + 1 - pos) pos

/-- `scanNumberFragment()`: scan a run of decimal digits. -/
def scanNumberFragment (s : S) : String × S :=
  let r := runEndOf isDigit s.text s.pos
  (substring s.text s.pos r, { s with pos := r })

/-- `scanHexDigits()`. -/
def scanHexDigits (s : S) : String × S :=
  let r := runEndOf isHexDigit s.text s.pos
  (substring s.text s.pos r, { s with pos := r })

/-- `scanBinaryDigits()`. -/
def scanBinaryDigits (s : S) : String × S :=
  let r := runEndOf isBinaryDigit s.text s.pos
  (substring s.text s.pos r, { s with pos := r })

/-- `scanOctalDigits()`. -/
def scanOctalDigits (s : S) : String × S :=
  let r := runEndOf isOctalDigit s.text s.pos
  (substring s.text s.pos r, { s with pos := r })

/-- `scanEscapeSequence()`: the fixed escape table; an unrecognized escape
is reported and contributes the empty string. -/
def scanEscapeSequence (s : S) : String × S :=
  let s := { s with pos := s.pos + 1 }
  if s.pos ≥ s.endP then
    ("", recordError s "Unexpected end of text" s.pos)
  else
    let ch := charCodeAt s.text s.pos
    let s := { s with pos := s.pos + 1 }
    if ch = CC.d0 then ("\x00", s)
    else if ch = CC.lb then ("\x08", s)
    else if ch = CC.lt then ("\t", s)
    else if ch = CC.ln then ("\n", s)
    else if ch = CC.lv then ("\x0B", s)
    else if ch = CC.lf then ("\x0C", s)
    else if ch = CC.lr then ("\r", s)
    else if ch = CC.singleQuote then ("\x27", s)
    else if ch = CC.doubleQuote then ("\x22", s)
    else ("", recordError s "Expected escape char" s.pos)

end TSGN

namespace TSGN

/-- The loop body of `scanString()`: accumulate until the closing quote, a
backslash escape, a line break, or the end of the buffer; the latter two
report "Unterminated string literal" and terminate the literal early with
whatever was accumulated. -/
def scanStringLoop (quote : Int) (fuel : Nat) : S → Nat → String → String × S :=
  Nat.rec (motive := fun _ => S → Nat → String → String × S)
    (fun s _start result => (result ++ substring s.text _start s.pos, s))
    (fun _ ih s start result =>
      if s.pos ≥ s.endP then
        (result ++ substring s.text start s.pos,
          recordError s "Unterminated string literal" s.pos)
      else
        let ch := charCodeAt s.text s.pos
        if ch = quote then
          (result ++ substring s.text start s.pos, { s with pos := s.pos + 1 })
        else if ch = CC.backslash then
          let result := result ++ substring s.text start s.pos
          let (esc, s) := scanEscapeSequence s
          ih s s.pos (result ++ esc)
        else if isLineBreak ch then
          (result ++ substring s.text start s.pos,
            recordError s "Unterminated string literal" s.pos)
        else ih { s with pos := s.pos + 1 } start result)
    fuel

/-- `scanString()`. -/
def scanString (s : S) : String × S :=
  let quote := charCodeAt s.text s.pos
  let s := { s with pos := s.pos + 1 }
  scanStringLoop quote (s.endP + 1 - s.pos + 1) s s.pos ""

def isDigitChar (c : Char) : Bool := 48 ≤ c.toNat && c.toNat ≤ 57

def digitsToNat (ds : List Char) : Nat :=
  ds.foldl (fun a c => a * 10 + (c.toNat - 48)) 0

def stripTrailingZeros (fuel : Nat) : Nat → Int → Nat × Int :=
  Nat.rec (motive := fun _ => Nat → Int → Nat × Int)
    (fun m e => (m, e))
    (fun _ ih m e => if m ≠ 0 && m % 10 = 0 then ih (m / 10) (e + 1) else (m, e))
    fuel

/-- Modelled from the spec: the numeric normalization that a fraction or
exponent forces the literal through (`"1.50" → "1.5"`, `"10e2" → "1000"`).
The source computes it with the JS number round-trip `'' + +result`; the
JS builtins are not part of `src/`, so the round-trip is modelled exactly
for plain decimal literals (integer/fraction/exponent digits), which is
exact arithmetic for every literal the claims evaluate. -/
def numericNormalize (r : String) : String :=
  let cs := r.toList
  let intD := cs.takeWhile isDigitChar
  let rest := cs.drop intD.length
  let fracD :=
    if charCodeAt rest 0 = CC.dot then (rest.drop 1).takeWhile isDigitChar else []
  let rest := if charCodeAt rest 0 = CC.dot then rest.drop (1 + fracD.length) else rest
  let expVal : Int :=
    if charCodeAt rest 0 = CC.le || charCodeAt rest 0 = CC.uE then
      let neg := charCodeAt rest 1 = CC.minus
      let ds :=
        if charCodeAt rest 1 = CC.minus || charCodeAt rest 1 = CC.plus then
          rest.drop 2
        else rest.drop 1
      let v : Int := digitsToNat (ds.takeWhile isDigitChar)
      if neg then -v else v
    else 0
  let m0 := digitsToNat (intD ++ fracD)
  let e0 : Int := expVal - fracD.length
  let (m, e) := stripTrailingZeros 64 m0 e0
  if m = 0 then "0"
  else if 0 ≤ e then Nat.repr m ++ String.mk (List.replicate e.toNat (Char.ofNat 48))
  else
    let d := (Nat.repr m).toList
    let k := (-e).toNat
    if d.length > k then
      String.mk (d.take (d.length - k)) ++ "." ++ String.mk (d.drop (d.length - k))
    else "0." ++ String.mk (List.replicate (k - d.length) (Char.ofNat 48)) ++ String.mk d

/-- Models `parseInt(s, radix)` on the exact digit strings handed to it by
the radix scans (every character a valid digit of the radix). -/
def digitValue (c : Char) : Nat :=
  if 48 ≤ c.toNat && c.toNat ≤ 57 then c.toNat - 48
  else if 97 ≤ c.toNat && c.toNat ≤ 102 then c.toNat - 87
  else if 65 ≤ c.toNat && c.toNat ≤ 70 then c.toNat - 55
  else 0

def parseIntRadix (s : String) (radix : Nat) : Nat :=
  s.toList.foldl (fun a c => a * radix + digitValue c) 0

/-- The fraction block of `scanNumber()`: an optional `.` followed by a
digit run; returns the `decimalFragment` local (as an `Option`) and the
state. -/
def scanNumberDec (s : S) : Option String × S :=
  if charCodeAt s.text s.pos = CC.dot then
    let s := { s with pos := s.pos + 1 }
    let (d, s) := scanNumberFragment s
    ((some d : Option String), s)
  else (none, s)

/-- The exponent block of `scanNumber()`: an optional `e`/`E`, optional
sign, and digit run ("Digit expected" when it is empty); returns the
token's value end position and the state. -/
def scanNumberExp (endV : Nat) (s : S) : Nat × S :=
  if charCodeAt s.text s.pos = CC.uE || charCodeAt s.text s.pos = CC.le then
    let s := { s with pos := s.pos + 1, tokenFlags := s.tokenFlags ||| TF.Scientific }
    let s :=
      if charCodeAt s.text s.pos = CC.plus || charCodeAt s.text s.pos = CC.minus then
        { s with pos := s.pos + 1 }
      else s
    let (finalFragment, s) := scanNumberFragment s
    if finalFragment = "" then (endV, recordError s "Digit expected" s.pos)
    else (s.pos, s)
  else (endV, s)

/-- The result assembly of `scanNumber()`: a fraction or a scientific
marker routes the raw text through numeric normalization, otherwise the
raw text is the value. -/
def scanNumberFinish (start : Nat) (decimalFragment : Option String) (evs : Nat × S) :
    String × S :=
  let endV := evs.1
  let s := evs.2
  let result := substring s.text start endV
  if decimalFragment.isSome || s.tokenFlags &&& TF.Scientific ≠ 0 then
    (numericNormalize result, s)
  else (result, s)

/-- `scanNumber()`: main digits, optional `.` fraction, optional `e`/`E`
exponent with optional sign (the three blocks above, in the source one
function body; the `scientificFragment` local is computed but never used
by the source, so it is omitted). -/
def scanNumber (s : S) : String × S :=
  let start := s.pos
  let (_mainFragment, s) := scanNumberFragment s
  let dfs := scanNumberDec s
  let evs := scanNumberExp dfs.2.pos dfs.2
  scanNumberFinish start dfs.1 evs

/-- The `//` comment skip: advance to the next line break or buffer end. -/
def singleLineCommentEnd (t : List Char) (endP : Nat) (fuel : Nat) : Nat → Nat :=
  Nat.rec (motive := fun _ => Nat → Nat)
    (fun pos => pos)
    (fun _ ih pos =>
      if pos < endP then
        if isLineBreak (charCodeAt t pos) then pos
        else ih (pos + 1)
      else pos)
    fuel

/-- The `/* */` comment skip: final position, whether the comment was
closed, and the token flags accumulated from line breaks inside it. -/
def multiLineCommentEnd (t : List Char) (endP : Nat) (fuel : Nat) :
    Nat → Nat → Nat × Bool × Nat :=
  Nat.rec (motive := fun _ => Nat → Nat → Nat × Bool × Nat)
    (fun pos fl => (pos, false, fl))
    (fun _ ih pos fl =>
      if pos < endP then
        let ch := charCodeAt t pos
        if ch = CC.asterisk && charCodeAt t (pos + 1) = CC.slash then (pos + 2, true, fl)
        else ih (pos + 1) (if isLineBreak ch then fl ||| TF.PrecedingLineBreak else fl)
      else (pos, false, fl))
    fuel

/-- The identifier-part loop: `while (pos < end && isIdentifierPart(...)) pos += 1`. -/
def identRunEnd (t : List Char) (endP : Nat) (fuel : Nat) : Nat → Nat :=
  Nat.rec (motive := fun _ => Nat → Nat)
    (fun pos => pos)
    (fun _ ih pos =>
      if pos < endP && isIdentifierPart (charCodeAt t pos) then ih (pos + 1) else pos)
    fuel

/-- One iteration of `scan()`'s dispatch `while (true) { tokenPos = pos; ... }`:
either produce a token (`tok`) or skip trivia and continue (`again`). -/
inductive StepR where
  | tok (s : S)
  | again (s : S)
deriving Repr, DecidableEq

def scanStep (s : S) : StepR :=
  let s := { s with tokenPos := s.pos }
  if s.pos ≥ s.endP then .tok { s with token := K.EndOfFileToken }
  else
    let ch := charCodeAt s.text s.pos
    let c1 := charCodeAt s.text (s.pos + 1)
    let c2 := charCodeAt s.text (s.pos + 2)
    let c3 := charCodeAt s.text (s.pos + 3)
    if ch = CC.lineFeed || ch = CC.carriageReturn then
      .again { s with tokenFlags := s.tokenFlags ||| TF.PrecedingLineBreak, pos := s.pos + 1 }
    else if ch = CC.tab || ch = CC.verticalTab || ch = CC.formFeed || ch = CC.space then
      .again { s with pos := s.pos + 1 }
    else if ch = CC.exclamation then
      if c1 = CC.equals then
        if c2 = CC.equals then
          .tok { s with pos := s.pos + 3, token := K.ExclamationEqualsEqualsToken }
        else .tok { s with pos := s.pos + 2, token := K.ExclamationEqualsToken }
      else .tok { s with pos := s.pos + 1, token := K.ExclamationToken }
    else if ch = CC.percent then
      if c1 = CC.equals then .tok { s with pos := s.pos + 2, token := K.PercentEqualsToken }
      else .tok { s with pos := s.pos + 1, token := K.PercentToken }
    else if ch = CC.ampersand then
      if c1 = CC.ampersand then
        .tok { s with pos := s.pos + 2, token := K.AmpersandAmpersandToken }
      else if c1 = CC.equals then
        .tok { s with pos := s.pos + 2, token := K.AmpersandEqualsToken }
      else .tok { s with pos := s.pos + 1, token := K.AmpersandToken }
    else if ch = CC.openParen then .tok { s with pos := s.pos + 1, token := K.OpenParenToken }
    else if ch = CC.closeParen then .tok { s with pos := s.pos + 1, token := K.CloseParenToken }
    else if ch = CC.asterisk then
      if c1 = CC.equals then .tok { s with pos := s.pos + 2, token := K.AsteriskEqualsToken }
      else if c1 = CC.asterisk then
        if c2 = CC.equals then
          .tok { s with pos := s.pos + 3, token := K.AsteriskAsteriskEqualsToken }
        else .tok { s with pos := s.pos + 2, token := K.AsteriskAsteriskToken }
      else .tok { s with pos := s.pos + 1, token := K.AsteriskToken }
    else if ch = CC.plus then
      if c1 = CC.plus then .tok { s with pos := s.pos + 2, token := K.PlusPlusToken }
      else if c1 = CC.equals then .tok { s with pos := s.pos + 2, token := K.PlusEqualsToken }
      else .tok { s with pos := s.pos + 1, token := K.PlusToken }
    else if ch = CC.comma then .tok { s with pos := s.pos + 1, token := K.CommaToken }
    else if ch = CC.minus then
      if c1 = CC.minus then .tok { s with pos := s.pos + 2, token := K.MinusMinusToken }
      else if c1 = CC.equals then .tok { s with pos := s.pos + 2, token := K.MinusEqualsToken }
      else if c1 = CC.greaterThan then
        .tok { s with pos := s.pos + 2, token := K.MinusGreaterThanToken }
      else .tok { s with pos := s.pos + 1, token := K.MinusToken }
    else if ch = CC.dot then
      if isDigit c1 then
        let (tv, s) := scanNumber s
        .tok { s with token := K.NumericLiteral, tokenValue := some tv }
      else if c1 = CC.dot && c2 = CC.dot then
        .tok { s with pos := s.pos + 3, token := K.DotDotDotToken }
      else .tok { s with pos := s.pos + 1, token := K.DotToken }
    else if ch = CC.slash then
      if c1 = CC.slash then
        .again { s with pos := singleLineCommentEnd s.text s.endP
                          (s.endP + 1 - (s.pos + 2)) (s.pos + 2) }
      else if c1 = CC.asterisk then
        let (p, closed, fl) :=
          multiLineCommentEnd s.text s.endP (s.endP + 1 - (s.pos + 2)) (s.pos + 2)
            s.tokenFlags
        let s := { s with pos := p, tokenFlags := fl }
        .again (if closed then s else recordError s "\x22*/\x22 expected" s.pos)
      else if c1 = CC.equals then .tok { s with pos := s.pos + 2, token := K.SlashEqualsToken }
      else .tok { s with pos := s.pos + 1, token := K.SlashToken }
    else if ch = CC.colon then
      -- Verbatim from lexical.ts lines 337-342: the two-character `:=`
      -- sequence is consumed but yields SyntaxKind.ColonToken, not the
      -- dedicated ColonEqualsToken declared in lang-types.ts.
      if c1 = CC.equals then .tok { s with pos := s.pos + 2, token := K.ColonToken }
      else .tok { s with pos := s.pos + 1, token := K.ColonToken }
    else if ch = CC.semicolon then .tok { s with pos := s.pos + 1, token := K.SemicolonToken }
    else if ch = CC.lessThan then
      if c1 = CC.lessThan then
        if c2 = CC.equals then
          .tok { s with pos := s.pos + 3, token := K.LessThanLessThanEqualsToken }
        else .tok { s with pos := s.pos + 2, token := K.LessThanLessThanToken }
      else if c1 = CC.equals then .tok { s with pos := s.pos + 2, token := K.LessThanEqualsToken }
      else .tok { s with pos := s.pos + 1, token := K.LessThanToken }
    else if ch = CC.greaterThan then
      if c1 = CC.greaterThan then
        if c2 = CC.greaterThan then
          if c3 = CC.equals then
            .tok { s with
                   pos := s.pos + 4,
                   token := K.GreaterThanGreaterThanGreaterThanEqualsToken }
          else .tok { s with pos := s.pos + 3, token := K.GreaterThanGreaterThanGreaterThanToken }
        else if c2 = CC.equals then
          .tok { s with pos := s.pos + 3, token := K.GreaterThanGreaterThanEqualsToken }
        else .tok { s with pos := s.pos + 2, token := K.GreaterThanGreaterThanToken }
      else if c1 = CC.equals then
        .tok { s with pos := s.pos + 2, token := K.GreaterThanEqualsToken }
      else .tok { s with pos := s.pos + 1, token := K.GreaterThanToken }
    else if ch = CC.equals then
      if c1 = CC.equals then
        if c2 = CC.equals then
          .tok { s with pos := s.pos + 3, token := K.EqualsEqualsEqualsToken }
        else .tok { s with pos := s.pos + 2, token := K.EqualsEqualsToken }
      else if c1 = CC.greaterThan then
        .tok { s with pos := s.pos + 2, token := K.EqualsGreaterThanToken }
      else .tok { s with pos := s.pos + 1, token := K.EqualsToken }
    else if ch = CC.question then
      if c1 = CC.dot && ¬ isDigit c2 then
        .tok { s with pos := s.pos + 2, token := K.QuestionDotToken }
      else if c1 = CC.question then
        .tok { s with pos := s.pos + 2, token := K.QuestionQuestionToken }
      else .tok { s with pos := s.pos + 1, token := K.QuestionToken }
    else if ch = CC.openBracket then .tok { s with pos := s.pos + 1, token := K.OpenBracketToken }
    else if ch = CC.closeBracket then .tok { s with pos := s.pos + 1, token := K.CloseBracketToken }
    else if ch = CC.caret then
      if c1 = CC.equals then .tok { s with pos := s.pos + 2, token := K.CaretEqualsToken }
      else .tok { s with pos := s.pos + 1, token := K.CaretToken }
    else if ch = CC.openBrace then .tok { s with pos := s.pos + 1, token := K.OpenBraceToken }
    else if ch = CC.bar then
      if c1 = CC.bar then .tok { s with pos := s.pos + 2, token := K.BarBarToken }
      else if c1 = CC.equals then .tok { s with pos := s.pos + 2, token := K.BarEqualsToken }
      else .tok { s with pos := s.pos + 1, token := K.BarToken }
    else if ch = CC.closeBrace then .tok { s with pos := s.pos + 1, token := K.CloseBraceToken }
    else if ch = CC.tilde then .tok { s with pos := s.pos + 1, token := K.TildeToken }
    else if ch = CC.atSign then .tok { s with pos := s.pos + 1, token := K.AtToken }
    else if ch = CC.backslash then
      .tok { (recordError s "Unicode escape is not supported yet" s.pos) with
             pos := s.pos + 1,
             token := K.Unknown }
    else if ch = CC.doubleQuote || ch = CC.singleQuote then
      let (tv, s) := scanString s
      .tok { s with token := K.StringLiteral, tokenValue := some tv }
    else if ch = CC.d0 && s.pos + 2 < s.endP && (c1 = CC.uX || c1 = CC.lx) then
      let s := { s with pos := s.pos + 2 }
      let (tv, s) := scanHexDigits s
      let (tv, s) :=
        if tv = "" then ("0", recordError s "Hexadecimal digit expected" s.pos) else (tv, s)
      .tok { s with
             token := K.NumericLiteral,
             tokenValue := some (Nat.repr (parseIntRadix tv 16)),
             tokenFlags := s.tokenFlags ||| TF.HexSpecifier }
    else if ch = CC.d0 && s.pos + 2 < s.endP && (c1 = CC.uB || c1 = CC.lb) then
      let s := { s with pos := s.pos + 2 }
      let (tv, s) := scanBinaryDigits s
      let (tv, s) :=
        if tv = "" then ("0", recordError s "Binary digit expected" s.pos) else (tv, s)
      .tok { s with
             token := K.NumericLiteral,
             tokenValue := some (Nat.repr (parseIntRadix tv 2)),
             tokenFlags := s.tokenFlags ||| TF.BinarySpecifier }
    else if ch = CC.d0 && s.pos + 2 < s.endP && (c1 = CC.uO || c1 = CC.lo) then
      let s := { s with pos := s.pos + 2 }
      let (tv, s) := scanOctalDigits s
      let (tv, s) :=
        if tv = "" then ("0", recordError s "Octal digit expected" s.pos) else (tv, s)
      .tok { s with
             token := K.NumericLiteral,
             tokenValue := some (Nat.repr (parseIntRadix tv 8)),
             tokenFlags := s.tokenFlags ||| TF.OctalSpecifier }
    else if ch = CC.d0 && s.pos + 1 < s.endP && isOctalDigit c1 then
      let (tv, s) := scanOctalDigits s
      .tok { s with
             token := K.NumericLiteral,
             tokenValue := some (Nat.repr (parseIntRadix tv 8)),
             tokenFlags := s.tokenFlags ||| TF.Octal }
    else if isDigit ch then
      let (tv, s) := scanNumber s
      .tok { s with token := K.NumericLiteral, tokenValue := some tv }
    else if isIdentifierStart ch then
      let r := identRunEnd s.text s.endP (s.endP + 1 - (s.pos + 1)) (s.pos + 1)
      let tv := substring s.text s.tokenPos r
      .tok { s with pos := r, tokenValue := some tv, token := checkReservedWord tv }
    else
      .tok { (recordError s "Invalid character" s.pos) with
             pos := s.pos + 1,
             token := K.Unknown }

def scanLoop (fuel : Nat) : S → Option S :=
  Nat.rec (motive := fun _ => S → Option S)
    (fun _ => none)
    (fun _ ih s =>
      match scanStep s with
      | .tok s' => some s'
      | .again s' => ih s')
    fuel

/-- `Scanner.scan()`: reset `startPos`/`tokenFlags`, then run the dispatch
loop.  The fuel `endP + 1 - pos + 1` is proven sufficient below
(`scanLoop_isSome`), so the fallback arm is unreachable; it is chosen to
coincide with the end-of-file arm of the dispatch. -/
def scan (s : S) : S :=
  let s0 := { s with startPos := s.pos, tokenFlags := TF.None }
  match scanLoop (s0.endP + 1 - s0.pos + 1) s0 with
  | some s' => s'
  | none => { s0 with tokenPos := s0.pos, token := K.EndOfFileToken }

/-- Modelled from the spec: "Multi-character operators are resolved by
greedy longest-match lookahead (e.g. `>>>=` before `>>>` before `>>`
before `>`)".  The scanner method `reScanGreaterToken` is not under
`src/` — only its parser-side caller (`part_003`, `reScanGreaterToken`)
is — so it is modelled as re-running the greater-than dispatch from the
current token's start when the current token is `>`; on any other token
it returns the state unchanged. -/
def reScanGreaterTokenS (s : S) : S :=
  if s.token = K.GreaterThanToken then
    let p := s.tokenPos
    let c1 := charCodeAt s.text (p + 1)
    let c2 := charCodeAt s.text (p + 2)
    let c3 := charCodeAt s.text (p + 3)
    if c1 = CC.greaterThan then
      if c2 = CC.greaterThan then
        if c3 = CC.equals then
          { s with pos := p + 4, token := K.GreaterThanGreaterThanGreaterThanEqualsToken }
        else { s with pos := p + 3, token := K.GreaterThanGreaterThanGreaterThanToken }
      else if c2 = CC.equals then
        { s with pos := p + 3, token := K.GreaterThanGreaterThanEqualsToken }
      else { s with pos := p + 2, token := K.GreaterThanGreaterThanToken }
    else if c1 = CC.equals then { s with pos := p + 2, token := K.GreaterThanEqualsToken }
    else s
  else s

end TSGN

namespace TSGN

/-! ## AST values (the node shapes of `part_000`, represented as the JS
object model the parser mutates: a kind tag, a [pos, end) range, a flags
bitset, and named properties; `parent` back-references are omitted).  A
`listV` is a `NodeList`: elements, range, `hasTrailingDelimiter`.  List
elements and stored children are `JSVal`s because productions can yield
`undefined` (notably the `parseClassExpression` stub). -/

mutual

inductive JSVal where
  | undef : JSVal
  | boolV : Bool → JSVal
  | natV : Nat → JSVal
  | strV : String → JSVal
  | nodeV : ASTNode → JSVal
  | listV : List JSVal → Nat → Nat → Bool → JSVal

/-- kind, pos, end, flags, properties. -/
inductive ASTNode where
  | mk : Nat → Nat → Nat → Nat → List (String × JSVal) → ASTNode

end

def ASTNode.kind : ASTNode → Nat
  | .mk k _ _ _ _ => k

def ASTNode.pos : ASTNode → Nat
  | .mk _ p _ _ _ => p

def ASTNode.endPos : ASTNode → Nat
  | .mk _ _ e _ _ => e

def ASTNode.flags : ASTNode → Nat
  | .mk _ _ _ f _ => f

def ASTNode.props : ASTNode → List (String × JSVal)
  | .mk _ _ _ _ ps => ps

def ASTNode.withKind : ASTNode → Nat → ASTNode
  | .mk _ p e f ps, k => .mk k p e f ps

def ASTNode.withEndPos : ASTNode → Nat → ASTNode
  | .mk k p _ f ps, e => .mk k p e f ps

def ASTNode.withFlags : ASTNode → Nat → ASTNode
  | .mk k p e _ ps, f => .mk k p e f ps

/-- Property assignment (JS object field write; the newest entry wins on
lookup). -/
def ASTNode.setProp : ASTNode → String → JSVal → ASTNode
  | .mk k p e f ps, key, v => .mk k p e f ((key, v) :: ps)

/-- Property read; a missing property is `undefined`, as in JS. -/
def ASTNode.prop (n : ASTNode) (key : String) : JSVal :=
  match n.props.lookup key with
  | some v => v
  | none => (.undef)

/-- A possibly-`undefined` node value (expression productions can return
`undefined`, e.g. the `parseClassExpression` stub). -/
abbrev NodeV := Option ASTNode

def jsOfN : NodeV → JSVal
  | some n => .nodeV n
  | none => (.undef)

/-! ## Parser state and monad (the module-level mutable state of
`part_003`: the shared scanner, the current-token mirror `token`,
`contextFlags`, `parsingContext`, `nodeCount`, plus the console
diagnostics of `Parser.error`, modelled as a message list). -/

inductive PErr where
  | assertFail : PErr
  | typeError : PErr
  | fuelOut : PErr
deriving Repr, DecidableEq

structure PState where
  sc : S
  ptoken : Nat
  contextFlags : Nat
  parsingContext : Nat
  nodeCount : Nat
  perrors : List String

abbrev M (α : Type) := StateT PState (Except PErr) α

def runM (m : M α) (st : PState) : Except PErr (α × PState) := m.run st

/-- `assert(expression)` from `util.ts`: throws unless the condition holds. -/
def assertM (b : Bool) : M Unit :=
  if b then pure () else throw PErr.assertFail

/-- Models `SyntaxKind[k]` (the TS enum reverse name map), rendered as the
ordinal; no claim depends on the rendered name text. -/
def kindNameModel (k : Nat) : String := Nat.repr k

/-- `Parser.error(msg)`: diagnostics printed to the console; the recorded
message is the composed first argument. -/
def perror (msg : String) : M Unit :=
  modify fun st => { st with perrors := st.perrors ++ [msg] }

/-- `node.kind` on a possibly-`undefined` value: a JS property access on
`undefined` throws a `TypeError`. -/
def kindOfV : NodeV → M Nat
  | some n => pure n.kind
  | none => throw PErr.typeError

/-- `node.pos` on a possibly-`undefined` value. -/
def posOfV : NodeV → M Nat
  | some n => pure n.pos
  | none => throw PErr.typeError

def getToken : M Nat := do
  pure (← get).ptoken

/-- `nextToken()`: `token = scanner.scan()`. -/
def nextToken : M Nat :=
  modifyGet fun st =>
    let sc := scan st.sc
    (sc.token, { st with sc := sc, ptoken := sc.token })

/-- `reScanGreaterToken()` (parser side): `token = scanner.reScanGreaterToken()`. -/
def reScanGreaterToken : M Nat :=
  modifyGet fun st =>
    let sc := reScanGreaterTokenS st.sc
    (sc.token, { st with sc := sc, ptoken := sc.token })

def scannerIsIdentifierM : M Bool := do
  pure (scannerIsIdentifier (← get).sc)

/-- `createNode(kind, pos?)`: counts the node; an absent position means
`scanner.startPos`. -/
def createNode (kind : Nat) (posArg : Option Nat) : M ASTNode :=
  modifyGet fun st =>
    let p := match posArg with
             | some p => p
             | none => st.sc.startPos
    (ASTNode.mk kind p p 0 [], { st with nodeCount := st.nodeCount + 1 })

/-- `finishNode(node, end?)`: seal the range at `scanner.startPos` unless
overridden, and OR in the ambient context flags. -/
def finishNode (node : ASTNode) (endArg : Option Nat) : M ASTNode := do
  let st ← get
  let e := match endArg with
           | some e => e
           | none => st.sc.startPos
  let node := node.withEndPos e
  if st.contextFlags ≠ 0 then pure (node.withFlags (node.flags ||| st.contextFlags))
  else pure node

/-- `parseExpected(kind)`: consume on match, report and return a falsy
value (`undefined`, modelled `false`) otherwise. -/
def parseExpected (kind : Nat) : M Bool := do
  let st ← get
  if st.ptoken = kind then do
    let _ ← nextToken
    pure true
  else do
    perror ("Unexpected " ++ kindNameModel st.ptoken ++ ", expected " ++ kindNameModel kind)
    pure false

def parseOptional (kind : Nat) : M Bool := do
  let st ← get
  if st.ptoken = kind then do
    let _ ← nextToken
    pure true
  else pure false

def parseTokenNode : M ASTNode := do
  let st ← get
  let node ← createNode st.ptoken none
  let _ ← nextToken
  finishNode node none

def parseExpectedToken (t : Nat) : M (Option ASTNode) := do
  let st ← get
  if st.ptoken = t then do
    let n ← parseTokenNode
    pure (some n)
  else do
    perror ("Unexpected " ++ kindNameModel t ++ ", expected " ++ kindNameModel t)
    pure none

def parseOptionalToken (t : Nat) : M (Option ASTNode) := do
  let st ← get
  if st.ptoken = t then do
    let n ← parseTokenNode
    pure (some n)
  else pure none

def createNodeList (elements : List JSVal) (pos : Nat) (endArg : Option Nat) : M JSVal := do
  let st ← get
  let e := match endArg with
           | some e => e
           | none => st.sc.startPos
  pure (.listV elements pos e false)

def setTrailingDelimiter (v : JSVal) (tr : Bool) : JSVal :=
  match v with
  | .listV l p e _ => .listV l p e tr
  | v => v

/-- `isListTerminator(kind)`. -/
def isListTerminator (kind : Nat) : M Bool := do
  let st ← get
  let token := st.ptoken
  if token = K.EndOfFileToken then pure true
  else if kind = PC.BlockStatements || kind = PC.SwitchClauses ||
          kind = PC.ObjectLiteralMembers || kind = PC.NodeBlock then
    pure (token = K.CloseBraceToken)
  else if kind = PC.SwitchClauseStatements then
    pure (token = K.CloseBraceToken || token = K.CaseKeyword || token = K.DefaultKeyword)
  else if kind = PC.ArrayLiteralMembers then
    pure (token = K.CloseBracketToken)
  else if kind = PC.Parameters || kind = PC.ArgumentExpressions then
    pure (token = K.CloseParenToken)
  else if kind = PC.VariableDeclarations then
    pure (token = K.SemicolonToken || token = K.OpenBraceToken)
  else pure false

/-! ## Checkpointing (the scanner's `protectContextHelper` composed with
the parser's; the scanner helper saves `end, pos, startPos, tokenPos,
token, tokenValue, tokenFlags` — not `text` and not the error log — and
the parser helper additionally saves its `token` mirror and asserts that
`contextFlags` is unchanged). -/

def scRestore (save : S) (cur : S) : S :=
  { cur with endP := save.endP, pos := save.pos, startPos := save.startPos,
             tokenPos := save.tokenPos, token := save.token,
             tokenValue := save.tokenValue, tokenFlags := save.tokenFlags }

/-- `Scanner.lookAhead(cb)`: run `cb`, then restore unconditionally.  A
raised exception propagates without restoring (the source has no
`finally`). -/
def scLookAhead (cb : M α) : M α := fun st =>
  match cb st with
  | .error e => .error e
  | .ok (r, st') => .ok (r, { st' with sc := scRestore st.sc st'.sc })

/-- `Scanner.tryScan(cb)`: restore unless the result is truthy. -/
def scTryScan (cb : M α) (truthy : α → Bool) : M α := fun st =>
  match cb st with
  | .error e => .error e
  | .ok (r, st') =>
    if truthy r then .ok (r, st')
    else .ok (r, { st' with sc := scRestore st.sc st'.sc })

/-- `Parser.protectContextHelper(cb, alwaysRestore)`: delegate to the
scanner helper, assert the ambient context flags did not change, and
restore the parser's token mirror when the result is falsy or restoring
unconditionally. -/
def protectContextHelper (cb : M α) (truthy : α → Bool) (alwaysRestore : Bool) : M α :=
  fun st =>
    let saveToken := st.ptoken
    let saveContextFlags := st.contextFlags
    let inner := if alwaysRestore then scLookAhead cb else scTryScan cb truthy
    match inner st with
    | .error e => .error e
    | .ok (r, st') =>
      if saveContextFlags = st'.contextFlags then
        if ¬ truthy r || alwaysRestore then .ok (r, { st' with ptoken := saveToken })
        else .ok (r, st')
      else .error PErr.assertFail

/-- `Parser.lookAhead(cb)`: always restore (the truthiness test is
irrelevant on this path and is passed as constantly false). -/
def lookAheadP (cb : M α) : M α :=
  protectContextHelper cb (fun _ => false) true

/-- `Parser.tryParse(cb)` at a boolean result. -/
def tryParseB (cb : M Bool) : M Bool :=
  protectContextHelper cb (fun b => b) false

/-- `Parser.tryParse(cb)` at a node-or-`undefined` result. -/
def tryParseO (cb : M (Option α)) : M (Option α) :=
  protectContextHelper cb Option.isSome false

end TSGN

namespace TSGN

/-! ## Non-recursive productions and speculative-lookahead workers
(translated from `part_003`). -/

/-- `parseIdentifier()`: accept the current token when the scanner
classifies it as an identifier (including every contextual keyword);
otherwise report "Identifier expected" and synthesize an `Identifier`
node with empty text without consuming anything. -/
def parseIdentifier : M ASTNode := do
  let st ← get
  if ¬ scannerIsIdentifier st.sc then do
    perror ("Identifier expected, but got " ++ kindNameModel st.ptoken)
    let node ← createNode K.Identifier none
    let node := node.setProp "text" (.strV "")
    finishNode node none
  else do
    let node ← createNode K.Identifier none
    let node := node.setProp "text"
      (match st.sc.tokenValue with
       | some v => .strV v
       | none => .undef)
    let node :=
      if st.ptoken ≠ K.Identifier then
        node.setProp "originalKeywordKind" (.natV st.ptoken)
      else node
    let _ ← nextToken
    finishNode node none

def parseSemicolon : M Bool := parseExpected K.SemicolonToken

def parseEmptyStatement : M ASTNode := do
  let node ← createNode K.EmptyStatement none
  let _ ← parseExpected K.SemicolonToken
  finishNode node none

def parseBreakOrContinueStatement (kind : Nat) : M ASTNode := do
  let node ← createNode kind none
  let _ ← parseExpected
    (if kind = K.BreakStatement then K.BreakKeyword else K.ContinueKeyword)
  let st ← get
  let node ←
    if st.ptoken ≠ K.SemicolonToken then do
      let l ← parseIdentifier
      pure (node.setProp "label" (.nodeV l))
    else pure node
  let _ ← parseExpected K.SemicolonToken
  finishNode node none

def parseFallThroughStatement : M ASTNode := do
  let node ← createNode K.FallThroughStatement none
  let _ ← parseExpected K.FallThroughKeyword
  let _ ← parseSemicolon
  finishNode node none

def parseDebuggerStatement : M ASTNode := do
  let node ← createNode K.DebuggerStatement none
  let _ ← parseExpected K.DebuggerKeyword
  let _ ← parseSemicolon
  finishNode node none

def isCurrentTokenVLC : M Bool := do
  let st ← get
  pure (st.ptoken = K.VarKeyword || st.ptoken = K.LetKeyword || st.ptoken = K.ConstKeyword)

/-- `isLeftHandExp(node)` (the classification over kind tags). -/
def isLeftHandExpKind (k : Nat) : Bool :=
  k = K.PropertyAccessExpression || k = K.ElementAccessExpression ||
  k = K.NewExpression || k = K.NewTargetExpression || k = K.CallExpression ||
  k = K.ArrayLiteralExpression || k = K.ParenthesizedExpression ||
  k = K.ObjectLiteralExpression || k = K.ClassExpression ||
  k = K.FunctionExpression || k = K.NodeExpression || k = K.Identifier ||
  k = K.NumericLiteral || k = K.StringLiteral || k = K.FalseKeyword ||
  k = K.NullKeyword || k = K.ThisKeyword || k = K.TrueKeyword ||
  k = K.SuperKeyword || k = K.ImportKeyword

/-- `isLeftHandExp(expr)` on a possibly-`undefined` value (reads `.kind`,
so it throws a `TypeError` on `undefined`). -/
def isLeftHandExpV (v : NodeV) : M Bool := do
  let k ← kindOfV v
  pure (isLeftHandExpKind k)

/-- `isAssignOp(t)`: note the source tests the module-level `token`,
ignoring its argument. -/
def isAssignOp (_t : Nat) : M Bool := do
  let st ← get
  pure (K.FirstAssignment ≤ st.ptoken && st.ptoken ≤ K.LastAssignment)

/-- `getBinaryOperatorPrecedence(kind)`: `-1` stops binary parsing. -/
def getBinaryOperatorPrecedence (kind : Nat) : Int :=
  if kind = K.QuestionQuestionToken then 4
  else if kind = K.BarBarToken then 5
  else if kind = K.AmpersandAmpersandToken then 6
  else if kind = K.BarToken then 7
  else if kind = K.CaretToken then 8
  else if kind = K.AmpersandToken then 9
  else if kind = K.EqualsEqualsToken || kind = K.ExclamationEqualsToken ||
          kind = K.EqualsEqualsEqualsToken || kind = K.ExclamationEqualsEqualsToken then 10
  else if kind = K.LessThanToken || kind = K.GreaterThanToken ||
          kind = K.LessThanEqualsToken || kind = K.GreaterThanEqualsToken ||
          kind = K.InstanceOfKeyword || kind = K.InKeyword || kind = K.AsKeyword then 11
  else if kind = K.LessThanLessThanToken || kind = K.GreaterThanGreaterThanToken ||
          kind = K.GreaterThanGreaterThanGreaterThanToken then 12
  else if kind = K.PlusToken || kind = K.MinusToken then 13
  else if kind = K.AsteriskToken || kind = K.SlashToken || kind = K.PercentToken then 14
  else if kind = K.AsteriskAsteriskToken then 15
  else -1

def canBeType (t : Nat) : Bool :=
  t = K.AnyKeyword || t = K.UnknownKeyword || t = K.NumberKeyword ||
  t = K.BigIntKeyword || t = K.ObjectKeyword || t = K.BooleanKeyword ||
  t = K.StringKeyword || t = K.SymbolKeyword || t = K.ThisKeyword ||
  t = K.VoidKeyword || t = K.UndefinedKeyword || t = K.NullKeyword ||
  t = K.NeverKeyword

def parseType : M ASTNode := do
  let st ← get
  if ¬ canBeType st.ptoken then do
    perror "Type literal expected."
    let node ← createNode K.UnknownKeyword none
    finishNode node none
  else do
    let node ← createNode st.ptoken none
    let _ ← nextToken
    finishNode node none

def nextTokenIsOpenParenOrDot : M Bool := do
  let t ← nextToken
  pure (t = K.OpenParenToken || t = K.DotToken)

def isStartOfLeftHandExp : M Bool := do
  let st ← get
  let token := st.ptoken
  if token = K.ThisKeyword || token = K.SuperKeyword || token = K.NullKeyword ||
     token = K.TrueKeyword || token = K.FalseKeyword || token = K.NumericLiteral ||
     token = K.StringLiteral || token = K.OpenParenToken || token = K.OpenBracketToken ||
     token = K.OpenBraceToken || token = K.FunctionKeyword || token = K.ClassKeyword ||
     token = K.NodeKeyword || token = K.SubnetKeyword || token = K.NewKeyword ||
     token = K.Identifier then
    pure true
  else if token = K.ImportKeyword then
    lookAheadP nextTokenIsOpenParenOrDot
  else scannerIsIdentifierM

def isStartOfExpression : M Bool := do
  if ← isStartOfLeftHandExp then pure true
  else do
    let st ← get
    let token := st.ptoken
    if token = K.PlusPlusToken || token = K.MinusMinusToken || token = K.DeleteKeyword ||
       token = K.VoidKeyword || token = K.TypeOfKeyword || token = K.AwaitKeyword ||
       token = K.PlusToken || token = K.MinusToken || token = K.TildeToken ||
       token = K.ExclamationToken || token = K.LessThanToken || token = K.YieldKeyword ||
       token = K.AsyncKeyword then
      pure true
    else scannerIsIdentifierM

/-- The parenthesis-balancing loop of `isStartOfParenthesizedArrowFunction`
(`default: continue` skips the zero test, as in the source). -/
def parenBalanceLoop (fuel : Nat) : Nat → M Bool :=
  Nat.rec (motive := fun _ => Nat → M Bool)
    (fun _ => throw PErr.fuelOut)
    (fun _ ih paren => do
      let t ← nextToken
      if t = K.OpenParenToken then
        if paren + 1 = 0 then do
          let _ ← nextToken
          pure true
        else ih (paren + 1)
      else if t = K.CloseParenToken then
        if paren - 1 = 0 then do
          let _ ← nextToken
          pure true
        else ih (paren - 1)
      else if t = K.EndOfFileToken then do
        perror "Unmatched parentheses"
        pure false
      else ih paren)
    fuel

/-- `isStartOfParenthesizedArrowFunction()` (the caller wraps it in
`lookAhead`).  The post-loop test translates the short-circuiting
`token === Colon && canBeType(nextToken()) && nextToken() === EGT ||
token === EGT` with its side effects. -/
def isStartOfParenthesizedArrowFunction (fuel : Nat) : M Bool := do
  let st ← get
  if st.ptoken ≠ K.OpenParenToken then pure false
  else do
    let ok ← parenBalanceLoop fuel 1
    if ¬ ok then pure false
    else do
      let st ← get
      if st.ptoken = K.ColonToken then do
        let t1 ← nextToken
        if canBeType t1 then do
          let t2 ← nextToken
          if t2 = K.EqualsGreaterThanToken then pure true
          else do
            let st ← get
            pure (st.ptoken = K.EqualsGreaterThanToken)
        else do
          let st ← get
          pure (st.ptoken = K.EqualsGreaterThanToken)
      else pure (st.ptoken = K.EqualsGreaterThanToken)

def angleBalanceLoop (fuel : Nat) : Nat → M Bool :=
  Nat.rec (motive := fun _ => Nat → M Bool)
    (fun _ => throw PErr.fuelOut)
    (fun _ ih angle => do
      let t ← nextToken
      if t = K.LessThanToken then
        if angle + 1 = 0 then do
          let _ ← nextToken
          pure true
        else ih (angle + 1)
      else if t = K.GreaterThanToken then
        if angle - 1 = 0 then do
          let _ ← nextToken
          pure true
        else ih (angle - 1)
      else if t = K.EndOfFileToken then do
        perror "Unmatched angle bracket"
        pure false
      else ih angle)
    fuel

/-- `isStartOfArrowFunctionWithCallSignature()`. -/
def isStartOfArrowFunctionWithCallSignature (fuel : Nat) : M Bool := do
  if ¬ (← parseOptional K.LessThanToken) then pure false
  else do
    let ok ← angleBalanceLoop fuel 1
    if ¬ ok then pure false
    else isStartOfParenthesizedArrowFunction fuel

/-- The parenthesis loop of `isStartOfNode_Worker` (here the zero test
runs after every non-EOF token). -/
def nodeParenLoop (fuel : Nat) : Nat → M Bool :=
  Nat.rec (motive := fun _ => Nat → M Bool)
    (fun _ => throw PErr.fuelOut)
    (fun _ ih paren => do
      let t ← nextToken
      if t = K.EndOfFileToken then pure false
      else
        let paren :=
          if t = K.OpenParenToken then paren + 1
          else if t = K.CloseParenToken then paren - 1
          else paren
        if paren = 0 then pure true else ih paren)
    fuel

def isStartOfNode_Worker (fuel : Nat) : M Bool := do
  let st ← get
  if st.ptoken ≠ K.NodeKeyword && st.ptoken ≠ K.SubnetKeyword then pure false
  else do
    let _ ← nextToken
    let st ← get
    if scannerIsIdentifier st.sc || st.ptoken = K.OpenBraceToken then pure true
    else if st.ptoken = K.OpenParenToken then do
      let ok ← nodeParenLoop fuel 1
      if ok then do
        let t ← nextToken
        pure (t = K.OpenBraceToken)
      else pure false
    else pure false

def isStartOfNode_ (fuel : Nat) : M Bool :=
  lookAheadP (isStartOfNode_Worker fuel)

/-- `isDeclaration()` (the bounded modifier-walking lookahead). -/
def isDeclaration (fuelArg : Nat) : M Bool :=
  Nat.rec (motive := fun _ => M Bool)
    (throw PErr.fuelOut)
    (fun fuel ih => do
    let st ← get
    let t := st.ptoken
    if t = K.VarKeyword || t = K.LetKeyword || t = K.ConstKeyword ||
       t = K.FunctionKeyword || t = K.ClassKeyword || t = K.EnumKeyword then
      pure true
    else if t = K.NodeKeyword || t = K.SubnetKeyword then
      isStartOfNode_ fuel
    else if t = K.InterfaceKeyword || t = K.TypeKeyword then do
      let _ ← nextToken
      scannerIsIdentifierM
    else if t = K.NamespaceKeyword then do
      let _ ← nextToken
      let st ← get
      pure (scannerIsIdentifier st.sc || st.ptoken = K.StringLiteral)
    else if t = K.AbstractKeyword || t = K.AsyncKeyword then do
      let _ ← nextToken
      ih
    else if t = K.ImportKeyword then do
      let _ ← nextToken
      let st ← get
      pure (st.ptoken = K.StringLiteral || st.ptoken = K.AsteriskToken ||
            st.ptoken = K.OpenBraceToken || scannerIsIdentifier st.sc)
    else if t = K.ExportKeyword then do
      let _ ← nextToken
      let st ← get
      if st.ptoken = K.AsteriskToken || st.ptoken = K.OpenBraceToken ||
         st.ptoken = K.DefaultKeyword then
        pure true
      else ih
    else pure false)
    fuelArg

def isStartOfDeclaration (fuel : Nat) : M Bool :=
  lookAheadP (isDeclaration fuel)

def isModifierKind (token : Nat) : Bool :=
  token = K.AbstractKeyword || token = K.AsyncKeyword || token = K.ConstKeyword ||
  token = K.DefaultKeyword || token = K.ExportKeyword

def nextTokenIsClassKeyword : M Bool := do
  let _ ← nextToken
  let st ← get
  pure (st.ptoken = K.ClassKeyword)

def nextTokenIsFunctionOrNodeOrSubnetKeyword : M Bool := do
  let _ ← nextToken
  let st ← get
  pure (st.ptoken = K.FunctionKeyword || st.ptoken = K.NodeKeyword ||
        st.ptoken = K.SubnetKeyword)

def tokenCanFollowDefaultKeyword : M Bool := do
  let st ← get
  if st.ptoken = K.ClassKeyword || st.ptoken = K.FunctionKeyword ||
     st.ptoken = K.NodeKeyword || st.ptoken = K.SubnetKeyword then
    pure true
  else if st.ptoken = K.AbstractKeyword then lookAheadP nextTokenIsClassKeyword
  else if st.ptoken = K.AsyncKeyword then lookAheadP nextTokenIsFunctionOrNodeOrSubnetKeyword
  else pure false

def nextTokenIsIdentifier : M Bool := do
  let _ ← nextToken
  scannerIsIdentifierM

def nextTokenIsIdentifierOrStringLiteral : M Bool := do
  let _ ← nextToken
  let st ← get
  pure (scannerIsIdentifier st.sc || st.ptoken = K.StringLiteral)

def tokenCanFollowExportKeyword : M Bool := do
  if ← tokenCanFollowDefaultKeyword then pure true
  else do
    let st ← get
    if st.ptoken = K.InterfaceKeyword then lookAheadP nextTokenIsIdentifier
    else if st.ptoken = K.TypeKeyword then lookAheadP nextTokenIsIdentifier
    else if st.ptoken = K.EnumKeyword then lookAheadP nextTokenIsIdentifier
    else if st.ptoken = K.NamespaceKeyword then lookAheadP nextTokenIsIdentifierOrStringLiteral
    else pure false

def nextTokenCanFollowModifier : M Bool := do
  let st ← get
  if st.ptoken = K.ConstKeyword then do
    let t ← nextToken
    pure (t = K.EnumKeyword)
  else if st.ptoken = K.ExportKeyword then do
    let _ ← nextToken
    let st ← get
    if st.ptoken = K.DefaultKeyword then
      lookAheadP (do
        let _ ← nextToken
        tokenCanFollowDefaultKeyword)
    else tokenCanFollowExportKeyword
  else if st.ptoken = K.DefaultKeyword then do
    let _ ← nextToken
    tokenCanFollowDefaultKeyword
  else if st.ptoken = K.AbstractKeyword then do
    let t ← nextToken
    pure (t = K.ClassKeyword)
  else if st.ptoken = K.AsyncKeyword then do
    let _ ← nextToken
    let st ← get
    pure (st.ptoken = K.FunctionKeyword || st.ptoken = K.NodeKeyword ||
          st.ptoken = K.SubnetKeyword)
  else pure false

def parseAnyContextualModifier : M Bool := do
  let st ← get
  if isModifierKind st.ptoken then tryParseB nextTokenCanFollowModifier
  else pure false

def parseModifiersLoop (fuel : Nat) : List JSVal → M (List JSVal) :=
  Nat.rec (motive := fun _ => List JSVal → M (List JSVal))
    (fun _ => throw PErr.fuelOut)
    (fun _ ih acc => do
      let st ← get
      let modifierStart := st.sc.startPos
      let modifierKind := st.ptoken
      if ← parseAnyContextualModifier then do
        let m ← createNode modifierKind (some modifierStart)
        let m ← finishNode m none
        ih (acc ++ [.nodeV m])
      else pure acc)
    fuel

/-- `parseModifiers()`: `undefined` when no modifier was consumed. -/
def parseModifiers (fuel : Nat) : M (Option JSVal) := do
  let st ← get
  let listPos := st.sc.startPos
  let l ← parseModifiersLoop fuel []
  if l.isEmpty then pure none
  else do
    let nl ← createNodeList l listPos none
    pure (some nl)

def parseTypeParametersLoop (fuelArg : Nat) : List JSVal → M (Option (List JSVal)) :=
  Nat.rec (motive := fun _ => List JSVal → M (Option (List JSVal)))
    (fun _ => throw PErr.fuelOut)
    (fun _ ih acc => do
    let st ← get
    if st.ptoken = K.GreaterThanToken then pure (some acc)
    else do
      let node ← createNode K.TypeParameter none
      if ¬ (← scannerIsIdentifierM) then pure none
      else do
        let nm ← parseIdentifier
        let node := node.setProp "name" (.nodeV nm)
        let st ← get
        let cont ←
          if st.ptoken = K.ExtendsKeyword then do
            let _ ← nextToken
            let st ← get
            if ¬ canBeType st.ptoken then pure (none : Option ASTNode)
            else do
              let c ← parseType
              pure (some (node.setProp "constraint" (.nodeV c)))
          else pure (some node)
        match cont with
        | none => pure none
        | some node => do
          let node ← finishNode node none
          let acc := acc ++ [.nodeV node]
          if ← parseOptional K.CommaToken then ih acc
          else pure (some acc))
    fuelArg

/-- `parseTypeParameters()`: `undefined` on any malformed list. -/
def parseTypeParameters (fuel : Nat) : M (Option JSVal) := do
  if ¬ (← parseOptional K.LessThanToken) then pure none
  else do
    let st ← get
    let listPos := st.sc.startPos
    match ← parseTypeParametersLoop fuel [] with
    | none => pure none
    | some l =>
      if ¬ (← parseOptional K.GreaterThanToken) then pure none
      else do
        let nl ← createNodeList l listPos none
        pure (some nl)

def parseTypeArgumentListLoop (listTerminator : Nat) (fuel : Nat) :
    List JSVal → M (Option (List JSVal)) :=
  Nat.rec (motive := fun _ => List JSVal → M (Option (List JSVal)))
    (fun _ => throw PErr.fuelOut)
    (fun _ ih acc => do
      let st ← get
      if st.ptoken = listTerminator then pure (some acc)
      else if ¬ canBeType st.ptoken then pure none
      else do
        let t ← parseType
        let acc := acc ++ [.nodeV t]
        if ← parseOptional K.CommaToken then ih acc
        else pure (some acc))
    fuel

/-- `parseTypeArgumentList(listTerminatorIsSemicolon = false)`. -/
def parseTypeArgumentList (fuel : Nat) (listTerminatorIsSemicolon : Bool) : M (Option JSVal) := do
  let st ← get
  let listPos := st.sc.startPos
  let listTerminator := if listTerminatorIsSemicolon then K.SemicolonToken else K.GreaterThanToken
  match ← parseTypeArgumentListLoop listTerminator fuel [] with
  | none => pure none
  | some l => do
    let nl ← createNodeList l listPos none
    pure (some nl)

/-- The `return undefined as any` stub of `parseClassExpression()`. -/
def parseClassExpression : M NodeV := pure none

def parseListLoop (kind : Nat) (pe : M JSVal) (fuel : Nat) : List JSVal → M (List JSVal) :=
  Nat.rec (motive := fun _ => List JSVal → M (List JSVal))
    (fun _ => throw PErr.fuelOut)
    (fun _ ih acc => do
      if ← isListTerminator kind then pure acc
      else do
        let e ← pe
        ih (acc ++ [e]))
    fuel

/-- `parseList(kind, parseElement)`. -/
def parseList (fuel : Nat) (kind : Nat) (pe : M JSVal) : M JSVal := do
  let st ← get
  let saveParsingContext := st.parsingContext
  set { st with parsingContext := st.parsingContext ||| (2 ^ kind) }
  let listPos := st.sc.startPos
  let l ← parseListLoop kind pe fuel []
  modify fun st => { st with parsingContext := saveParsingContext }
  createNodeList l listPos none

def parseDelimitedListLoop (kind : Nat) (pe : M JSVal) (fuel : Nat) :
    List JSVal → Bool → M (List JSVal × Bool) :=
  Nat.rec (motive := fun _ => List JSVal → Bool → M (List JSVal × Bool))
    (fun _ _ => throw PErr.fuelOut)
    (fun _ ih acc commaSet => do
      if ← isListTerminator kind then pure (acc, commaSet)
      else do
        let e ← pe
        let acc := acc ++ [e]
        if ← parseOptional K.CommaToken then ih acc true
        else do
          if ← isListTerminator kind then pure (acc, false)
          else do
            perror "Comma expected."
            ih acc false)
    fuel

/-- `parseDelimitedList(kind, parseElement)`: comma separated, tolerating
one trailing comma, reporting "Comma expected." but continuing. -/
def parseDelimitedList (fuel : Nat) (kind : Nat) (pe : M JSVal) : M JSVal := do
  let st ← get
  let saveParsingContext := st.parsingContext
  set { st with parsingContext := st.parsingContext ||| (2 ^ kind) }
  let listPos := st.sc.startPos
  let (l, tr) ← parseDelimitedListLoop kind pe fuel [] false
  modify fun st => { st with parsingContext := saveParsingContext }
  let nl ← createNodeList l listPos none
  pure (setTrailingDelimiter nl tr)

end TSGN

namespace TSGN

/-- `makeAssignmentExpression(left, operatorToken, right)` (node position
defaults to `scanner.startPos`, as in the source). -/
def makeAssignmentExpression (left : NodeV) (operatorToken : ASTNode) (right : NodeV) :
    M NodeV := do
  let node ← createNode K.AssignmentExpression none
  let node := node.setProp "left" (jsOfN left)
  let node := node.setProp "operatorToken" (.nodeV operatorToken)
  let node := node.setProp "right" (jsOfN right)
  let n ← finishNode node none
  pure (some n)

/-- `makeBinaryExpression(left, operatorToken, right)` (positioned at
`left.pos`, a `TypeError` when `left` is `undefined`). -/
def makeBinaryExpression (left : NodeV) (operatorToken : ASTNode) (right : NodeV) :
    M NodeV := do
  let p ← posOfV left
  let node ← createNode K.BinaryExpression (some p)
  let node := node.setProp "left" (jsOfN left)
  let node := node.setProp "operatorToken" (.nodeV operatorToken)
  let node := node.setProp "right" (jsOfN right)
  let n ← finishNode node none
  pure (some n)

/-- `makeAsExpression(left, operatorToken, right)`. -/
def makeAsExpression (left : NodeV) (operatorToken : ASTNode) (right : ASTNode) :
    M NodeV := do
  let p ← posOfV left
  let node ← createNode K.AsExpression (some p)
  let node := node.setProp "left" (jsOfN left)
  let node := node.setProp "operatorToken" (.nodeV operatorToken)
  let node := node.setProp "right" (.nodeV right)
  let n ← finishNode node none
  pure (some n)

end TSGN

namespace TSGN

/-! ## The mutually recursive productions (translated from `part_003`).
Each takes fuel structurally; recursive calls use the predecessor, so the
whole family is total and reduces by `rfl`. -/

structure ParserFns where
  parseStatement : M ASTNode
  parseBlock : M ASTNode
  parseExpressionOrLabeledStatement : M ASTNode
  parseReturnStatement : M ASTNode
  parseIfStatement : M ASTNode
  parseIfElifLoop : List JSVal → M (List JSVal)
  parseForOrForInOrForOfStatement : M ASTNode
  parseSwitchStatement : M ASTNode
  parseCaseOrDefaultClause : M ASTNode
  parseCaseClause : M ASTNode
  parseDefaultClause : M ASTNode
  parseTryStatement : M ASTNode
  parseCatchClause : M ASTNode
  parseUsingStatement : M ASTNode
  parseUsingLoop : List JSVal → M (List JSVal)
  tryParseWalrusDeclaration : Bool → M (Option ASTNode)
  parseExpression : M NodeV
  parseExpressionRest : NodeV → M NodeV
  parseConnectExp : M NodeV
  parseConnectExpRest : NodeV → M NodeV
  parseAssignExp : M NodeV
  parseConditionalExpRest : NodeV → M NodeV
  parseYieldExpression : M NodeV
  parseArrowFunction : M NodeV
  addCallSignature : ASTNode → M ASTNode
  parseParameter : M ASTNode
  parseBinaryExp : Int → M NodeV
  parseBinaryExpRest : Int → NodeV → M NodeV
  parseUnaryExp : M NodeV
  parseTypeAssertion : M NodeV
  parseUpdateExp : M NodeV
  parseLeftHandExp : M NodeV
  parseMemberExp : M NodeV
  parseMemberExpRest : NodeV → M NodeV
  parseCallExpRest : NodeV → M NodeV
  parseTypeArgumentsInExpression : M (Option JSVal)
  parseArguments : M ASTNode
  parseArgument : M JSVal
  parsePrimaryExp : M NodeV
  parseParenthesizedExpression : M NodeV
  parseArrayLiteralExpression : M NodeV
  parseArrayElement : M JSVal
  parseObjectLiteralExpression : M NodeV
  parseObjectDefinition : M JSVal
  parseNewExpression : M NodeV
  parseVariableDeclarationWithoutModifiers : Bool → Option ASTNode → M ASTNode
  parseVariableBinding : M ASTNode
  parseFunctionExpressionWithoutModifiers : Option ASTNode → M NodeV
  parseFunctionWithoutModifiers : ASTNode → M ASTNode
  parseNodeExpressionWithoutModifiers : Option ASTNode → M NodeV
  parseNode_WithoutModifiers : ASTNode → M ASTNode
  parseNodeStatement : M JSVal
  parseDecoratorsLoop : List JSVal → M (List JSVal)
  parseDecorators : M (Option JSVal)
  parseDeclaration : M ASTNode
  parseDeclarationWorker : ASTNode → M ASTNode

def baseParserFns : ParserFns where
  parseStatement := throw PErr.fuelOut
  parseBlock := throw PErr.fuelOut
  parseExpressionOrLabeledStatement := throw PErr.fuelOut
  parseReturnStatement := throw PErr.fuelOut
  parseIfStatement := throw PErr.fuelOut
  parseIfElifLoop := fun _ => throw PErr.fuelOut
  parseForOrForInOrForOfStatement := throw PErr.fuelOut
  parseSwitchStatement := throw PErr.fuelOut
  parseCaseOrDefaultClause := throw PErr.fuelOut
  parseCaseClause := throw PErr.fuelOut
  parseDefaultClause := throw PErr.fuelOut
  parseTryStatement := throw PErr.fuelOut
  parseCatchClause := throw PErr.fuelOut
  parseUsingStatement := throw PErr.fuelOut
  parseUsingLoop := fun _ => throw PErr.fuelOut
  tryParseWalrusDeclaration := fun _ => throw PErr.fuelOut
  parseExpression := throw PErr.fuelOut
  parseExpressionRest := fun _ => throw PErr.fuelOut
  parseConnectExp := throw PErr.fuelOut
  parseConnectExpRest := fun _ => throw PErr.fuelOut
  parseAssignExp := throw PErr.fuelOut
  parseConditionalExpRest := fun _ => throw PErr.fuelOut
  parseYieldExpression := throw PErr.fuelOut
  parseArrowFunction := throw PErr.fuelOut
  addCallSignature := fun _ => throw PErr.fuelOut
  parseParameter := throw PErr.fuelOut
  parseBinaryExp := fun _ => throw PErr.fuelOut
  parseBinaryExpRest := fun _ _ => throw PErr.fuelOut
  parseUnaryExp := throw PErr.fuelOut
  parseTypeAssertion := throw PErr.fuelOut
  parseUpdateExp := throw PErr.fuelOut
  parseLeftHandExp := throw PErr.fuelOut
  parseMemberExp := throw PErr.fuelOut
  parseMemberExpRest := fun _ => throw PErr.fuelOut
  parseCallExpRest := fun _ => throw PErr.fuelOut
  parseTypeArgumentsInExpression := throw PErr.fuelOut
  parseArguments := throw PErr.fuelOut
  parseArgument := throw PErr.fuelOut
  parsePrimaryExp := throw PErr.fuelOut
  parseParenthesizedExpression := throw PErr.fuelOut
  parseArrayLiteralExpression := throw PErr.fuelOut
  parseArrayElement := throw PErr.fuelOut
  parseObjectLiteralExpression := throw PErr.fuelOut
  parseObjectDefinition := throw PErr.fuelOut
  parseNewExpression := throw PErr.fuelOut
  parseVariableDeclarationWithoutModifiers := fun _ _ => throw PErr.fuelOut
  parseVariableBinding := throw PErr.fuelOut
  parseFunctionExpressionWithoutModifiers := fun _ => throw PErr.fuelOut
  parseFunctionWithoutModifiers := fun _ => throw PErr.fuelOut
  parseNodeExpressionWithoutModifiers := fun _ => throw PErr.fuelOut
  parseNode_WithoutModifiers := fun _ => throw PErr.fuelOut
  parseNodeStatement := throw PErr.fuelOut
  parseDecoratorsLoop := fun _ => throw PErr.fuelOut
  parseDecorators := throw PErr.fuelOut
  parseDeclaration := throw PErr.fuelOut
  parseDeclarationWorker := fun _ => throw PErr.fuelOut

def mkParserFns (fuel : Nat) (prev : ParserFns) : ParserFns where
  parseStatement := do
    let st ← get
    let t := st.ptoken
    if t = K.SemicolonToken then parseEmptyStatement
    else if t = K.OpenBraceToken then prev.parseBlock
    else if t = K.ContinueKeyword then parseBreakOrContinueStatement K.ContinueStatement
    else if t = K.BreakKeyword then parseBreakOrContinueStatement K.BreakStatement
    else if t = K.FallThroughKeyword then parseFallThroughStatement
    else if t = K.ReturnKeyword then prev.parseReturnStatement
    else if t = K.DebuggerKeyword then parseDebuggerStatement
    else if t = K.IfKeyword then prev.parseIfStatement
    else if t = K.ForKeyword then prev.parseForOrForInOrForOfStatement
    else if t = K.SwitchKeyword then prev.parseSwitchStatement
    else if t = K.TryKeyword then prev.parseTryStatement
    else if t = K.UsingKeyword then prev.parseUsingStatement
    else if t = K.AtToken then prev.parseDeclaration
    else if t = K.ImportKeyword || t = K.ExportKeyword || t = K.VarKeyword ||
            t = K.LetKeyword || t = K.ConstKeyword || t = K.AbstractKeyword ||
            t = K.ClassKeyword || t = K.AsyncKeyword || t = K.FunctionKeyword ||
            t = K.NodeKeyword || t = K.SubnetKeyword || t = K.InterfaceKeyword ||
            t = K.TypeKeyword || t = K.EnumKeyword || t = K.NamespaceKeyword then
      if ← isStartOfDeclaration fuel then prev.parseDeclaration
      else prev.parseExpressionOrLabeledStatement
    else prev.parseExpressionOrLabeledStatement
  parseBlock := do
    let node ← createNode K.Block none
    let _ ← parseExpected K.OpenBraceToken
    let stmts ← parseList fuel PC.BlockStatements
      (do
        let s ← prev.parseStatement
        pure (JSVal.nodeV s))
    let node := node.setProp "statements" stmts
    let _ ← parseExpected K.CloseBraceToken
    finishNode node none
  parseExpressionOrLabeledStatement := do
    let node ← createNode K.Unknown none
    let expression ← prev.parseExpression
    let k ← kindOfV expression
    let lab ← if k = K.Identifier then parseOptional K.ColonToken else pure false
    if lab then do
      let node := node.withKind K.LabeledStatement
      let node := node.setProp "label" (jsOfN expression)
      let stmt ← prev.parseStatement
      let node := node.setProp "statement" (.nodeV stmt)
      finishNode node none
    else do
      let node := node.withKind K.ExpressionStatement
      let node := node.setProp "expression" (jsOfN expression)
      let _ ← parseSemicolon
      finishNode node none
  parseReturnStatement := do
    let node ← createNode K.ReturnStatement none
    let _ ← parseExpected K.ReturnKeyword
    let st ← get
    let node ←
      if st.ptoken ≠ K.SemicolonToken then do
        let e ← prev.parseExpression
        pure (node.setProp "expression" (jsOfN e))
      else pure node
    let _ ← parseSemicolon
    finishNode node none
  parseIfStatement := do
    let node ← createNode K.IfStatement none
    let _ ← parseExpected K.IfKeyword
    let walrus ← prev.tryParseWalrusDeclaration false
    let variableDeclaration ←
      match walrus with
      | some w => pure (some w)
      | none => do
        if ← isCurrentTokenVLC then do
          let v ← prev.parseVariableDeclarationWithoutModifiers false none
          pure (some v)
        else pure none
    let node :=
      match variableDeclaration with
      | some v => node.setProp "variableDeclaration" (.nodeV v)
      | none => node
    let e ← prev.parseExpression
    let node := node.setProp "expression" (jsOfN e)
    let tb ← prev.parseBlock
    let node := node.setProp "thenBlock" (.nodeV tb)
    let st ← get
    let elifClausesPos := st.sc.startPos
    let clauses ← prev.parseIfElifLoop []
    let node ←
      if clauses.isEmpty then pure node
      else do
        let nl ← createNodeList clauses elifClausesPos none
        pure (node.setProp "elifClauses" nl)
    let node ←
      if ← parseOptional K.ElseKeyword then do
        let b ← prev.parseBlock
        pure (node.setProp "elseBlock" (.nodeV b))
      else pure node
    finishNode node none
  parseIfElifLoop := fun acc => do
    let st ← get
    if st.ptoken ≠ K.ElifKeyword then pure acc
    else do
      let clause ← createNode K.ElifClause none
      let _ ← nextToken
      let walrus ← prev.tryParseWalrusDeclaration false
      let variableDeclaration ←
        match walrus with
        | some w => pure (some w)
        | none => do
          if ← isCurrentTokenVLC then do
            let v ← prev.parseVariableDeclarationWithoutModifiers false none
            pure (some v)
          else pure none
      let clause :=
        match variableDeclaration with
        | some v => clause.setProp "variableDeclaration" (.nodeV v)
        | none => clause
      let e ← prev.parseExpression
      let clause := clause.setProp "expression" (jsOfN e)
      let tb ← prev.parseBlock
      let clause := clause.setProp "thenBlock" (.nodeV tb)
      prev.parseIfElifLoop (acc ++ [.nodeV clause])
  parseForOrForInOrForOfStatement := do
    let st ← get
    let pos0 := st.sc.startPos
    let _ ← parseExpected K.ForKeyword
    let st ← get
    if st.ptoken = K.OpenBraceToken then do
      let node ← createNode K.ForStatement (some pos0)
      let b ← prev.parseBlock
      let node := node.setProp "block" (.nodeV b)
      finishNode node none
    else do
      let vlcNow ← isCurrentTokenVLC
      let la ←
        if vlcNow then
          lookAheadP (do
            let _ ← nextToken
            if ¬ (← scannerIsIdentifierM) then pure false
            else do
              let _ ← nextToken
              let st ← get
              pure (st.ptoken == K.InKeyword || st.ptoken == K.OfKeyword))
        else pure false
      if vlcNow && la then do
        -- for-in / for-of branch: note the source never consumes the
        -- var/let/const token here before calling parseIdentifier.
        let node ← createNode K.Unknown (some pos0)
        let st ← get
        let node := node.setProp "vlc" (.natV st.ptoken)
        let ident ← parseIdentifier
        let node := node.setProp "identifier" (.nodeV ident)
        let st ← get
        if st.ptoken = K.InKeyword then do
          let node := node.withKind K.ForInStatement
          let _ ← nextToken
          let e ← prev.parseExpression
          let node := node.setProp "expression" (jsOfN e)
          let b ← prev.parseBlock
          let node := node.setProp "block" (.nodeV b)
          finishNode node none
        else do
          let node := node.withKind K.ForOfStatement
          let _ ← nextToken
          let e ← prev.parseConnectExp
          let node := node.setProp "expression" (jsOfN e)
          let b ← prev.parseBlock
          let node := node.setProp "block" (.nodeV b)
          finishNode node none
      else do
        let node ← createNode K.ForStatement (some pos0)
        let walrus ← prev.tryParseWalrusDeclaration false
        let variableDeclaration ←
          match walrus with
          | some w => pure (some w)
          | none => do
            if ← isCurrentTokenVLC then do
              let v ← prev.parseVariableDeclarationWithoutModifiers false none
              pure (some v)
            else pure none
        let st ← get
        let node ←
          if st.ptoken ≠ K.SemicolonToken then
            match variableDeclaration with
            | some v => pure (node.setProp "initializer" (.nodeV v))
            | none => do
              let e ← prev.parseExpression
              pure (node.setProp "initializer" (jsOfN e))
          else pure node
        if variableDeclaration.isSome then do
          let c ← prev.parseExpression
          let node := node.setProp "condition" (jsOfN c)
          let _ ← parseSemicolon
          let st ← get
          let node ←
            if st.ptoken ≠ K.OpenBraceToken then do
              let i ← prev.parseExpression
              pure (node.setProp "incrementor" (jsOfN i))
            else pure node
          let b ← prev.parseBlock
          let node := node.setProp "block" (.nodeV b)
          finishNode node none
        else do
          if ← parseOptional K.SemicolonToken then do
            let c ← prev.parseExpression
            let node := node.setProp "condition" (jsOfN c)
            let _ ← parseSemicolon
            let st ← get
            let node ←
              if st.ptoken ≠ K.OpenBraceToken then do
                let i ← prev.parseExpression
                pure (node.setProp "incrementor" (jsOfN i))
              else pure node
            let b ← prev.parseBlock
            let node := node.setProp "block" (.nodeV b)
            finishNode node none
          else do
            let node := node.setProp "condition" (node.prop "initializer")
            let node := node.setProp "initializer" JSVal.undef
            let b ← prev.parseBlock
            let node := node.setProp "block" (.nodeV b)
            finishNode node none
  parseSwitchStatement := do
    let node ← createNode K.SwitchStatement none
    let _ ← parseExpected K.SwitchKeyword
    let walrus ← prev.tryParseWalrusDeclaration false
    let variableDeclaration ←
      match walrus with
      | some w => pure (some w)
      | none => do
        if ← isCurrentTokenVLC then do
          let v ← prev.parseVariableDeclarationWithoutModifiers false none
          pure (some v)
        else pure none
    let node :=
      match variableDeclaration with
      | some v => node.setProp "variableDeclaration" (.nodeV v)
      | none => node
    let e ← prev.parseExpression
    let node := node.setProp "expression" (jsOfN e)
    let caseBlock ← createNode K.CaseBlock none
    let _ ← parseExpected K.OpenBraceToken
    let clauses ← parseList fuel PC.SwitchClauses
      (do
        let c ← prev.parseCaseOrDefaultClause
        pure (JSVal.nodeV c))
    let caseBlock := caseBlock.setProp "clauses" clauses
    let _ ← parseExpected K.CloseBraceToken
    let cb ← finishNode caseBlock none
    let node := node.setProp "caseBlock" (.nodeV cb)
    finishNode node none
  parseCaseOrDefaultClause := do
    let st ← get
    if st.ptoken = K.CaseKeyword then prev.parseCaseClause else prev.parseDefaultClause
  parseCaseClause := do
    let node ← createNode K.CaseClause none
    let _ ← parseExpected K.CaseKeyword
    let e ← prev.parseExpression
    let node := node.setProp "expression" (jsOfN e)
    let _ ← parseExpected K.ColonToken
    let stmts ← parseList fuel PC.SwitchClauseStatements
      (do
        let s ← prev.parseStatement
        pure (JSVal.nodeV s))
    let node := node.setProp "statements" stmts
    finishNode node none
  parseDefaultClause := do
    let node ← createNode K.DefaultClause none
    let _ ← parseExpected K.DefaultKeyword
    let _ ← parseExpected K.ColonToken
    let stmts ← parseList fuel PC.SwitchClauseStatements
      (do
        let s ← prev.parseStatement
        pure (JSVal.nodeV s))
    let node := node.setProp "statements" stmts
    finishNode node none
  parseTryStatement := do
    let node ← createNode K.TryStatement none
    let _ ← parseExpected K.TryKeyword
    let tb ← prev.parseBlock
    let node := node.setProp "tryBlock" (.nodeV tb)
    let st ← get
    let catchClause ←
      if st.ptoken = K.CatchKeyword then do
        let c ← prev.parseCatchClause
        pure (some c)
      else pure none
    let node := node.setProp "catchClause"
      (match catchClause with
       | some c => .nodeV c
       | none => .undef)
    let st ← get
    let node ←
      if catchClause.isNone || st.ptoken = K.FinallyKeyword then do
        let _ ← parseExpected K.FinallyKeyword
        let fb ← prev.parseBlock
        pure (node.setProp "finallyBlock" (.nodeV fb))
      else pure node
    finishNode node none
  parseCatchClause := do
    let result ← createNode K.CatchClause none
    let _ ← parseExpected K.CatchKeyword
    let st ← get
    let result ←
      if st.ptoken ≠ K.OpenBraceToken then do
        let i ← parseIdentifier
        pure (result.setProp "identifier" (.nodeV i))
      else pure result
    let b ← prev.parseBlock
    let result := result.setProp "block" (.nodeV b)
    finishNode result none
  parseUsingStatement := do
    let node ← createNode K.UsingStatement none
    let _ ← parseExpected K.UsingKeyword
    let st ← get
    let targetListPos := st.sc.startPos
    let targets ← prev.parseUsingLoop []
    let nl ← createNodeList targets targetListPos none
    let node := node.setProp "usingTargets" nl
    let b ← prev.parseBlock
    let node := node.setProp "block" (.nodeV b)
    finishNode node none
  parseUsingLoop := fun acc => do
    let st ← get
    if st.ptoken = K.OpenBraceToken then pure acc
    else do
      let acc ←
        if scannerIsIdentifier st.sc then do
          let walrus ← prev.tryParseWalrusDeclaration true
          match walrus with
          | some w => pure (acc ++ [JSVal.nodeV w])
          | none => do
            let i ← parseIdentifier
            pure (acc ++ [JSVal.nodeV i])
        else do
          let v ← prev.parseVariableDeclarationWithoutModifiers true none
          pure (acc ++ [JSVal.nodeV v])
      if ← parseOptional K.SemicolonToken then prev.parseUsingLoop acc
      else pure acc
  tryParseWalrusDeclaration := fun notParseSemicolon => do
    if ¬ (← scannerIsIdentifierM) then pure none
    else do
      let la ← lookAheadP (do
        let t ← nextToken
        pure (t != K.ColonEqualsToken))
      if la then pure none
      else do
        let node ← createNode K.VariableDeclaration none
        let node := node.setProp "isWalrus" (.boolV true)
        let st ← get
        let pos := st.sc.startPos
        let binding ← createNode K.VariableBinding none
        let nm ← parseIdentifier
        let binding := binding.setProp "name" (.nodeV nm)
        let _ ← parseExpected K.ColonEqualsToken
        let init ← prev.parseConnectExp
        let binding := binding.setProp "initializer" (jsOfN init)
        let binding ← finishNode binding none
        let nl ← createNodeList [.nodeV binding] pos none
        let node := node.setProp "declarations" nl
        if ¬ notParseSemicolon then do
          let _ ← parseSemicolon
          let n ← finishNode node none
          pure (some n)
        else do
          let n ← finishNode node none
          pure (some n)
  parseExpression := do
    let e ← prev.parseConnectExp
    prev.parseExpressionRest e
  parseExpressionRest := fun expr => do
    let c ← parseOptionalToken K.CommaToken
    if c.isSome then do
      let p ← posOfV expr
      let node ← createNode K.CommaExpression (some p)
      let node := node.setProp "left" (jsOfN expr)
      let r ← prev.parseConnectExp
      let node := node.setProp "right" (jsOfN r)
      let n ← finishNode node none
      prev.parseExpressionRest (some n)
    else pure expr
  parseConnectExp := do
    let e ← prev.parseAssignExp
    prev.parseConnectExpRest e
  parseConnectExpRest := fun expr => do
    let c ← parseOptionalToken K.MinusGreaterThanToken
    if c.isSome then do
      let p ← posOfV expr
      let node ← createNode K.ConnectionExpression (some p)
      let node := node.setProp "left" (jsOfN expr)
      let r ← prev.parseAssignExp
      let node := node.setProp "right" (jsOfN r)
      let n ← finishNode node none
      prev.parseConnectExpRest (some n)
    else pure expr
  parseAssignExp := do
    let st ← get
    if st.ptoken = K.YieldKeyword then prev.parseYieldExpression
    else do
      let c1 ←
        if st.ptoken = K.AsyncKeyword then
          lookAheadP (do
            let t ← nextToken
            pure (t != K.Unknown && t != K.FunctionKeyword && t != K.NodeKeyword &&
                  t != K.SubnetKeyword))
        else pure false
      let c2 ←
        if c1 then pure false
        else do
          if ← scannerIsIdentifierM then
            lookAheadP (do
              let t ← nextToken
              pure (t == K.EqualsGreaterThanToken))
          else pure false
      let c3 ←
        if c1 || c2 then pure false
        else
          if st.ptoken = K.LessThanToken then
            lookAheadP (isStartOfArrowFunctionWithCallSignature fuel)
          else pure false
      let c4 ←
        if c1 || c2 || c3 then pure false
        else lookAheadP (isStartOfParenthesizedArrowFunction fuel)
      if c1 || c2 || c3 || c4 then prev.parseArrowFunction
      else do
        let expr ← prev.parseBinaryExp 0
        let lh ← isLeftHandExpV expr
        let doAssign ←
          if lh then do
            let rsg ← reScanGreaterToken
            isAssignOp rsg
          else pure false
        if doAssign then do
          let op ← parseTokenNode
          let rhs ← prev.parseAssignExp
          makeAssignmentExpression expr op rhs
        else prev.parseConditionalExpRest expr
  parseConditionalExpRest := fun expr => do
    if ¬ (← parseOptional K.QuestionToken) then pure expr
    else do
      let p ← posOfV expr
      let node ← createNode K.ConditionalExpression (some p)
      let node := node.setProp "condition" (jsOfN expr)
      let wt ← prev.parseAssignExp
      let node := node.setProp "whenTrue" (jsOfN wt)
      let _ ← parseExpected K.ColonToken
      let wf ← prev.parseAssignExp
      let node := node.setProp "whenFalse" (jsOfN wf)
      let n ← finishNode node none
      pure (some n)
  parseYieldExpression := do
    let node ← createNode K.YieldExpression none
    let _ ← nextToken
    let st ← get
    let node ←
      if st.ptoken = K.AsteriskToken then do
        let _ ← nextToken
        pure (node.setProp "hasAsterisk" (.boolV true))
      else pure (node.setProp "hasAsterisk" (.boolV false))
    let node ←
      if ← isStartOfExpression then do
        let e ← prev.parseAssignExp
        pure (node.setProp "expression" (jsOfN e))
      else pure node
    let n ← finishNode node none
    pure (some n)
  parseArrowFunction := do
    let node ← createNode K.ArrowFunction none
    let isAsync ← parseOptional K.AsyncKeyword
    let node := node.setProp "isAsync" (.boolV isAsync)
    let node ←
      if ← scannerIsIdentifierM then do
        let singleParameter ← createNode K.Parameter none
        let nm ← parseIdentifier
        let singleParameter := singleParameter.setProp "name" (.nodeV nm)
        let singleParameter ← finishNode singleParameter none
        let nl ← createNodeList [.nodeV singleParameter] singleParameter.pos none
        pure (node.setProp "parameters" nl)
      else prev.addCallSignature node
    let egt ← parseExpectedToken K.EqualsGreaterThanToken
    let egt ←
      match egt with
      | some e => pure e
      | none => do
        perror "expected =>"
        let e ← createNode K.EqualsGreaterThanToken none
        finishNode e none
    let node := node.setProp "equalsGreaterThanToken" (.nodeV egt)
    let st ← get
    let node ←
      if st.ptoken = K.OpenBraceToken then do
        let b ← prev.parseBlock
        pure (node.setProp "body" (.nodeV b))
      else do
        let b ← prev.parseConnectExp
        pure (node.setProp "body" (jsOfN b))
    let n ← finishNode node none
    pure (some n)
  addCallSignature := fun node => do
    let st ← get
    let node ←
      if st.ptoken = K.LessThanToken then do
        let tp ← parseTypeParameters fuel
        pure (node.setProp "typeParameters"
          (match tp with
           | some v => v
           | none => .undef))
      else pure node
    let _ ← parseExpected K.OpenParenToken
    let params ← parseDelimitedList fuel PC.Parameters
      (do
        let p ← prev.parseParameter
        pure (JSVal.nodeV p))
    let node := node.setProp "parameters" params
    let _ ← parseExpected K.CloseParenToken
    if ← parseOptional K.ColonToken then do
      let t ← parseType
      pure (node.setProp "type" (.nodeV t))
    else pure node
  parseParameter := do
    let node ← createNode K.Parameter none
    let st ← get
    let node ←
      if st.ptoken = K.ThisKeyword then do
        let idThis ← createNode K.Identifier none
        let idThis := idThis.setProp "text"
          (match st.sc.tokenValue with
           | some v => .strV v
           | none => .undef)
        let idThis := idThis.setProp "originalKeywordKind" (.natV st.ptoken)
        let _ ← nextToken
        let idThis ← finishNode idThis none
        pure (node.setProp "name" (.nodeV idThis))
      else do
        let nm ← parseIdentifier
        pure (node.setProp "name" (.nodeV nm))
    let qt ← parseOptionalToken K.QuestionToken
    let node := node.setProp "questionToken"
      (match qt with
       | some q => .nodeV q
       | none => .undef)
    let node ←
      if ← parseOptional K.ColonToken then do
        let t ← parseType
        pure (node.setProp "type" (.nodeV t))
      else pure node
    let node ←
      if ← parseOptional K.EqualsToken then do
        let i ← prev.parseConnectExp
        pure (node.setProp "initializer" (jsOfN i))
      else pure node
    finishNode node none
  parseBinaryExp := fun precedence => do
    let leftOperand ← prev.parseUnaryExp
    prev.parseBinaryExpRest precedence leftOperand
  parseBinaryExpRest := fun precedence leftOperand => do
    let rsg ← reScanGreaterToken
    let newPrecedence := getBinaryOperatorPrecedence rsg
    let consumeCurrentOperator :=
      if rsg = K.AsteriskAsteriskToken then newPrecedence ≥ precedence
      else newPrecedence > precedence
    if ¬ consumeCurrentOperator then pure leftOperand
    else do
      let st ← get
      if st.ptoken = K.AsKeyword then do
        let op ← parseTokenNode
        let t ← parseType
        let l ← makeAsExpression leftOperand op t
        prev.parseBinaryExpRest precedence l
      else do
        let op ← parseTokenNode
        let r ← prev.parseBinaryExp newPrecedence
        let l ← makeBinaryExpression leftOperand op r
        prev.parseBinaryExpRest precedence l
  parseUnaryExp := do
    let st ← get
    let t := st.ptoken
    if t = K.DeleteKeyword || t = K.VoidKeyword || t = K.TypeOfKeyword ||
       t = K.AwaitKeyword || t = K.PlusToken || t = K.MinusToken ||
       t = K.TildeToken || t = K.ExclamationToken then do
      let node ← createNode K.PrefixUnaryExpression none
      let node := node.setProp "operator" (.natV t)
      let _ ← nextToken
      let operand ← prev.parseUnaryExp
      let node := node.setProp "operand" (jsOfN operand)
      let n ← finishNode node none
      pure (some n)
    else if t = K.LessThanToken then prev.parseTypeAssertion
    else prev.parseUpdateExp
  parseTypeAssertion := do
    let node ← createNode K.TypeAssertionExpression none
    let _ ← parseExpected K.LessThanToken
    let t ← parseType
    let node := node.setProp "type" (.nodeV t)
    let _ ← parseExpected K.GreaterThanToken
    let operand ← prev.parseUnaryExp
    let node := node.setProp "operand" (jsOfN operand)
    let n ← finishNode node none
    pure (some n)
  parseUpdateExp := do
    let st ← get
    if st.ptoken = K.PlusPlusToken || st.ptoken = K.MinusMinusToken then do
      let node ← createNode K.PrefixUpdateExpression none
      let node := node.setProp "operator" (.natV st.ptoken)
      let _ ← nextToken
      let operand ← prev.parseUnaryExp
      let node := node.setProp "operand" (jsOfN operand)
      let n ← finishNode node none
      pure (some n)
    else do
      let expr ← prev.parseLeftHandExp
      let lh ← isLeftHandExpV expr
      assertM lh
      let st ← get
      if st.ptoken = K.PlusPlusToken || st.ptoken = K.MinusMinusToken then do
        let p ← posOfV expr
        let node ← createNode K.PostfixUpdateExpression (some p)
        let node := node.setProp "operand" (jsOfN expr)
        let node := node.setProp "operator" (.natV st.ptoken)
        let _ ← nextToken
        let n ← finishNode node none
        pure (some n)
      else pure expr
  parseLeftHandExp := do
    let expr ← prev.parseMemberExp
    prev.parseCallExpRest expr
  parseMemberExp := do
    let st ← get
    let la ←
      if st.ptoken = K.NewKeyword then
        lookAheadP (do
          let t ← nextToken
          if t ≠ K.DotToken then pure false
          else do
            let t2 ← nextToken
            if t2 = K.Unknown then pure false
            else do
              let st ← get
              pure (st.sc.tokenValue == some "target"))
      else pure false
    if la then do
      let node ← createNode K.NewTargetExpression none
      let _ ← nextToken
      let _ ← nextToken
      let _ ← nextToken
      let n ← finishNode node none
      pure (some n)
    else do
      let expr ← prev.parsePrimaryExp
      prev.parseMemberExpRest expr
  parseMemberExpRest := fun expr => do
    let flags ← lookAheadP (do
      let st ← get
      if st.ptoken = K.DotToken then do
        let t ← nextToken
        if t != K.Unknown && (← scannerIsIdentifierM) then pure (true, true, false)
        else pure (false, false, false)
      else if st.ptoken = K.OpenBracketToken then pure (true, false, false)
      else if st.ptoken = K.QuestionDotToken then do
        let _ ← nextToken
        let st ← get
        if st.ptoken = K.OpenBracketToken then pure (true, false, true)
        else if st.ptoken = K.Identifier then pure (true, true, true)
        else pure (false, false, true)
      else pure (false, false, false))
    let (isAccess, isPropertyAccess, isOptionalChain) := flags
    if ¬ isAccess then pure expr
    else if isPropertyAccess then do
      let p ← posOfV expr
      let node ← createNode K.PropertyAccessExpression (some p)
      let node := node.setProp "expression" (jsOfN expr)
      let qdt ←
        if isOptionalChain then parseOptionalToken K.QuestionDotToken
        else do
          let _ ← nextToken
          pure none
      let node := node.setProp "questionDotToken"
        (match qdt with
         | some q => .nodeV q
         | none => .undef)
      let nm ← parseIdentifier
      let node := node.setProp "name" (.nodeV nm)
      let n ← finishNode node none
      prev.parseMemberExpRest (some n)
    else do
      let p ← posOfV expr
      let node ← createNode K.ElementAccessExpression (some p)
      let node := node.setProp "expression" (jsOfN expr)
      let qdt ←
        if isOptionalChain then parseOptionalToken K.QuestionDotToken
        else pure none
      let node := node.setProp "questionDotToken"
        (match qdt with
         | some q => .nodeV q
         | none => .undef)
      let _ ← nextToken
      let arg ← prev.parseExpression
      let node := node.setProp "argumentExpression" (jsOfN arg)
      let _ ← parseExpected K.CloseBracketToken
      let n ← finishNode node none
      prev.parseMemberExpRest (some n)
  parseCallExpRest := fun expr => do
    let expr ← prev.parseMemberExpRest expr
    let questionDotToken ← parseOptionalToken K.QuestionDotToken
    let st ← get
    if st.ptoken = K.LessThanToken then do
      let typeArguments ← tryParseO (prev.parseTypeArgumentsInExpression)
      match typeArguments with
      | some ta => do
        let p ← posOfV expr
        let callExpr ← createNode K.CallExpression (some p)
        let callExpr := callExpr.setProp "expression" (jsOfN expr)
        let callExpr := callExpr.setProp "questionDotToken"
          (match questionDotToken with
           | some q => .nodeV q
           | none => .undef)
        let callExpr := callExpr.setProp "typeArguments" ta
        let args ← prev.parseArguments
        let callExpr := callExpr.setProp "arguments" (.nodeV args)
        let n ← finishNode callExpr none
        prev.parseCallExpRest (some n)
      | none => do
        if questionDotToken.isSome then perror "Identifier expected."
        pure expr
    else if st.ptoken = K.OpenParenToken then do
      let p ← posOfV expr
      let callExpr ← createNode K.CallExpression (some p)
      let callExpr := callExpr.setProp "expression" (jsOfN expr)
      let callExpr := callExpr.setProp "questionDotToken"
        (match questionDotToken with
         | some q => .nodeV q
         | none => .undef)
      let args ← prev.parseArguments
      let callExpr := callExpr.setProp "arguments" (.nodeV args)
      let n ← finishNode callExpr none
      prev.parseCallExpRest (some n)
    else do
      if questionDotToken.isSome then perror "Identifier expected."
      pure expr
  parseTypeArgumentsInExpression := do
    if ¬ (← parseOptional K.LessThanToken) then pure none
    else do
      let typeArguments ← parseTypeArgumentList fuel false
      match typeArguments with
      | none => pure none
      | some ta => do
        if ¬ (← parseOptional K.GreaterThanToken) then pure none
        else do
          let st ← get
          if st.ptoken ≠ K.OpenParenToken then pure none
          else pure (some ta)
  parseArguments := do
    let node ← createNode K.Arguments none
    let _ ← parseExpected K.OpenParenToken
    let list ← parseDelimitedList fuel PC.ArgumentExpressions (prev.parseArgument)
    let node := node.setProp "list" list
    let _ ← parseExpected K.CloseParenToken
    finishNode node none
  parseArgument := do
    let st ← get
    if st.ptoken = K.DotDotDotToken then do
      let node ← createNode K.SpreadExpression none
      let _ ← nextToken
      let e ← prev.parseConnectExp
      let node := node.setProp "expression" (jsOfN e)
      let n ← finishNode node none
      pure (JSVal.nodeV n)
    else do
      let e ← prev.parseConnectExp
      pure (jsOfN e)
  parsePrimaryExp := do
    let st ← get
    let t := st.ptoken
    if t = K.NumericLiteral || t = K.StringLiteral then do
      let node ← createNode t none
      let node := node.setProp "text" (.strV (tokenTextS st.sc))
      let node :=
        if t = K.NumericLiteral then
          node.setProp "numericLiteralFlags" (.natV st.sc.tokenFlags)
        else node
      let _ ← nextToken
      let n ← finishNode node none
      pure (some n)
    else if t = K.ThisKeyword || t = K.SuperKeyword || t = K.NullKeyword ||
            t = K.TrueKeyword || t = K.FalseKeyword || t = K.ImportKeyword then do
      let n ← parseTokenNode
      pure (some n)
    else if t = K.OpenParenToken then prev.parseParenthesizedExpression
    else if t = K.OpenBracketToken then prev.parseArrayLiteralExpression
    else if t = K.OpenBraceToken then prev.parseObjectLiteralExpression
    else if t = K.ClassKeyword then parseClassExpression
    else if t = K.FunctionKeyword then prev.parseFunctionExpressionWithoutModifiers none
    else if t = K.NodeKeyword || t = K.SubnetKeyword then do
      if ← isStartOfNode_ fuel then prev.parseNodeExpressionWithoutModifiers none
      else do
        let n ← parseIdentifier
        pure (some n)
    else if t = K.NewKeyword then prev.parseNewExpression
    else if t = K.AsyncKeyword then do
      let next ← lookAheadP nextToken
      if next = K.FunctionKeyword then do
        let st ← get
        let pos := st.sc.startPos
        let m ← parseTokenNode
        let modifiers ← createNodeList [.nodeV m] pos none
        let node ← createNode K.FunctionExpression (some pos)
        let node := node.setProp "modifiers" modifiers
        prev.parseFunctionExpressionWithoutModifiers (some node)
      else if next = K.NodeKeyword || next = K.SubnetKeyword then do
        let st ← get
        let pos := st.sc.startPos
        let m ← parseTokenNode
        let modifiers ← createNodeList [.nodeV m] pos none
        let node ← createNode K.NodeExpression (some pos)
        let node := node.setProp "modifiers" modifiers
        prev.parseNodeExpressionWithoutModifiers (some node)
      else do
        let n ← parseIdentifier
        pure (some n)
    else do
      let n ← parseIdentifier
      pure (some n)
  parseParenthesizedExpression := do
    let node ← createNode K.ParenthesizedExpression none
    let _ ← parseExpected K.OpenParenToken
    let e ← prev.parseExpression
    let node := node.setProp "expression" (jsOfN e)
    let _ ← parseExpected K.CloseParenToken
    let n ← finishNode node none
    pure (some n)
  parseArrayLiteralExpression := do
    let node ← createNode K.ArrayLiteralExpression none
    let _ ← parseExpected K.OpenBracketToken
    let elements ← parseDelimitedList fuel PC.ArrayLiteralMembers (prev.parseArrayElement)
    let node := node.setProp "elements" elements
    let _ ← parseExpected K.CloseBracketToken
    let n ← finishNode node none
    pure (some n)
  parseArrayElement := do
    let st ← get
    if st.ptoken = K.DotDotDotToken then do
      let node ← createNode K.SpreadExpression none
      let _ ← nextToken
      let e ← prev.parseConnectExp
      let node := node.setProp "expression" (jsOfN e)
      let n ← finishNode node none
      pure (JSVal.nodeV n)
    else if st.ptoken ≠ K.CommaToken then do
      let e ← prev.parseConnectExp
      pure (jsOfN e)
    else do
      let node ← createNode K.OmittedExpression none
      pure (JSVal.nodeV node)
  parseObjectLiteralExpression := do
    let node ← createNode K.ObjectLiteralExpression none
    let _ ← parseExpected K.OpenBraceToken
    let properties ← parseDelimitedList fuel PC.ObjectLiteralMembers (prev.parseObjectDefinition)
    let node := node.setProp "properties" properties
    let _ ← parseExpected K.CloseBraceToken
    let n ← finishNode node none
    pure (some n)
  parseObjectDefinition := do
    let node ← createNode K.Unknown none
    if ← parseOptional K.DotDotDotToken then do
      let node := node.withKind K.SpreadExpression
      let e ← prev.parseConnectExp
      let node := node.setProp "expression" (jsOfN e)
      let n ← finishNode node none
      pure (JSVal.nodeV n)
    else do
      let st ← get
      let shorthand ←
        if st.ptoken = K.Identifier then
          lookAheadP (do
            let t ← nextToken
            pure (t != K.ColonToken))
        else pure false
      if shorthand then do
        let node := node.withKind K.ShorthandPropertyAssignment
        let nm ← parseIdentifier
        let node := node.setProp "name" (.nodeV nm)
        let n ← finishNode node none
        pure (JSVal.nodeV n)
      else do
        let node := node.withKind K.PropertyAssignment
        let st ← get
        let node ←
          if st.ptoken = K.OpenBracketToken then do
            let computedPropertyName ← createNode K.ComputedPropertyName none
            let _ ← nextToken
            let e ← prev.parseConnectExp
            let computedPropertyName := computedPropertyName.setProp "expression" (jsOfN e)
            let _ ← parseExpected K.CloseBracketToken
            let cpn ← finishNode computedPropertyName none
            pure (node.setProp "name" (.nodeV cpn))
          else do
            if ← scannerIsIdentifierM then do
              let nm ← parseIdentifier
              pure (node.setProp "name" (.nodeV nm))
            else if st.ptoken = K.StringLiteral || st.ptoken = K.NumericLiteral then do
              let literal ← createNode st.ptoken none
              let literal := literal.setProp "text" (.strV (tokenTextS st.sc))
              let literal :=
                if st.ptoken = K.NumericLiteral then
                  literal.setProp "numericLiteralFlags" (.natV st.sc.tokenFlags)
                else literal
              let _ ← nextToken
              let lit ← finishNode literal none
              pure (node.setProp "name" (.nodeV lit))
            else do
              perror "Expect valid ObjectPropertyName."
              pure node
        let _ ← parseExpected K.ColonToken
        let init ← prev.parseConnectExp
        let node := node.setProp "initializer" (jsOfN init)
        let n ← finishNode node none
        pure (JSVal.nodeV n)
  parseNewExpression := do
    let node ← createNode K.NewExpression none
    let _ ← parseExpected K.NewKeyword
    let e ← prev.parseMemberExp
    let node := node.setProp "expression" (jsOfN e)
    let typeArguments ← tryParseO (prev.parseTypeArgumentsInExpression)
    let node :=
      match typeArguments with
      | some ta => node.setProp "typeArguments" ta
      | none => node
    let args ← prev.parseArguments
    let node := node.setProp "arguments" (.nodeV args)
    let n ← finishNode node none
    pure (some n)
  parseVariableDeclarationWithoutModifiers := fun notParseSemicolon nodeArg => do
    let node ←
      match nodeArg with
      | some n => pure n
      | none => createNode K.VariableDeclaration none
    let st ← get
    let node ←
      if ¬ (← isCurrentTokenVLC) then do
        perror "var/let/const expected."
        pure (node.setProp "vlc" (.natV K.LetKeyword))
      else do
        let node := node.setProp "vlc" (.natV st.ptoken)
        let _ ← nextToken
        pure node
    let node := node.setProp "isWalrus" (.boolV false)
    let declarations ← parseDelimitedList fuel PC.VariableDeclarations
      (do
        let b ← prev.parseVariableBinding
        pure (JSVal.nodeV b))
    let node := node.setProp "declarations" declarations
    if ¬ notParseSemicolon then do
      let _ ← parseExpected K.SemicolonToken
      finishNode node none
    else finishNode node none
  parseVariableBinding := do
    let node ← createNode K.VariableBinding none
    let nm ← parseIdentifier
    let node := node.setProp "name" (.nodeV nm)
    let node ←
      if ← parseOptional K.EqualsToken then do
        let i ← prev.parseConnectExp
        pure (node.setProp "initializer" (jsOfN i))
      else pure node
    finishNode node none
  parseFunctionExpressionWithoutModifiers := fun nodeArg => do
    let node ←
      match nodeArg with
      | some n => pure n
      | none => createNode K.FunctionExpression none
    let fn ← prev.parseFunctionWithoutModifiers node
    match fn.prop "body" with
    | .undef => do
      perror "Function expression must have body block."
      pure (some fn)
    | _ => pure (some fn)
  parseFunctionWithoutModifiers := fun node => do
    let _ ← parseExpected K.FunctionKeyword
    let asteriskTok ← parseOptionalToken K.AsteriskToken
    let node := node.setProp "asteriskToken"
      (match asteriskTok with
       | some a => .nodeV a
       | none => .undef)
    let node ←
      if ← scannerIsIdentifierM then do
        let nm ← parseIdentifier
        pure (node.setProp "name" (.nodeV nm))
      else pure node
    let node ← prev.addCallSignature node
    let st ← get
    if st.ptoken = K.SemicolonToken then do
      let _ ← nextToken
      finishNode node none
    else if st.ptoken = K.OpenBraceToken then do
      let b ← prev.parseBlock
      let node := node.setProp "body" (.nodeV b)
      finishNode node none
    else do
      perror "; or block expected."
      finishNode node none
  parseNodeExpressionWithoutModifiers := fun nodeArg => do
    let node ←
      match nodeArg with
      | some n => pure n
      | none => createNode K.NodeExpression none
    let n ← prev.parseNode_WithoutModifiers node
    pure (some n)
  parseNode_WithoutModifiers := fun node => do
    let st ← get
    if st.ptoken ≠ K.NodeKeyword && st.ptoken ≠ K.SubnetKeyword then do
      perror "node or subnet expected."
      finishNode node none
    else do
      let node :=
        if st.ptoken = K.NodeKeyword then node.setProp "isSubnet" (.boolV false)
        else node.setProp "isSubnet" (.boolV true)
      let _ ← nextToken
      let node ←
        if ← scannerIsIdentifierM then do
          let nm ← parseIdentifier
          pure (node.setProp "name" (.nodeV nm))
        else pure node
      let node ←
        if ← parseOptional K.OpenParenToken then do
          let params ← parseDelimitedList fuel PC.Parameters
            (do
              let p ← prev.parseParameter
              pure (JSVal.nodeV p))
          let node := node.setProp "parameters" params
          let _ ← parseExpected K.CloseParenToken
          pure node
        else pure node
      let nodeBlock ← createNode K.NodeBlock none
      let _ ← parseExpected K.OpenBraceToken
      let stmts ← parseList fuel PC.NodeBlock (prev.parseNodeStatement)
      let nodeBlock := nodeBlock.setProp "statements" stmts
      let _ ← parseExpected K.CloseBraceToken
      let nb ← finishNode nodeBlock none
      let node := node.setProp "nodeBlock" (.nodeV nb)
      finishNode node none
  parseNodeStatement := do
    let st ← get
    let stateCase ←
      if st.ptoken = K.StateKeyword then
        lookAheadP (do
          let t ← nextToken
          pure (t == K.ColonToken))
      else pure false
    if stateCase then do
      let node ← createNode K.NodeStateDeclaration none
      let node := node.withKind K.NodeStateDeclaration
      let _ ← nextToken
      let _ ← nextToken
      let e ← prev.parseAssignExp
      let node := node.setProp "expression" (jsOfN e)
      let _ ← parseSemicolon
      let n ← finishNode node none
      pure (JSVal.nodeV n)
    else do
      let whichKind ←
        if st.ptoken = K.Identifier then do
          let name :=
            match st.sc.tokenValue with
            | some v => v
            | none => ""
          if name = "$$" || charCodeAt name.toList 0 = CC.dollar then do
            let la ← lookAheadP (do
              let t ← nextToken
              pure (t == K.ColonToken))
            if la then pure (if name = "$$" then 1 else 2) else pure 0
          else pure (0 : Nat)
        else pure 0
      if whichKind = 0 then do
        let s ← prev.parseStatement
        pure (JSVal.nodeV s)
      else if whichKind = 1 then do
        let node ← createNode K.NodeAllPortTypeDeclaration none
        let _ ← nextToken
        let _ ← nextToken
        let types ← parseTypeArgumentList fuel true
        let node ←
          match types with
          | none => do
            perror "Expected list of type argument."
            pure (node.setProp "types" JSVal.undef)
          | some ts => pure (node.setProp "types" ts)
        let _ ← parseSemicolon
        let n ← finishNode node none
        pure (JSVal.nodeV n)
      else do
        let node ← createNode K.NodePortTypeDeclaration none
        let pn ← parseIdentifier
        let node := node.setProp "portName" (.nodeV pn)
        let _ ← nextToken
        let t ← parseType
        let node := node.setProp "type" (.nodeV t)
        let _ ← parseSemicolon
        let n ← finishNode node none
        pure (JSVal.nodeV n)
  parseDecoratorsLoop := fun acc => do
    let st ← get
    let decoratorStart := st.sc.startPos
    if ¬ (← parseOptional K.AtToken) then pure acc
    else do
      let decorator ← createNode K.Decorator (some decoratorStart)
      let e ← prev.parseLeftHandExp
      let decorator := decorator.setProp "expression" (jsOfN e)
      let decorator ← finishNode decorator none
      prev.parseDecoratorsLoop (acc ++ [.nodeV decorator])
  parseDecorators := do
    let st ← get
    let listPos := st.sc.startPos
    let l ← prev.parseDecoratorsLoop []
    if l.isEmpty then pure none
    else do
      let nl ← createNodeList l listPos none
      pure (some nl)
  parseDeclaration := do
    let node ← createNode K.Unknown none
    let decorators ← prev.parseDecorators
    let modifiers ← parseModifiers fuel
    let node :=
      match decorators with
      | some d => node.setProp "decorators" d
      | none => node
    let node :=
      match modifiers with
      | some m => node.setProp "modifiers" m
      | none => node
    prev.parseDeclarationWorker node
  parseDeclarationWorker := fun node => do
    let st ← get
    let t := st.ptoken
    if t = K.VarKeyword || t = K.LetKeyword || t = K.ConstKeyword then do
      let node := node.withKind K.VariableDeclaration
      prev.parseVariableDeclarationWithoutModifiers false (some node)
    else if t = K.FunctionKeyword then do
      let node := node.withKind K.FunctionDeclaration
      prev.parseFunctionWithoutModifiers node
    else if t = K.NodeKeyword || t = K.SubnetKeyword then do
      let node := node.withKind K.NodeDeclaration
      prev.parseNode_WithoutModifiers node
    else
      -- `{} as any` for the unimplemented class/interface/type/enum/
      -- namespace/import/export cases and the default case.
      pure (ASTNode.mk K.EmptyObjectModel 0 0 0 [])

def parserFnsAt : Nat → ParserFns :=
  fun n => Nat.rec (motive := fun _ => ParserFns) baseParserFns (fun k prev => mkParserFns k prev) n

def parseStatement (fuel : Nat) : M ASTNode :=
  (parserFnsAt fuel).parseStatement

def parseBlock (fuel : Nat) : M ASTNode :=
  (parserFnsAt fuel).parseBlock

def parseExpressionOrLabeledStatement (fuel : Nat) : M ASTNode :=
  (parserFnsAt fuel).parseExpressionOrLabeledStatement

def parseReturnStatement (fuel : Nat) : M ASTNode :=
  (parserFnsAt fuel).parseReturnStatement

def parseIfStatement (fuel : Nat) : M ASTNode :=
  (parserFnsAt fuel).parseIfStatement

def parseIfElifLoop (fuel : Nat) : List JSVal → M (List JSVal) :=
  (parserFnsAt fuel).parseIfElifLoop

def parseForOrForInOrForOfStatement (fuel : Nat) : M ASTNode :=
  (parserFnsAt fuel).parseForOrForInOrForOfStatement

def parseSwitchStatement (fuel : Nat) : M ASTNode :=
  (parserFnsAt fuel).parseSwitchStatement

def parseCaseOrDefaultClause (fuel : Nat) : M ASTNode :=
  (parserFnsAt fuel).parseCaseOrDefaultClause

def parseCaseClause (fuel : Nat) : M ASTNode :=
  (parserFnsAt fuel).parseCaseClause

def parseDefaultClause (fuel : Nat) : M ASTNode :=
  (parserFnsAt fuel).parseDefaultClause

def parseTryStatement (fuel : Nat) : M ASTNode :=
  (parserFnsAt fuel).parseTryStatement

def parseCatchClause (fuel : Nat) : M ASTNode :=
  (parserFnsAt fuel).parseCatchClause

def parseUsingStatement (fuel : Nat) : M ASTNode :=
  (parserFnsAt fuel).parseUsingStatement

def parseUsingLoop (fuel : Nat) : List JSVal → M (List JSVal) :=
  (parserFnsAt fuel).parseUsingLoop

def tryParseWalrusDeclaration (fuel : Nat) : Bool → M (Option ASTNode) :=
  (parserFnsAt fuel).tryParseWalrusDeclaration

def parseExpression (fuel : Nat) : M NodeV :=
  (parserFnsAt fuel).parseExpression

def parseExpressionRest (fuel : Nat) : NodeV → M NodeV :=
  (parserFnsAt fuel).parseExpressionRest

def parseConnectExp (fuel : Nat) : M NodeV :=
  (parserFnsAt fuel).parseConnectExp

def parseConnectExpRest (fuel : Nat) : NodeV → M NodeV :=
  (parserFnsAt fuel).parseConnectExpRest

def parseAssignExp (fuel : Nat) : M NodeV :=
  (parserFnsAt fuel).parseAssignExp

def parseConditionalExpRest (fuel : Nat) : NodeV → M NodeV :=
  (parserFnsAt fuel).parseConditionalExpRest

def parseYieldExpression (fuel : Nat) : M NodeV :=
  (parserFnsAt fuel).parseYieldExpression

def parseArrowFunction (fuel : Nat) : M NodeV :=
  (parserFnsAt fuel).parseArrowFunction

def addCallSignature (fuel : Nat) : ASTNode → M ASTNode :=
  (parserFnsAt fuel).addCallSignature

def parseParameter (fuel : Nat) : M ASTNode :=
  (parserFnsAt fuel).parseParameter

def parseBinaryExp (fuel : Nat) : Int → M NodeV :=
  (parserFnsAt fuel).parseBinaryExp

def parseBinaryExpRest (fuel : Nat) : Int → NodeV → M NodeV :=
  (parserFnsAt fuel).parseBinaryExpRest

def parseUnaryExp (fuel : Nat) : M NodeV :=
  (parserFnsAt fuel).parseUnaryExp

def parseTypeAssertion (fuel : Nat) : M NodeV :=
  (parserFnsAt fuel).parseTypeAssertion

def parseUpdateExp (fuel : Nat) : M NodeV :=
  (parserFnsAt fuel).parseUpdateExp

def parseLeftHandExp (fuel : Nat) : M NodeV :=
  (parserFnsAt fuel).parseLeftHandExp

def parseMemberExp (fuel : Nat) : M NodeV :=
  (parserFnsAt fuel).parseMemberExp

def parseMemberExpRest (fuel : Nat) : NodeV → M NodeV :=
  (parserFnsAt fuel).parseMemberExpRest

def parseCallExpRest (fuel : Nat) : NodeV → M NodeV :=
  (parserFnsAt fuel).parseCallExpRest

def parseTypeArgumentsInExpression (fuel : Nat) : M (Option JSVal) :=
  (parserFnsAt fuel).parseTypeArgumentsInExpression

def parseArguments (fuel : Nat) : M ASTNode :=
  (parserFnsAt fuel).parseArguments

def parseArgument (fuel : Nat) : M JSVal :=
  (parserFnsAt fuel).parseArgument

def parsePrimaryExp (fuel : Nat) : M NodeV :=
  (parserFnsAt fuel).parsePrimaryExp

def parseParenthesizedExpression (fuel : Nat) : M NodeV :=
  (parserFnsAt fuel).parseParenthesizedExpression

def parseArrayLiteralExpression (fuel : Nat) : M NodeV :=
  (parserFnsAt fuel).parseArrayLiteralExpression

def parseArrayElement (fuel : Nat) : M JSVal :=
  (parserFnsAt fuel).parseArrayElement

def parseObjectLiteralExpression (fuel : Nat) : M NodeV :=
  (parserFnsAt fuel).parseObjectLiteralExpression

def parseObjectDefinition (fuel : Nat) : M JSVal :=
  (parserFnsAt fuel).parseObjectDefinition

def parseNewExpression (fuel : Nat) : M NodeV :=
  (parserFnsAt fuel).parseNewExpression

def parseVariableDeclarationWithoutModifiers (fuel : Nat) : Bool → Option ASTNode → M ASTNode :=
  (parserFnsAt fuel).parseVariableDeclarationWithoutModifiers

def parseVariableBinding (fuel : Nat) : M ASTNode :=
  (parserFnsAt fuel).parseVariableBinding

def parseFunctionExpressionWithoutModifiers (fuel : Nat) : Option ASTNode → M NodeV :=
  (parserFnsAt fuel).parseFunctionExpressionWithoutModifiers

def parseFunctionWithoutModifiers (fuel : Nat) : ASTNode → M ASTNode :=
  (parserFnsAt fuel).parseFunctionWithoutModifiers

def parseNodeExpressionWithoutModifiers (fuel : Nat) : Option ASTNode → M NodeV :=
  (parserFnsAt fuel).parseNodeExpressionWithoutModifiers

def parseNode_WithoutModifiers (fuel : Nat) : ASTNode → M ASTNode :=
  (parserFnsAt fuel).parseNode_WithoutModifiers

def parseNodeStatement (fuel : Nat) : M JSVal :=
  (parserFnsAt fuel).parseNodeStatement

def parseDecoratorsLoop (fuel : Nat) : List JSVal → M (List JSVal) :=
  (parserFnsAt fuel).parseDecoratorsLoop

def parseDecorators (fuel : Nat) : M (Option JSVal) :=
  (parserFnsAt fuel).parseDecorators

def parseDeclaration (fuel : Nat) : M ASTNode :=
  (parserFnsAt fuel).parseDeclaration

def parseDeclarationWorker (fuel : Nat) : ASTNode → M ASTNode :=
  (parserFnsAt fuel).parseDeclarationWorker

end TSGN

namespace TSGN

/-! ## `parseSourceFile` (entry contract) and evaluation helpers. -/

/-- `parseSourceFileWorker(fileName)` together with `initializeSourceFile`:
build the root, advance to the first token, parse top-level statements
until end of file, assert the cursor is exactly at end of file, and record
the node count. -/
def parseSourceFileWorkerM (fuel : Nat) (fileName : String) (sourceText : String) :
    M ASTNode := do
  let sourceFile := ASTNode.mk K.SourceFile 0 sourceText.toList.length 0 []
  modify fun st => { st with nodeCount := st.nodeCount + 1 }
  let sourceFile := sourceFile.setProp "text" (.strV sourceText)
  let sourceFile := sourceFile.setProp "fileName" (.strV fileName)
  let _ ← nextToken
  let stmts ← parseList fuel PC.SourceElements
    (do
      let s ← parseStatement fuel
      pure (JSVal.nodeV s))
  let sourceFile := sourceFile.setProp "statements" stmts
  let st ← get
  assertM (st.ptoken == K.EndOfFileToken)
  let sourceFile := sourceFile.setProp "nodeCount" (.natV st.nodeCount)
  pure sourceFile

/-- `clearState()`: `scanner.resetText('')` (the error log survives; it is
the caller's sink). -/
def clearStateP (st : PState) : PState :=
  { st with sc := { (mkScanner "") with errors := st.sc.errors } }

/-- `Parser.parseSourceFile(fileName, sourceText)`: initialize the state
(fresh scanner over the text, error sink registered), run the worker,
clear the state, return the root.  Any JS exception (failed assert,
TypeError) propagates as an `Except.error`; `fuelOut` reports that the
given fuel was exhausted, which on this parser happens exactly when the
source loops without consuming tokens. -/
def parseSourceFileFn (fuel : Nat) (fileName : String) (sourceText : String) :
    Except PErr (ASTNode × PState) :=
  let st0 : PState :=
    { sc := mkScanner sourceText, ptoken := K.Unknown, contextFlags := 0,
      parsingContext := 0, nodeCount := 0, perrors := [] }
  match runM (parseSourceFileWorkerM fuel fileName sourceText) st0 with
  | .ok (sf, st) => .ok (sf, clearStateP st)
  | .error e => .error e

/-- Generous canonical fuel: call depth and loop iterations both consume
one unit, and each is bounded by a small multiple of the input length on
every terminating run. -/
def canonicalFuel (src : String) : Nat := 50 * (src.length + 2)

def parseTreeE (src : String) : Except PErr (ASTNode × PState) :=
  parseSourceFileFn (canonicalFuel src) "test.tsn" src

def parseTree (src : String) : ASTNode :=
  match parseTreeE src with
  | .ok (n, _) => n
  | .error _ => ASTNode.mk 999 0 0 0 []

def parseErr (src : String) : Option PErr :=
  match parseTreeE src with
  | .error e => some e
  | .ok _ => none

def parsePErrors (src : String) : List String :=
  match parseTreeE src with
  | .ok (_, st) => st.perrors
  | .error _ => []

/-! Projection helpers for stating concrete facts about parse results. -/

def JSVal.asNode : JSVal → ASTNode
  | .nodeV n => n
  | _ => ASTNode.mk 997 0 0 0 []

def JSVal.asList : JSVal → List JSVal
  | .listV l _ _ _ => l
  | _ => []

def stmtAt (sf : ASTNode) (i : Nat) : ASTNode :=
  (((sf.prop "statements").asList).getD i .undef).asNode

def child (n : ASTNode) (key : String) : ASTNode :=
  (n.prop key).asNode

def textOf (n : ASTNode) : String :=
  match n.prop "text" with
  | .strV s => s
  | _ => ""

def opKindOf (n : ASTNode) : Nat := (child n "operatorToken").kind

/-- The parser state right after `initializeSourceFile(fileName, sourceText)`
installs the text (before the first `nextToken()`). -/
def initPState (src : String) : PState :=
  { sc := mkScanner src, ptoken := K.Unknown, contextFlags := 0,
    parsingContext := 0, nodeCount := 0, perrors := [] }

/-- Run `tryParseWalrusDeclaration(false)` at the first token of `src`:
`some true` when it recognized a walrus `VariableDeclaration`, `some false`
when it returned `undefined`, `none` when it threw. -/
def walrusProbe (src : String) : Option Bool :=
  match runM (do
      let _ ← nextToken
      tryParseWalrusDeclaration (canonicalFuel src) false) (initPState src) with
  | .ok (o, _) => some o.isSome
  | .error _ => none

/-- `parseErr` at a caller-chosen fuel. -/
def parseErrF (fuel : Nat) (src : String) : Option PErr :=
  match parseSourceFileFn fuel "test.tsn" src with
  | .error e => some e
  | .ok _ => none

/-- `parseTree` at a caller-chosen fuel. -/
def parseTreeF (fuel : Nat) (src : String) : ASTNode :=
  match parseSourceFileFn fuel "test.tsn" src with
  | .ok (n, _) => n
  | .error _ => ASTNode.mk 999 0 0 0 []

end TSGN

namespace TSGN

/-! # Verification layer

Everything from here on is a theorem about the definitions above.  The
first sections build the scanner's invariants (cursor bounds, progress,
token range) by induction over the fueled loops; the claim theorems come
last. -/

/-! ## The character-code accessor -/

theorem charCodeAt_out {t : List Char} {i : Nat} (h : t.length ≤ i) :
    charCodeAt t i = -1 := by
  unfold charCodeAt
  rw [List.get?_eq_none.mpr h]

theorem charCodeAt_lt {t : List Char} {i : Nat} (h : charCodeAt t i ≠ -1) :
    i < t.length := by
  by_contra hc
  exact h (charCodeAt_out (Nat.le_of_not_lt hc))

theorem charCodeAt_lt_of_eq {t : List Char} {i : Nat} {c : Int}
    (h : charCodeAt t i = c) (hc : c ≠ -1) : i < t.length :=
  charCodeAt_lt (by rw [h]; exact hc)

/-! ## The generic character-run loop -/

theorem runWhile_zero (p : Int → Bool) (t : List Char) (pos : Nat) :
    runWhile p t 0 pos = pos := rfl

theorem runWhile_succ (p : Int → Bool) (t : List Char) (fuel pos : Nat) :
    runWhile p t (fuel + 1) pos =
      if p (charCodeAt t pos) then runWhile p t fuel (pos + 1) else pos := rfl

theorem runWhile_ge (p : Int → Bool) (t : List Char) :
    ∀ fuel pos, pos ≤ runWhile p t fuel pos := by
  intro fuel
  induction fuel with
  | zero => intro pos; rw [runWhile_zero]
  | succ n ih =>
    intro pos
    rw [runWhile_succ]
    split
    · exact Nat.le_trans (Nat.le_succ pos) (ih (pos + 1))
    · exact Nat.le_refl pos

theorem runWhile_le (p : Int → Bool) (t : List Char) (hneg : p (-1) = false) :
    ∀ fuel pos, pos ≤ t.length → runWhile p t fuel pos ≤ t.length := by
  intro fuel
  induction fuel with
  | zero => intro pos h; rw [runWhile_zero]; exact h
  | succ n ih =>
    intro pos h
    rw [runWhile_succ]
    split
    · rename_i hp
      rcases Nat.lt_or_ge pos t.length with hlt | hge
      · exact ih (pos + 1) hlt
      · rw [charCodeAt_out hge, hneg] at hp; cases hp
    · exact h

theorem runWhile_stay (p : Int → Bool) (t : List Char) (fuel pos : Nat)
    (h : p (charCodeAt t pos) = false) : runWhile p t fuel pos = pos := by
  cases fuel with
  | zero => rfl
  | succ n => rw [runWhile_succ, if_neg]; simp [h]

theorem runWhile_all (p : Int → Bool) (t : List Char) (hneg : p (-1) = false)
    (hall : ∀ i, i < t.length → p (charCodeAt t i) = true) :
    ∀ fuel pos, pos ≤ t.length → t.length - pos < fuel →
      runWhile p t fuel pos = t.length := by
  intro fuel
  induction fuel with
  | zero => intro pos _ h; omega
  | succ n ih =>
    intro pos hpos hfuel
    rw [runWhile_succ]
    rcases Nat.lt_or_ge pos t.length with hlt | hge
    · rw [if_pos (hall pos hlt)]
      exact ih (pos + 1) hlt (by omega)
    · have hpl : pos = t.length := Nat.le_antisymm hpos hge
      subst hpl
      rw [charCodeAt_out (Nat.le_refl _), hneg]
      simp

theorem runEndOf_ge (p : Int → Bool) (t : List Char) (pos : Nat) :
    pos ≤ runEndOf p t pos := runWhile_ge p t _ pos

theorem runEndOf_le (p : Int → Bool) (t : List Char) (pos : Nat)
    (hneg : p (-1) = false) (hpos : pos ≤ t.length) :
    runEndOf p t pos ≤ t.length := runWhile_le p t hneg _ pos hpos

theorem runEndOf_stay (p : Int → Bool) (t : List Char) (pos : Nat)
    (h : p (charCodeAt t pos) = false) : runEndOf p t pos = pos :=
  runWhile_stay p t _ pos h

theorem runEndOf_all (p : Int → Bool) (t : List Char) (pos : Nat)
    (hneg : p (-1) = false)
    (hall : ∀ i, i < t.length → p (charCodeAt t i) = true)
    (hpos : pos ≤ t.length) : runEndOf p t pos = t.length :=
  runWhile_all p t hneg hall _ pos hpos (by omega)

theorem runEndOf_progress (p : Int → Bool) (t : List Char) (pos : Nat)
    (h : p (charCodeAt t pos) = true) (hlt : pos < t.length) :
    pos + 1 ≤ runEndOf p t pos := by
  unfold runEndOf
  have hf : t.length + 1 - pos = (t.length - pos) + 1 := by omega
  rw [hf, runWhile_succ, if_pos h]
  exact runWhile_ge p t _ (pos + 1)

theorem isDigit_neg : isDigit (-1) = false := by decide

theorem isHexDigit_neg : isHexDigit (-1) = false := by decide

theorem isBinaryDigit_neg : isBinaryDigit (-1) = false := by decide

theorem isOctalDigit_neg : isOctalDigit (-1) = false := by decide

theorem isIdentifierPart_neg : isIdentifierPart (-1) = false := by decide

end TSGN

namespace TSGN

/-! ## String-literal scanning: cursor bounds.

Each scanning function gets a zeta-reduced unfolding equation (proved by
`rfl`), and its bound lemma is stated against an equation hypothesis
`f s = (v, s2)` and proved by splitting the unfolding. -/

theorem scanEscapeSequence_eq (s : S) :
    scanEscapeSequence s =
      if s.pos + 1 ≥ s.endP then
        ("",
          { s with
              pos := s.pos + 1,
              errors := s.errors ++ [("Unexpected end of text", s.pos + 1)] })
      else if charCodeAt s.text (s.pos + 1) = CC.d0 then
        ("\x00", { s with pos := s.pos + 1 + 1 })
      else if charCodeAt s.text (s.pos + 1) = CC.lb then
        ("\x08", { s with pos := s.pos + 1 + 1 })
      else if charCodeAt s.text (s.pos + 1) = CC.lt then
        ("\t", { s with pos := s.pos + 1 + 1 })
      else if charCodeAt s.text (s.pos + 1) = CC.ln then
        ("\n", { s with pos := s.pos + 1 + 1 })
      else if charCodeAt s.text (s.pos + 1) = CC.lv then
        ("\x0B", { s with pos := s.pos + 1 + 1 })
      else if charCodeAt s.text (s.pos + 1) = CC.lf then
        ("\x0C", { s with pos := s.pos + 1 + 1 })
      else if charCodeAt s.text (s.pos + 1) = CC.lr then
        ("\r", { s with pos := s.pos + 1 + 1 })
      else if charCodeAt s.text (s.pos + 1) = CC.singleQuote then
        ("\x27", { s with pos := s.pos + 1 + 1 })
      else if charCodeAt s.text (s.pos + 1) = CC.doubleQuote then
        ("\x22", { s with pos := s.pos + 1 + 1 })
      else
        ("",
          { s with
              pos := s.pos + 1 + 1,
              errors := s.errors ++ [("Expected escape char", s.pos + 1 + 1)] }) := rfl

theorem scanEscapeSequence_spec {s : S} {v : String} {s2 : S}
    (heq : scanEscapeSequence s = (v, s2)) (h : s.pos < s.endP) :
    s2.text = s.text ∧ s2.endP = s.endP ∧ s2.tokenPos = s.tokenPos ∧
    s2.token = s.token ∧ s.pos < s2.pos ∧ s2.pos ≤ s.endP := by
  rw [scanEscapeSequence_eq] at heq
  by_cases h1 : s.pos + 1 ≥ s.endP
  · rw [if_pos h1] at heq
    injection heq with hv hs; subst hv; subst hs
    exact ⟨rfl, rfl, rfl, rfl, by show s.pos < s.pos + 1; omega,
      by show s.pos + 1 ≤ s.endP; omega⟩
  · rw [if_neg h1] at heq
    by_cases h2 : charCodeAt s.text (s.pos + 1) = CC.d0
    · rw [if_pos h2] at heq
      injection heq with hv hs; subst hv; subst hs
      exact ⟨rfl, rfl, rfl, rfl, by show s.pos < s.pos + 1 + 1; omega,
        by show s.pos + 1 + 1 ≤ s.endP; omega⟩
    · rw [if_neg h2] at heq
      by_cases h3 : charCodeAt s.text (s.pos + 1) = CC.lb
      · rw [if_pos h3] at heq
        injection heq with hv hs; subst hv; subst hs
        exact ⟨rfl, rfl, rfl, rfl, by show s.pos < s.pos + 1 + 1; omega,
          by show s.pos + 1 + 1 ≤ s.endP; omega⟩
      · rw [if_neg h3] at heq
        by_cases h4 : charCodeAt s.text (s.pos + 1) = CC.lt
        · rw [if_pos h4] at heq
          injection heq with hv hs; subst hv; subst hs
          exact ⟨rfl, rfl, rfl, rfl, by show s.pos < s.pos + 1 + 1; omega,
            by show s.pos + 1 + 1 ≤ s.endP; omega⟩
        · rw [if_neg h4] at heq
          by_cases h5 : charCodeAt s.text (s.pos + 1) = CC.ln
          · rw [if_pos h5] at heq
            injection heq with hv hs; subst hv; subst hs
            exact ⟨rfl, rfl, rfl, rfl, by show s.pos < s.pos + 1 + 1; omega,
              by show s.pos + 1 + 1 ≤ s.endP; omega⟩
          · rw [if_neg h5] at heq
            by_cases h6 : charCodeAt s.text (s.pos + 1) = CC.lv
            · rw [if_pos h6] at heq
              injection heq with hv hs; subst hv; subst hs
              exact ⟨rfl, rfl, rfl, rfl, by show s.pos < s.pos + 1 + 1; omega,
                by show s.pos + 1 + 1 ≤ s.endP; omega⟩
            · rw [if_neg h6] at heq
              by_cases h7 : charCodeAt s.text (s.pos + 1) = CC.lf
              · rw [if_pos h7] at heq
                injection heq with hv hs; subst hv; subst hs
                exact ⟨rfl, rfl, rfl, rfl, by show s.pos < s.pos + 1 + 1; omega,
                  by show s.pos + 1 + 1 ≤ s.endP; omega⟩
              · rw [if_neg h7] at heq
                by_cases h8 : charCodeAt s.text (s.pos + 1) = CC.lr
                · rw [if_pos h8] at heq
                  injection heq with hv hs; subst hv; subst hs
                  exact ⟨rfl, rfl, rfl, rfl, by show s.pos < s.pos + 1 + 1; omega,
                    by show s.pos + 1 + 1 ≤ s.endP; omega⟩
                · rw [if_neg h8] at heq
                  by_cases h9 : charCodeAt s.text (s.pos + 1) = CC.singleQuote
                  · rw [if_pos h9] at heq
                    injection heq with hv hs; subst hv; subst hs
                    exact ⟨rfl, rfl, rfl, rfl, by show s.pos < s.pos + 1 + 1; omega,
                      by show s.pos + 1 + 1 ≤ s.endP; omega⟩
                  · rw [if_neg h9] at heq
                    by_cases h10 : charCodeAt s.text (s.pos + 1) = CC.doubleQuote
                    · rw [if_pos h10] at heq
                      injection heq with hv hs; subst hv; subst hs
                      exact ⟨rfl, rfl, rfl, rfl, by show s.pos < s.pos + 1 + 1; omega,
                        by show s.pos + 1 + 1 ≤ s.endP; omega⟩
                    · rw [if_neg h10] at heq
                      injection heq with hv hs; subst hv; subst hs
                      exact ⟨rfl, rfl, rfl, rfl, by show s.pos < s.pos + 1 + 1; omega,
                        by show s.pos + 1 + 1 ≤ s.endP; omega⟩

end TSGN

namespace TSGN

theorem scanStringLoop_zero (quote : Int) (s : S) (start : Nat) (res : String) :
    scanStringLoop quote 0 s start res =
      (res ++ substring s.text start s.pos, s) := rfl

theorem scanStringLoop_succ (quote : Int) (n : Nat) (s : S) (start : Nat)
    (res : String) :
    scanStringLoop quote (n + 1) s start res =
      if s.pos ≥ s.endP then
        (res ++ substring s.text start s.pos,
          { s with errors := s.errors ++ [("Unterminated string literal", s.pos)] })
      else if charCodeAt s.text s.pos = quote then
        (res ++ substring s.text start s.pos, { s with pos := s.pos + 1 })
      else if charCodeAt s.text s.pos = CC.backslash then
        scanStringLoop quote n (scanEscapeSequence s).2 (scanEscapeSequence s).2.pos
          (res ++ substring s.text start s.pos ++ (scanEscapeSequence s).1)
      else if isLineBreak (charCodeAt s.text s.pos) then
        (res ++ substring s.text start s.pos,
          { s with errors := s.errors ++ [("Unterminated string literal", s.pos)] })
      else scanStringLoop quote n { s with pos := s.pos + 1 } start res := rfl

theorem scanStringLoop_spec (quote : Int) :
    ∀ fuel (s : S) (start : Nat) (res : String) (v : String) (s2 : S),
      scanStringLoop quote fuel s start res = (v, s2) → s.pos ≤ s.endP →
      s2.text = s.text ∧ s2.endP = s.endP ∧ s2.tokenPos = s.tokenPos ∧
      s2.token = s.token ∧ s.pos ≤ s2.pos ∧ s2.pos ≤ s.endP := by
  intro fuel
  induction fuel with
  | zero =>
    intro s start res v s2 heq h
    rw [scanStringLoop_zero] at heq
    injection heq with hv hs; subst hv; subst hs
    exact ⟨rfl, rfl, rfl, rfl, Nat.le_refl _, h⟩
  | succ n ih =>
    intro s start res v s2 heq h
    rw [scanStringLoop_succ] at heq
    by_cases h1 : s.pos ≥ s.endP
    · rw [if_pos h1] at heq
      injection heq with hv hs; subst hv; subst hs
      exact ⟨rfl, rfl, rfl, rfl, Nat.le_refl _, h⟩
    · rw [if_neg h1] at heq
      by_cases h2 : charCodeAt s.text s.pos = quote
      · rw [if_pos h2] at heq
        injection heq with hv hs; subst hv; subst hs
        exact ⟨rfl, rfl, rfl, rfl, by show s.pos ≤ s.pos + 1; omega,
          by show s.pos + 1 ≤ s.endP; omega⟩
      · rw [if_neg h2] at heq
        by_cases h3 : charCodeAt s.text s.pos = CC.backslash
        · rw [if_pos h3] at heq
          rcases hesc : scanEscapeSequence s with ⟨esc, sesc⟩
          rw [hesc] at heq
          have heq2 : scanStringLoop quote n sesc sesc.pos
              (res ++ substring s.text start s.pos ++ esc) = (v, s2) := heq
          obtain ⟨et, ee, etp, etk, elo, ehi⟩ :=
            scanEscapeSequence_spec hesc (by omega)
          obtain ⟨it, ie, itp, itk, ilo, ihi⟩ :=
            ih sesc sesc.pos (res ++ substring s.text start s.pos ++ esc)
              v s2 heq2 (by omega)
          exact ⟨by rw [it, et], by rw [ie, ee], by rw [itp, etp],
            by rw [itk, etk], by omega, by omega⟩
        · rw [if_neg h3] at heq
          by_cases h4 : isLineBreak (charCodeAt s.text s.pos) = true
          · rw [if_pos h4] at heq
            injection heq with hv hs; subst hv; subst hs
            exact ⟨rfl, rfl, rfl, rfl, Nat.le_refl _, h⟩
          · rw [if_neg h4] at heq
            obtain ⟨it, ie, itp, itk, ilo, ihi⟩ :=
              ih { s with pos := s.pos + 1 } start res v s2 heq
                (by show s.pos + 1 ≤ s.endP; omega)
            have e1 : ({ s with pos := s.pos + 1 } : S).pos = s.pos + 1 := rfl
            have e2 : ({ s with pos := s.pos + 1 } : S).endP = s.endP := rfl
            exact ⟨it, ie, itp, itk, by omega, by omega⟩

theorem scanString_eq (s : S) :
    scanString s =
      scanStringLoop (charCodeAt s.text s.pos) (s.endP + 1 - (s.pos + 1) + 1)
        { s with pos := s.pos + 1 } (s.pos + 1) "" := rfl

theorem scanString_spec {s : S} {v : String} {s2 : S}
    (heq : scanString s = (v, s2)) (h : s.pos < s.endP) :
    s2.text = s.text ∧ s2.endP = s.endP ∧ s2.tokenPos = s.tokenPos ∧
    s2.token = s.token ∧ s.pos < s2.pos ∧ s2.pos ≤ s.endP := by
  rw [scanString_eq] at heq
  obtain ⟨it, ie, itp, itk, ilo, ihi⟩ :=
    scanStringLoop_spec (charCodeAt s.text s.pos) (s.endP + 1 - (s.pos + 1) + 1)
      { s with pos := s.pos + 1 } (s.pos + 1) "" v s2 heq
      (by show s.pos + 1 ≤ s.endP; omega)
  have e1 : ({ s with pos := s.pos + 1 } : S).pos = s.pos + 1 := rfl
  have e2 : ({ s with pos := s.pos + 1 } : S).endP = s.endP := rfl
  exact ⟨it, ie, itp, itk, by omega, by omega⟩

theorem singleLineCommentEnd_succ (t : List Char) (endP n pos : Nat) :
    singleLineCommentEnd t endP (n + 1) pos =
      if pos < endP then
        if isLineBreak (charCodeAt t pos) then pos
        else singleLineCommentEnd t endP n (pos + 1)
      else pos := rfl

theorem singleLineCommentEnd_spec (t : List Char) (endP : Nat) :
    ∀ n pos, pos ≤ singleLineCommentEnd t endP n pos ∧
      (pos ≤ endP → singleLineCommentEnd t endP n pos ≤ endP) := by
  intro n
  induction n with
  | zero => intro pos; exact ⟨Nat.le_refl _, fun hh => hh⟩
  | succ n ih =>
    intro pos
    rw [singleLineCommentEnd_succ]
    by_cases h1 : pos < endP
    · rw [if_pos h1]
      by_cases h2 : isLineBreak (charCodeAt t pos) = true
      · rw [if_pos h2]; exact ⟨Nat.le_refl _, fun hh => hh⟩
      · rw [if_neg h2]
        obtain ⟨a, b⟩ := ih (pos + 1)
        exact ⟨by omega, fun hh => b (by omega)⟩
    · rw [if_neg h1]; exact ⟨Nat.le_refl _, fun hh => hh⟩

theorem multiLineCommentEnd_zero (t : List Char) (endP pos fl : Nat) :
    multiLineCommentEnd t endP 0 pos fl = (pos, false, fl) := rfl

theorem multiLineCommentEnd_succ (t : List Char) (endP n pos fl : Nat) :
    multiLineCommentEnd t endP (n + 1) pos fl =
      if pos < endP then
        if charCodeAt t pos = CC.asterisk && charCodeAt t (pos + 1) = CC.slash then
          (pos + 2, true, fl)
        else
          multiLineCommentEnd t endP n (pos + 1)
            (if isLineBreak (charCodeAt t pos) then fl ||| TF.PrecedingLineBreak else fl)
      else (pos, false, fl) := rfl

theorem multiLineCommentEnd_spec (t : List Char) (endP : Nat)
    (hend : endP = t.length) :
    ∀ n pos fl, pos ≤ (multiLineCommentEnd t endP n pos fl).1 ∧
      (pos ≤ endP → (multiLineCommentEnd t endP n pos fl).1 ≤ endP) := by
  intro n
  induction n with
  | zero => intro pos fl; exact ⟨Nat.le_refl _, fun hh => hh⟩
  | succ n ih =>
    intro pos fl
    rw [multiLineCommentEnd_succ]
    by_cases h1 : pos < endP
    · rw [if_pos h1]
      by_cases h2 : (charCodeAt t pos = CC.asterisk &&
          charCodeAt t (pos + 1) = CC.slash) = true
      · rw [if_pos h2]
        simp only [Bool.and_eq_true, decide_eq_true_eq] at h2
        have hlt : pos + 1 < t.length :=
          charCodeAt_lt_of_eq h2.2 (by decide)
        exact ⟨by show pos ≤ pos + 2; omega,
          fun _ => by show pos + 2 ≤ endP; omega⟩
      · rw [if_neg h2]
        obtain ⟨a, b⟩ := ih (pos + 1)
          (if isLineBreak (charCodeAt t pos) then fl ||| TF.PrecedingLineBreak else fl)
        exact ⟨by omega, fun hh => b (by omega)⟩
    · rw [if_neg h1]; exact ⟨Nat.le_refl _, fun hh => hh⟩

theorem identRunEnd_succ (t : List Char) (endP n pos : Nat) :
    identRunEnd t endP (n + 1) pos =
      if pos < endP && isIdentifierPart (charCodeAt t pos) then
        identRunEnd t endP n (pos + 1)
      else pos := rfl

theorem identRunEnd_spec (t : List Char) (endP : Nat) :
    ∀ n pos, pos ≤ identRunEnd t endP n pos ∧
      (pos ≤ endP → identRunEnd t endP n pos ≤ endP) := by
  intro n
  induction n with
  | zero => intro pos; exact ⟨Nat.le_refl _, fun hh => hh⟩
  | succ n ih =>
    intro pos
    rw [identRunEnd_succ]
    by_cases h1 : (decide (pos < endP) && isIdentifierPart (charCodeAt t pos)) = true
    · rw [if_pos h1]
      simp only [Bool.and_eq_true, decide_eq_true_eq] at h1
      obtain ⟨a, b⟩ := ih (pos + 1)
      exact ⟨by omega, fun hh => b (by omega)⟩
    · rw [if_neg h1]; exact ⟨Nat.le_refl _, fun hh => hh⟩

end TSGN

namespace TSGN

/-! ## Numeric-literal scanning: cursor bounds -/

theorem scanNumberDec_eq (s : S) :
    scanNumberDec s =
      if charCodeAt s.text s.pos = CC.dot then
        ((some (substring s.text (s.pos + 1) (runEndOf isDigit s.text (s.pos + 1))) :
            Option String),
          { s with pos := runEndOf isDigit s.text (s.pos + 1) })
      else ((none : Option String), s) := rfl

theorem scanNumberDec_spec {s : S} {df : Option String} {s2 : S}
    (heq : scanNumberDec s = (df, s2))
    (hend : s.endP = s.text.length) (hpos : s.pos ≤ s.endP) :
    s2.text = s.text ∧ s2.endP = s.endP ∧ s2.tokenPos = s.tokenPos ∧
    s2.token = s.token ∧ s2.tokenFlags = s.tokenFlags ∧
    s.pos ≤ s2.pos ∧ s2.pos ≤ s.endP ∧
    (charCodeAt s.text s.pos = CC.dot → s.pos < s2.pos) := by
  rw [scanNumberDec_eq] at heq
  by_cases h1 : charCodeAt s.text s.pos = CC.dot
  · rw [if_pos h1] at heq
    injection heq with hv hs; subst hv; subst hs
    have hlt : s.pos < s.text.length := charCodeAt_lt_of_eq h1 (by decide)
    have hge := runEndOf_ge isDigit s.text (s.pos + 1)
    have hle := runEndOf_le isDigit s.text (s.pos + 1) isDigit_neg (by omega)
    refine ⟨rfl, rfl, rfl, rfl, rfl, ?_, ?_, ?_⟩
    · show s.pos ≤ runEndOf isDigit s.text (s.pos + 1); omega
    · show runEndOf isDigit s.text (s.pos + 1) ≤ s.endP; omega
    · intro _; show s.pos < runEndOf isDigit s.text (s.pos + 1); omega
  · rw [if_neg h1] at heq
    injection heq with hv hs; subst hv; subst hs
    exact ⟨rfl, rfl, rfl, rfl, rfl, Nat.le_refl _, hpos, fun hc => absurd hc h1⟩

theorem scanNumberExp_eq (endV : Nat) (s : S) :
    scanNumberExp endV s =
      if charCodeAt s.text s.pos = CC.uE || charCodeAt s.text s.pos = CC.le then
        (if substring
              (if charCodeAt s.text (s.pos + 1) = CC.plus ||
                  charCodeAt s.text (s.pos + 1) = CC.minus then
                ({ s with
                    pos := s.pos + 1 + 1,
                    tokenFlags := s.tokenFlags ||| TF.Scientific } : S)
              else
                { s with
                    pos := s.pos + 1,
                    tokenFlags := s.tokenFlags ||| TF.Scientific }).text
              (if charCodeAt s.text (s.pos + 1) = CC.plus ||
                  charCodeAt s.text (s.pos + 1) = CC.minus then
                ({ s with
                    pos := s.pos + 1 + 1,
                    tokenFlags := s.tokenFlags ||| TF.Scientific } : S)
              else
                { s with
                    pos := s.pos + 1,
                    tokenFlags := s.tokenFlags ||| TF.Scientific }).pos
              (runEndOf isDigit
                (if charCodeAt s.text (s.pos + 1) = CC.plus ||
                    charCodeAt s.text (s.pos + 1) = CC.minus then
                  ({ s with
                      pos := s.pos + 1 + 1,
                      tokenFlags := s.tokenFlags ||| TF.Scientific } : S)
                else
                  { s with
                      pos := s.pos + 1,
                      tokenFlags := s.tokenFlags ||| TF.Scientific }).text
                (if charCodeAt s.text (s.pos + 1) = CC.plus ||
                    charCodeAt s.text (s.pos + 1) = CC.minus then
                  ({ s with
                      pos := s.pos + 1 + 1,
                      tokenFlags := s.tokenFlags ||| TF.Scientific } : S)
                else
                  { s with
                      pos := s.pos + 1,
                      tokenFlags := s.tokenFlags ||| TF.Scientific }).pos) = "" then
          (endV,
            recordError
              { (if charCodeAt s.text (s.pos + 1) = CC.plus ||
                    charCodeAt s.text (s.pos + 1) = CC.minus then
                  ({ s with
                      pos := s.pos + 1 + 1,
                      tokenFlags := s.tokenFlags ||| TF.Scientific } : S)
                else
                  { s with
                      pos := s.pos + 1,
                      tokenFlags := s.tokenFlags ||| TF.Scientific }) with
                  pos := runEndOf isDigit
                    (if charCodeAt s.text (s.pos + 1) = CC.plus ||
                        charCodeAt s.text (s.pos + 1) = CC.minus then
                      ({ s with
                          pos := s.pos + 1 + 1,
                          tokenFlags := s.tokenFlags ||| TF.Scientific } : S)
                    else
                      { s with
                          pos := s.pos + 1,
                          tokenFlags := s.tokenFlags ||| TF.Scientific }).text
                    (if charCodeAt s.text (s.pos + 1) = CC.plus ||
                        charCodeAt s.text (s.pos + 1) = CC.minus then
                      ({ s with
                          pos := s.pos + 1 + 1,
                          tokenFlags := s.tokenFlags ||| TF.Scientific } : S)
                    else
                      { s with
                          pos := s.pos + 1,
                          tokenFlags := s.tokenFlags ||| TF.Scientific }).pos }
              "Digit expected"
              (runEndOf isDigit
                (if charCodeAt s.text (s.pos + 1) = CC.plus ||
                    charCodeAt s.text (s.pos + 1) = CC.minus then
                  ({ s with
                      pos := s.pos + 1 + 1,
                      tokenFlags := s.tokenFlags ||| TF.Scientific } : S)
                else
                  { s with
                      pos := s.pos + 1,
                      tokenFlags := s.tokenFlags ||| TF.Scientific }).text
                (if charCodeAt s.text (s.pos + 1) = CC.plus ||
                    charCodeAt s.text (s.pos + 1) = CC.minus then
                  ({ s with
                      pos := s.pos + 1 + 1,
                      tokenFlags := s.tokenFlags ||| TF.Scientific } : S)
                else
                  { s with
                      pos := s.pos + 1,
                      tokenFlags := s.tokenFlags ||| TF.Scientific }).pos))
        else
          (runEndOf isDigit
              (if charCodeAt s.text (s.pos + 1) = CC.plus ||
                  charCodeAt s.text (s.pos + 1) = CC.minus then
                ({ s with
                    pos := s.pos + 1 + 1,
                    tokenFlags := s.tokenFlags ||| TF.Scientific } : S)
              else
                { s with
                    pos := s.pos + 1,
                    tokenFlags := s.tokenFlags ||| TF.Scientific }).text
              (if charCodeAt s.text (s.pos + 1) = CC.plus ||
                  charCodeAt s.text (s.pos + 1) = CC.minus then
                ({ s with
                    pos := s.pos + 1 + 1,
                    tokenFlags := s.tokenFlags ||| TF.Scientific } : S)
              else
                { s with
                    pos := s.pos + 1,
                    tokenFlags := s.tokenFlags ||| TF.Scientific }).pos,
            { (if charCodeAt s.text (s.pos + 1) = CC.plus ||
                  charCodeAt s.text (s.pos + 1) = CC.minus then
                ({ s with
                    pos := s.pos + 1 + 1,
                    tokenFlags := s.tokenFlags ||| TF.Scientific } : S)
              else
                { s with
                    pos := s.pos + 1,
                    tokenFlags := s.tokenFlags ||| TF.Scientific }) with
                pos := runEndOf isDigit
                  (if charCodeAt s.text (s.pos + 1) = CC.plus ||
                      charCodeAt s.text (s.pos + 1) = CC.minus then
                    ({ s with
                        pos := s.pos + 1 + 1,
                        tokenFlags := s.tokenFlags ||| TF.Scientific } : S)
                  else
                    { s with
                        pos := s.pos + 1,
                        tokenFlags := s.tokenFlags ||| TF.Scientific }).text
                  (if charCodeAt s.text (s.pos + 1) = CC.plus ||
                      charCodeAt s.text (s.pos + 1) = CC.minus then
                    ({ s with
                        pos := s.pos + 1 + 1,
                        tokenFlags := s.tokenFlags ||| TF.Scientific } : S)
                  else
                    { s with
                        pos := s.pos + 1,
                        tokenFlags := s.tokenFlags ||| TF.Scientific }).pos }))
      else (endV, s) := rfl

theorem scanNumberExp_spec {endV : Nat} {s : S} {e2 : Nat} {s2 : S}
    (heq : scanNumberExp endV s = (e2, s2))
    (hend : s.endP = s.text.length) (hpos : s.pos ≤ s.endP) :
    s2.text = s.text ∧ s2.endP = s.endP ∧ s2.tokenPos = s.tokenPos ∧
    s2.token = s.token ∧ s.pos ≤ s2.pos ∧ s2.pos ≤ s.endP := by
  rw [scanNumberExp_eq] at heq
  by_cases h1 : (charCodeAt s.text s.pos = CC.uE ||
      charCodeAt s.text s.pos = CC.le) = true
  · rw [if_pos h1] at heq
    simp only [Bool.or_eq_true, decide_eq_true_eq] at h1
    have hlt : s.pos < s.text.length := by
      rcases h1 with h1 | h1 <;> exact charCodeAt_lt_of_eq h1 (by decide)
    by_cases h2 : (charCodeAt s.text (s.pos + 1) = CC.plus ||
        charCodeAt s.text (s.pos + 1) = CC.minus) = true
    · rw [if_pos h2] at heq
      simp only [Bool.or_eq_true, decide_eq_true_eq] at h2
      have hlt2 : s.pos + 1 < s.text.length := by
        rcases h2 with h2 | h2 <;> exact charCodeAt_lt_of_eq h2 (by decide)
      have hge := runEndOf_ge isDigit s.text (s.pos + 1 + 1)
      have hle := runEndOf_le isDigit s.text (s.pos + 1 + 1) isDigit_neg (by omega)
      by_cases h3 : substring s.text (s.pos + 1 + 1)
          (runEndOf isDigit s.text (s.pos + 1 + 1)) = ""
      · rw [if_pos h3] at heq
        injection heq with hv hs; subst hv; subst hs
        exact ⟨rfl, rfl, rfl, rfl,
          by show s.pos ≤ runEndOf isDigit s.text (s.pos + 1 + 1); omega,
          by show runEndOf isDigit s.text (s.pos + 1 + 1) ≤ s.endP; omega⟩
      · rw [if_neg h3] at heq
        injection heq with hv hs; subst hv; subst hs
        exact ⟨rfl, rfl, rfl, rfl,
          by show s.pos ≤ runEndOf isDigit s.text (s.pos + 1 + 1); omega,
          by show runEndOf isDigit s.text (s.pos + 1 + 1) ≤ s.endP; omega⟩
    · rw [if_neg h2] at heq
      have hge := runEndOf_ge isDigit s.text (s.pos + 1)
      have hle := runEndOf_le isDigit s.text (s.pos + 1) isDigit_neg (by omega)
      by_cases h3 : substring s.text (s.pos + 1)
          (runEndOf isDigit s.text (s.pos + 1)) = ""
      · rw [if_pos h3] at heq
        injection heq with hv hs; subst hv; subst hs
        exact ⟨rfl, rfl, rfl, rfl,
          by show s.pos ≤ runEndOf isDigit s.text (s.pos + 1); omega,
          by show runEndOf isDigit s.text (s.pos + 1) ≤ s.endP; omega⟩
      · rw [if_neg h3] at heq
        injection heq with hv hs; subst hv; subst hs
        exact ⟨rfl, rfl, rfl, rfl,
          by show s.pos ≤ runEndOf isDigit s.text (s.pos + 1); omega,
          by show runEndOf isDigit s.text (s.pos + 1) ≤ s.endP; omega⟩
  · rw [if_neg h1] at heq
    injection heq with hv hs; subst hv; subst hs
    exact ⟨rfl, rfl, rfl, rfl, Nat.le_refl _, hpos⟩

theorem scanNumberFinish_snd (start : Nat) (df : Option String) (evs : Nat × S) :
    (scanNumberFinish start df evs).2 = evs.2 := by
  unfold scanNumberFinish
  by_cases h1 : (df.isSome || decide (evs.2.tokenFlags &&& TF.Scientific ≠ 0)) = true
  · rw [if_pos h1]
  · rw [if_neg h1]

theorem scanNumber_eq (s : S) :
    scanNumber s =
      scanNumberFinish s.pos
        (scanNumberDec { s with pos := runEndOf isDigit s.text s.pos }).1
        (scanNumberExp
          (scanNumberDec { s with pos := runEndOf isDigit s.text s.pos }).2.pos
          (scanNumberDec { s with pos := runEndOf isDigit s.text s.pos }).2) := rfl

theorem scanNumber_spec {s : S} {v : String} {s2 : S}
    (heq : scanNumber s = (v, s2))
    (hend : s.endP = s.text.length) (hpos : s.pos ≤ s.endP) :
    s2.text = s.text ∧ s2.endP = s.endP ∧ s2.tokenPos = s.tokenPos ∧
    s2.token = s.token ∧ s.pos ≤ s2.pos ∧ s2.pos ≤ s.endP ∧
    ((isDigit (charCodeAt s.text s.pos) = true ∨
        charCodeAt s.text s.pos = CC.dot) → s.pos < s2.pos) := by
  rw [scanNumber_eq] at heq
  have hge0 := runEndOf_ge isDigit s.text s.pos
  have hle0 := runEndOf_le isDigit s.text s.pos isDigit_neg (by omega)
  rcases hdec : scanNumberDec { s with pos := runEndOf isDigit s.text s.pos } with ⟨df, sd⟩
  rw [hdec] at heq
  have e1 : ({ s with pos := runEndOf isDigit s.text s.pos } : S).pos =
      runEndOf isDigit s.text s.pos := rfl
  have e2 : ({ s with pos := runEndOf isDigit s.text s.pos } : S).endP = s.endP := rfl
  obtain ⟨dt, de, dtp, dtk, dfl, dlo, dhi, dprog⟩ :=
    scanNumberDec_spec hdec hend (by rw [e2, e1]; omega)
  rcases hexp : scanNumberExp sd.pos sd with ⟨ev, se⟩
  rw [hexp] at heq
  obtain ⟨et, ee, etp, etk, elo, ehi⟩ :=
    scanNumberExp_spec hexp (by rw [de, dt, e2]; rw [e2] at hend; exact hend)
      (by rw [de, e2]; exact dhi)
  have hfin := scanNumberFinish_snd s.pos df (ev, se)
  rw [heq] at hfin
  have hs2 : s2 = se := hfin
  subst hs2
  rw [e1] at dlo dprog
  rw [e2] at dhi
  refine ⟨by rw [et, dt], by rw [ee, de, e2], by rw [etp, dtp],
    by rw [etk, dtk], by omega, by omega, ?_⟩
  intro hstart
  rcases hstart with hd | hd
  · have := runEndOf_progress isDigit s.text s.pos hd
      (charCodeAt_lt (by intro hx; rw [hx] at hd; exact absurd hd (by decide)))
    omega
  · have hstay : runEndOf isDigit s.text s.pos = s.pos :=
      runEndOf_stay isDigit s.text s.pos (by rw [hd]; decide)
    have hdot2 : charCodeAt (({ s with pos := runEndOf isDigit s.text s.pos } : S).text)
        (({ s with pos := runEndOf isDigit s.text s.pos } : S).pos) = CC.dot := by
      show charCodeAt s.text (runEndOf isDigit s.text s.pos) = CC.dot
      rw [hstay]; exact hd
    have := dprog hdot2
    omega

end TSGN

namespace TSGN

theorem textToKeyword_range {v : String} {k : Nat}
    (h : textToKeyword v = some k) : 62 ≤ k ∧ k ≤ 143 := by
  unfold textToKeyword at h
  by_cases h1 : v = "abstract"
  · rw [if_pos h1] at h; injection h with h; subst h; decide
  · rw [if_neg h1] at h
    by_cases h2 : v = "any"
    · rw [if_pos h2] at h; injection h with h; subst h; decide
    · rw [if_neg h2] at h
      by_cases h3 : v = "as"
      · rw [if_pos h3] at h; injection h with h; subst h; decide
      · rw [if_neg h3] at h
        by_cases h4 : v = "asserts"
        · rw [if_pos h4] at h; injection h with h; subst h; decide
        · rw [if_neg h4] at h
          by_cases h5 : v = "bigint"
          · rw [if_pos h5] at h; injection h with h; subst h; decide
          · rw [if_neg h5] at h
            by_cases h6 : v = "boolean"
            · rw [if_pos h6] at h; injection h with h; subst h; decide
            · rw [if_neg h6] at h
              by_cases h7 : v = "break"
              · rw [if_pos h7] at h; injection h with h; subst h; decide
              · rw [if_neg h7] at h
                by_cases h8 : v = "case"
                · rw [if_pos h8] at h; injection h with h; subst h; decide
                · rw [if_neg h8] at h
                  by_cases h9 : v = "catch"
                  · rw [if_pos h9] at h; injection h with h; subst h; decide
                  · rw [if_neg h9] at h
                    by_cases h10 : v = "class"
                    · rw [if_pos h10] at h; injection h with h; subst h; decide
                    · rw [if_neg h10] at h
                      by_cases h11 : v = "continue"
                      · rw [if_pos h11] at h; injection h with h; subst h; decide
                      · rw [if_neg h11] at h
                        by_cases h12 : v = "const"
                        · rw [if_pos h12] at h; injection h with h; subst h; decide
                        · rw [if_neg h12] at h
                          by_cases h13 : v = "constructor"
                          · rw [if_pos h13] at h; injection h with h; subst h; decide
                          · rw [if_neg h13] at h
                            by_cases h14 : v = "debugger"
                            · rw [if_pos h14] at h; injection h with h; subst h; decide
                            · rw [if_neg h14] at h
                              by_cases h15 : v = "declare"
                              · rw [if_pos h15] at h; injection h with h; subst h; decide
                              · rw [if_neg h15] at h
                                by_cases h16 : v = "default"
                                · rw [if_pos h16] at h; injection h with h; subst h; decide
                                · rw [if_neg h16] at h
                                  by_cases h17 : v = "delete"
                                  · rw [if_pos h17] at h; injection h with h; subst h; decide
                                  · rw [if_neg h17] at h
                                    by_cases h18 : v = "do"
                                    · rw [if_pos h18] at h; injection h with h; subst h; decide
                                    · rw [if_neg h18] at h
                                      by_cases h19 : v = "else"
                                      · rw [if_pos h19] at h; injection h with h; subst h; decide
                                      · rw [if_neg h19] at h
                                        by_cases h20 : v = "enum"
                                        · rw [if_pos h20] at h; injection h with h; subst h; decide
                                        · rw [if_neg h20] at h
                                          by_cases h21 : v = "elif"
                                          · rw [if_pos h21] at h; injection h with h; subst h; decide
                                          · rw [if_neg h21] at h
                                            by_cases h22 : v = "export"
                                            · rw [if_pos h22] at h; injection h with h; subst h; decide
                                            · rw [if_neg h22] at h
                                              by_cases h23 : v = "extends"
                                              · rw [if_pos h23] at h; injection h with h; subst h; decide
                                              · rw [if_neg h23] at h
                                                by_cases h24 : v = "fallthrough"
                                                · rw [if_pos h24] at h; injection h with h; subst h; decide
                                                · rw [if_neg h24] at h
                                                  by_cases h25 : v = "false"
                                                  · rw [if_pos h25] at h; injection h with h; subst h; decide
                                                  · rw [if_neg h25] at h
                                                    by_cases h26 : v = "finally"
                                                    · rw [if_pos h26] at h; injection h with h; subst h; decide
                                                    · rw [if_neg h26] at h
                                                      by_cases h27 : v = "for"
                                                      · rw [if_pos h27] at h; injection h with h; subst h; decide
                                                      · rw [if_neg h27] at h
                                                        by_cases h28 : v = "from"
                                                        · rw [if_pos h28] at h; injection h with h; subst h; decide
                                                        · rw [if_neg h28] at h
                                                          by_cases h29 : v = "function"
                                                          · rw [if_pos h29] at h; injection h with h; subst h; decide
                                                          · rw [if_neg h29] at h
                                                            by_cases h30 : v = "get"
                                                            · rw [if_pos h30] at h; injection h with h; subst h; decide
                                                            · rw [if_neg h30] at h
                                                              by_cases h31 : v = "if"
                                                              · rw [if_pos h31] at h; injection h with h; subst h; decide
                                                              · rw [if_neg h31] at h
                                                                by_cases h32 : v = "implements"
                                                                · rw [if_pos h32] at h; injection h with h; subst h; decide
                                                                · rw [if_neg h32] at h
                                                                  by_cases h33 : v = "import"
                                                                  · rw [if_pos h33] at h; injection h with h; subst h; decide
                                                                  · rw [if_neg h33] at h
                                                                    by_cases h34 : v = "in"
                                                                    · rw [if_pos h34] at h; injection h with h; subst h; decide
                                                                    · rw [if_neg h34] at h
                                                                      by_cases h35 : v = "infer"
                                                                      · rw [if_pos h35] at h; injection h with h; subst h; decide
                                                                      · rw [if_neg h35] at h
                                                                        by_cases h36 : v = "instanceof"
                                                                        · rw [if_pos h36] at h; injection h with h; subst h; decide
                                                                        · rw [if_neg h36] at h
                                                                          by_cases h37 : v = "interface"
                                                                          · rw [if_pos h37] at h; injection h with h; subst h; decide
                                                                          · rw [if_neg h37] at h
                                                                            by_cases h38 : v = "is"
                                                                            · rw [if_pos h38] at h; injection h with h; subst h; decide
                                                                            · rw [if_neg h38] at h
                                                                              by_cases h39 : v = "keyof"
                                                                              · rw [if_pos h39] at h; injection h with h; subst h; decide
                                                                              · rw [if_neg h39] at h
                                                                                by_cases h40 : v = "let"
                                                                                · rw [if_pos h40] at h; injection h with h; subst h; decide
                                                                                · rw [if_neg h40] at h
                                                                                  by_cases h41 : v = "module"
                                                                                  · rw [if_pos h41] at h; injection h with h; subst h; decide
                                                                                  · rw [if_neg h41] at h
                                                                                    by_cases h42 : v = "namespace"
                                                                                    · rw [if_pos h42] at h; injection h with h; subst h; decide
                                                                                    · rw [if_neg h42] at h
                                                                                      by_cases h43 : v = "never"
                                                                                      · rw [if_pos h43] at h; injection h with h; subst h; decide
                                                                                      · rw [if_neg h43] at h
                                                                                        by_cases h44 : v = "new"
                                                                                        · rw [if_pos h44] at h; injection h with h; subst h; decide
                                                                                        · rw [if_neg h44] at h
                                                                                          by_cases h45 : v = "node"
                                                                                          · rw [if_pos h45] at h; injection h with h; subst h; decide
                                                                                          · rw [if_neg h45] at h
                                                                                            by_cases h46 : v = "null"
                                                                                            · rw [if_pos h46] at h; injection h with h; subst h; decide
                                                                                            · rw [if_neg h46] at h
                                                                                              by_cases h47 : v = "number"
                                                                                              · rw [if_pos h47] at h; injection h with h; subst h; decide
                                                                                              · rw [if_neg h47] at h
                                                                                                by_cases h48 : v = "object"
                                                                                                · rw [if_pos h48] at h; injection h with h; subst h; decide
                                                                                                · rw [if_neg h48] at h
                                                                                                  by_cases h49 : v = "package"
                                                                                                  · rw [if_pos h49] at h; injection h with h; subst h; decide
                                                                                                  · rw [if_neg h49] at h
                                                                                                    by_cases h50 : v = "private"
                                                                                                    · rw [if_pos h50] at h; injection h with h; subst h; decide
                                                                                                    · rw [if_neg h50] at h
                                                                                                      by_cases h51 : v = "protected"
                                                                                                      · rw [if_pos h51] at h; injection h with h; subst h; decide
                                                                                                      · rw [if_neg h51] at h
                                                                                                        by_cases h52 : v = "public"
                                                                                                        · rw [if_pos h52] at h; injection h with h; subst h; decide
                                                                                                        · rw [if_neg h52] at h
                                                                                                          by_cases h53 : v = "readonly"
                                                                                                          · rw [if_pos h53] at h; injection h with h; subst h; decide
                                                                                                          · rw [if_neg h53] at h
                                                                                                            by_cases h54 : v = "require"
                                                                                                            · rw [if_pos h54] at h; injection h with h; subst h; decide
                                                                                                            · rw [if_neg h54] at h
                                                                                                              by_cases h55 : v = "global"
                                                                                                              · rw [if_pos h55] at h; injection h with h; subst h; decide
                                                                                                              · rw [if_neg h55] at h
                                                                                                                by_cases h56 : v = "return"
                                                                                                                · rw [if_pos h56] at h; injection h with h; subst h; decide
                                                                                                                · rw [if_neg h56] at h
                                                                                                                  by_cases h57 : v = "set"
                                                                                                                  · rw [if_pos h57] at h; injection h with h; subst h; decide
                                                                                                                  · rw [if_neg h57] at h
                                                                                                                    by_cases h58 : v = "state"
                                                                                                                    · rw [if_pos h58] at h; injection h with h; subst h; decide
                                                                                                                    · rw [if_neg h58] at h
                                                                                                                      by_cases h59 : v = "static"
                                                                                                                      · rw [if_pos h59] at h; injection h with h; subst h; decide
                                                                                                                      · rw [if_neg h59] at h
                                                                                                                        by_cases h60 : v = "string"
                                                                                                                        · rw [if_pos h60] at h; injection h with h; subst h; decide
                                                                                                                        · rw [if_neg h60] at h
                                                                                                                          by_cases h61 : v = "subnet"
                                                                                                                          · rw [if_pos h61] at h; injection h with h; subst h; decide
                                                                                                                          · rw [if_neg h61] at h
                                                                                                                            by_cases h62 : v = "super"
                                                                                                                            · rw [if_pos h62] at h; injection h with h; subst h; decide
                                                                                                                            · rw [if_neg h62] at h
                                                                                                                              by_cases h63 : v = "switch"
                                                                                                                              · rw [if_pos h63] at h; injection h with h; subst h; decide
                                                                                                                              · rw [if_neg h63] at h
                                                                                                                                by_cases h64 : v = "symbol"
                                                                                                                                · rw [if_pos h64] at h; injection h with h; subst h; decide
                                                                                                                                · rw [if_neg h64] at h
                                                                                                                                  by_cases h65 : v = "this"
                                                                                                                                  · rw [if_pos h65] at h; injection h with h; subst h; decide
                                                                                                                                  · rw [if_neg h65] at h
                                                                                                                                    by_cases h66 : v = "throw"
                                                                                                                                    · rw [if_pos h66] at h; injection h with h; subst h; decide
                                                                                                                                    · rw [if_neg h66] at h
                                                                                                                                      by_cases h67 : v = "true"
                                                                                                                                      · rw [if_pos h67] at h; injection h with h; subst h; decide
                                                                                                                                      · rw [if_neg h67] at h
                                                                                                                                        by_cases h68 : v = "try"
                                                                                                                                        · rw [if_pos h68] at h; injection h with h; subst h; decide
                                                                                                                                        · rw [if_neg h68] at h
                                                                                                                                          by_cases h69 : v = "type"
                                                                                                                                          · rw [if_pos h69] at h; injection h with h; subst h; decide
                                                                                                                                          · rw [if_neg h69] at h
                                                                                                                                            by_cases h70 : v = "typeof"
                                                                                                                                            · rw [if_pos h70] at h; injection h with h; subst h; decide
                                                                                                                                            · rw [if_neg h70] at h
                                                                                                                                              by_cases h71 : v = "undefined"
                                                                                                                                              · rw [if_pos h71] at h; injection h with h; subst h; decide
                                                                                                                                              · rw [if_neg h71] at h
                                                                                                                                                by_cases h72 : v = "unique"
                                                                                                                                                · rw [if_pos h72] at h; injection h with h; subst h; decide
                                                                                                                                                · rw [if_neg h72] at h
                                                                                                                                                  by_cases h73 : v = "unknown"
                                                                                                                                                  · rw [if_pos h73] at h; injection h with h; subst h; decide
                                                                                                                                                  · rw [if_neg h73] at h
                                                                                                                                                    by_cases h74 : v = "using"
                                                                                                                                                    · rw [if_pos h74] at h; injection h with h; subst h; decide
                                                                                                                                                    · rw [if_neg h74] at h
                                                                                                                                                      by_cases h75 : v = "var"
                                                                                                                                                      · rw [if_pos h75] at h; injection h with h; subst h; decide
                                                                                                                                                      · rw [if_neg h75] at h
                                                                                                                                                        by_cases h76 : v = "void"
                                                                                                                                                        · rw [if_pos h76] at h; injection h with h; subst h; decide
                                                                                                                                                        · rw [if_neg h76] at h
                                                                                                                                                          by_cases h77 : v = "while"
                                                                                                                                                          · rw [if_pos h77] at h; injection h with h; subst h; decide
                                                                                                                                                          · rw [if_neg h77] at h
                                                                                                                                                            by_cases h78 : v = "with"
                                                                                                                                                            · rw [if_pos h78] at h; injection h with h; subst h; decide
                                                                                                                                                            · rw [if_neg h78] at h
                                                                                                                                                              by_cases h79 : v = "yield"
                                                                                                                                                              · rw [if_pos h79] at h; injection h with h; subst h; decide
                                                                                                                                                              · rw [if_neg h79] at h
                                                                                                                                                                by_cases h80 : v = "async"
                                                                                                                                                                · rw [if_pos h80] at h; injection h with h; subst h; decide
                                                                                                                                                                · rw [if_neg h80] at h
                                                                                                                                                                  by_cases h81 : v = "await"
                                                                                                                                                                  · rw [if_pos h81] at h; injection h with h; subst h; decide
                                                                                                                                                                  · rw [if_neg h81] at h
                                                                                                                                                                    by_cases h82 : v = "of"
                                                                                                                                                                    · rw [if_pos h82] at h; injection h with h; subst h; decide
                                                                                                                                                                    · rw [if_neg h82] at h
                                                                                                                                                                      exact Option.noConfusion h

theorem checkReservedWord_eq (v : String) :
    checkReservedWord v =
      if CC.la ≤ charCodeAt v.toList 0 && charCodeAt v.toList 0 ≤ CC.lz then
        match textToKeyword v with
        | some keyword => keyword
        | none => K.Identifier
      else K.Identifier := rfl

theorem checkReservedWord_range (v : String) :
    61 ≤ checkReservedWord v ∧ checkReservedWord v ≤ 143 := by
  rw [checkReservedWord_eq]
  by_cases hg : (CC.la ≤ charCodeAt v.toList 0 &&
      charCodeAt v.toList 0 ≤ CC.lz) = true
  · rw [if_pos hg]
    cases htk : textToKeyword v with
    | none => show 61 ≤ K.Identifier ∧ K.Identifier ≤ 143; decide
    | some k =>
      show 61 ≤ k ∧ k ≤ 143
      have := textToKeyword_range htk
      omega
  · rw [if_neg hg]
    show 61 ≤ K.Identifier ∧ K.Identifier ≤ 143; decide

end TSGN

namespace TSGN

theorem scanStep_eq (s : S) :
    scanStep s =
      if s.pos ≥ s.endP then
        StepR.tok { s with tokenPos := s.pos, token := K.EndOfFileToken }
      else
        if charCodeAt s.text s.pos = CC.lineFeed || charCodeAt s.text s.pos = CC.carriageReturn then
          StepR.again { s with tokenPos := s.pos, tokenFlags := s.tokenFlags ||| TF.PrecedingLineBreak, pos := s.pos + 1 }
        else if charCodeAt s.text s.pos = CC.tab || charCodeAt s.text s.pos = CC.verticalTab || charCodeAt s.text s.pos = CC.formFeed || charCodeAt s.text s.pos = CC.space then
          StepR.again { s with tokenPos := s.pos, pos := s.pos + 1 }
        else if charCodeAt s.text s.pos = CC.exclamation then
          if charCodeAt s.text (s.pos + 1) = CC.equals then
            if charCodeAt s.text (s.pos + 2) = CC.equals then
              StepR.tok { s with tokenPos := s.pos, pos := s.pos + 3, token := K.ExclamationEqualsEqualsToken }
            else
              StepR.tok { s with tokenPos := s.pos, pos := s.pos + 2, token := K.ExclamationEqualsToken }
          else
            StepR.tok { s with tokenPos := s.pos, pos := s.pos + 1, token := K.ExclamationToken }
        else if charCodeAt s.text s.pos = CC.percent then
          if charCodeAt s.text (s.pos + 1) = CC.equals then
            StepR.tok { s with tokenPos := s.pos, pos := s.pos + 2, token := K.PercentEqualsToken }
          else
            StepR.tok { s with tokenPos := s.pos, pos := s.pos + 1, token := K.PercentToken }
        else if charCodeAt s.text s.pos = CC.ampersand then
          if charCodeAt s.text (s.pos + 1) = CC.ampersand then
            StepR.tok { s with tokenPos := s.pos, pos := s.pos + 2, token := K.AmpersandAmpersandToken }
          else if charCodeAt s.text (s.pos + 1) = CC.equals then
            StepR.tok { s with tokenPos := s.pos, pos := s.pos + 2, token := K.AmpersandEqualsToken }
          else
            StepR.tok { s with tokenPos := s.pos, pos := s.pos + 1, token := K.AmpersandToken }
        else if charCodeAt s.text s.pos = CC.openParen then
          StepR.tok { s with tokenPos := s.pos, pos := s.pos + 1, token := K.OpenParenToken }
        else if charCodeAt s.text s.pos = CC.closeParen then
          StepR.tok { s with tokenPos := s.pos, pos := s.pos + 1, token := K.CloseParenToken }
        else if charCodeAt s.text s.pos = CC.asterisk then
          if charCodeAt s.text (s.pos + 1) = CC.equals then
            StepR.tok { s with tokenPos := s.pos, pos := s.pos + 2, token := K.AsteriskEqualsToken }
          else if charCodeAt s.text (s.pos + 1) = CC.asterisk then
            if charCodeAt s.text (s.pos + 2) = CC.equals then
              StepR.tok { s with tokenPos := s.pos, pos := s.pos + 3, token := K.AsteriskAsteriskEqualsToken }
            else
              StepR.tok { s with tokenPos := s.pos, pos := s.pos + 2, token := K.AsteriskAsteriskToken }
          else
            StepR.tok { s with tokenPos := s.pos, pos := s.pos + 1, token := K.AsteriskToken }
        else if charCodeAt s.text s.pos = CC.plus then
          if charCodeAt s.text (s.pos + 1) = CC.plus then
            StepR.tok { s with tokenPos := s.pos, pos := s.pos + 2, token := K.PlusPlusToken }
          else if charCodeAt s.text (s.pos + 1) = CC.equals then
            StepR.tok { s with tokenPos := s.pos, pos := s.pos + 2, token := K.PlusEqualsToken }
          else
            StepR.tok { s with tokenPos := s.pos, pos := s.pos + 1, token := K.PlusToken }
        else if charCodeAt s.text s.pos = CC.comma then
          StepR.tok { s with tokenPos := s.pos, pos := s.pos + 1, token := K.CommaToken }
        else if charCodeAt s.text s.pos = CC.minus then
          if charCodeAt s.text (s.pos + 1) = CC.minus then
            StepR.tok { s with tokenPos := s.pos, pos := s.pos + 2, token := K.MinusMinusToken }
          else if charCodeAt s.text (s.pos + 1) = CC.equals then
            StepR.tok { s with tokenPos := s.pos, pos := s.pos + 2, token := K.MinusEqualsToken }
          else if charCodeAt s.text (s.pos + 1) = CC.greaterThan then
            StepR.tok { s with tokenPos := s.pos, pos := s.pos + 2, token := K.MinusGreaterThanToken }
          else
            StepR.tok { s with tokenPos := s.pos, pos := s.pos + 1, token := K.MinusToken }
        else if charCodeAt s.text s.pos = CC.dot then
          if isDigit (charCodeAt s.text (s.pos + 1)) then
            StepR.tok { (scanNumber { s with tokenPos := s.pos }).2 with token := K.NumericLiteral, tokenValue := some (scanNumber { s with tokenPos := s.pos }).1 }
          else if charCodeAt s.text (s.pos + 1) = CC.dot && charCodeAt s.text (s.pos + 2) = CC.dot then
            StepR.tok { s with tokenPos := s.pos, pos := s.pos + 3, token := K.DotDotDotToken }
          else
            StepR.tok { s with tokenPos := s.pos, pos := s.pos + 1, token := K.DotToken }
        else if charCodeAt s.text s.pos = CC.slash then
          if charCodeAt s.text (s.pos + 1) = CC.slash then
            StepR.again { s with tokenPos := s.pos, pos := singleLineCommentEnd s.text s.endP (s.endP + 1 - (s.pos + 2)) (s.pos + 2) }
          else if charCodeAt s.text (s.pos + 1) = CC.asterisk then
            StepR.again (if (multiLineCommentEnd s.text s.endP (s.endP + 1 - (s.pos + 2)) (s.pos + 2) s.tokenFlags).2.1 then { s with tokenPos := s.pos, pos := (multiLineCommentEnd s.text s.endP (s.endP + 1 - (s.pos + 2)) (s.pos + 2) s.tokenFlags).1, tokenFlags := (multiLineCommentEnd s.text s.endP (s.endP + 1 - (s.pos + 2)) (s.pos + 2) s.tokenFlags).2.2 } else { s with tokenPos := s.pos, pos := (multiLineCommentEnd s.text s.endP (s.endP + 1 - (s.pos + 2)) (s.pos + 2) s.tokenFlags).1, tokenFlags := (multiLineCommentEnd s.text s.endP (s.endP + 1 - (s.pos + 2)) (s.pos + 2) s.tokenFlags).2.2, errors := s.errors ++ [("\x22*/\x22 expected", (multiLineCommentEnd s.text s.endP (s.endP + 1 - (s.pos + 2)) (s.pos + 2) s.tokenFlags).1)] })
          else if charCodeAt s.text (s.pos + 1) = CC.equals then
            StepR.tok { s with tokenPos := s.pos, pos := s.pos + 2, token := K.SlashEqualsToken }
          else
            StepR.tok { s with tokenPos := s.pos, pos := s.pos + 1, token := K.SlashToken }
        else if charCodeAt s.text s.pos = CC.colon then
          if charCodeAt s.text (s.pos + 1) = CC.equals then
            StepR.tok { s with tokenPos := s.pos, pos := s.pos + 2, token := K.ColonToken }
          else
            StepR.tok { s with tokenPos := s.pos, pos := s.pos + 1, token := K.ColonToken }
        else if charCodeAt s.text s.pos = CC.semicolon then
          StepR.tok { s with tokenPos := s.pos, pos := s.pos + 1, token := K.SemicolonToken }
        else if charCodeAt s.text s.pos = CC.lessThan then
          if charCodeAt s.text (s.pos + 1) = CC.lessThan then
            if charCodeAt s.text (s.pos + 2) = CC.equals then
              StepR.tok { s with tokenPos := s.pos, pos := s.pos + 3, token := K.LessThanLessThanEqualsToken }
            else
              StepR.tok { s with tokenPos := s.pos, pos := s.pos + 2, token := K.LessThanLessThanToken }
          else if charCodeAt s.text (s.pos + 1) = CC.equals then
            StepR.tok { s with tokenPos := s.pos, pos := s.pos + 2, token := K.LessThanEqualsToken }
          else
            StepR.tok { s with tokenPos := s.pos, pos := s.pos + 1, token := K.LessThanToken }
        else if charCodeAt s.text s.pos = CC.greaterThan then
          if charCodeAt s.text (s.pos + 1) = CC.greaterThan then
            if charCodeAt s.text (s.pos + 2) = CC.greaterThan then
              if charCodeAt s.text (s.pos + 3) = CC.equals then
                StepR.tok { s with tokenPos := s.pos, pos := s.pos + 4, token := K.GreaterThanGreaterThanGreaterThanEqualsToken }
              else
                StepR.tok { s with tokenPos := s.pos, pos := s.pos + 3, token := K.GreaterThanGreaterThanGreaterThanToken }
            else if charCodeAt s.text (s.pos + 2) = CC.equals then
              StepR.tok { s with tokenPos := s.pos, pos := s.pos + 3, token := K.GreaterThanGreaterThanEqualsToken }
            else
              StepR.tok { s with tokenPos := s.pos, pos := s.pos + 2, token := K.GreaterThanGreaterThanToken }
          else if charCodeAt s.text (s.pos + 1) = CC.equals then
            StepR.tok { s with tokenPos := s.pos, pos := s.pos + 2, token := K.GreaterThanEqualsToken }
          else
            StepR.tok { s with tokenPos := s.pos, pos := s.pos + 1, token := K.GreaterThanToken }
        else if charCodeAt s.text s.pos = CC.equals then
          if charCodeAt s.text (s.pos + 1) = CC.equals then
            if charCodeAt s.text (s.pos + 2) = CC.equals then
              StepR.tok { s with tokenPos := s.pos, pos := s.pos + 3, token := K.EqualsEqualsEqualsToken }
            else
              StepR.tok { s with tokenPos := s.pos, pos := s.pos + 2, token := K.EqualsEqualsToken }
          else if charCodeAt s.text (s.pos + 1) = CC.greaterThan then
            StepR.tok { s with tokenPos := s.pos, pos := s.pos + 2, token := K.EqualsGreaterThanToken }
          else
            StepR.tok { s with tokenPos := s.pos, pos := s.pos + 1, token := K.EqualsToken }
        else if charCodeAt s.text s.pos = CC.question then
          if charCodeAt s.text (s.pos + 1) = CC.dot && ¬ isDigit (charCodeAt s.text (s.pos + 2)) then
            StepR.tok { s with tokenPos := s.pos, pos := s.pos + 2, token := K.QuestionDotToken }
          else if charCodeAt s.text (s.pos + 1) = CC.question then
            StepR.tok { s with tokenPos := s.pos, pos := s.pos + 2, token := K.QuestionQuestionToken }
          else
            StepR.tok { s with tokenPos := s.pos, pos := s.pos + 1, token := K.QuestionToken }
        else if charCodeAt s.text s.pos = CC.openBracket then
          StepR.tok { s with tokenPos := s.pos, pos := s.pos + 1, token := K.OpenBracketToken }
        else if charCodeAt s.text s.pos = CC.closeBracket then
          StepR.tok { s with tokenPos := s.pos, pos := s.pos + 1, token := K.CloseBracketToken }
        else if charCodeAt s.text s.pos = CC.caret then
          if charCodeAt s.text (s.pos + 1) = CC.equals then
            StepR.tok { s with tokenPos := s.pos, pos := s.pos + 2, token := K.CaretEqualsToken }
          else
            StepR.tok { s with tokenPos := s.pos, pos := s.pos + 1, token := K.CaretToken }
        else if charCodeAt s.text s.pos = CC.openBrace then
          StepR.tok { s with tokenPos := s.pos, pos := s.pos + 1, token := K.OpenBraceToken }
        else if charCodeAt s.text s.pos = CC.bar then
          if charCodeAt s.text (s.pos + 1) = CC.bar then
            StepR.tok { s with tokenPos := s.pos, pos := s.pos + 2, token := K.BarBarToken }
          else if charCodeAt s.text (s.pos + 1) = CC.equals then
            StepR.tok { s with tokenPos := s.pos, pos := s.pos + 2, token := K.BarEqualsToken }
          else
            StepR.tok { s with tokenPos := s.pos, pos := s.pos + 1, token := K.BarToken }
        else if charCodeAt s.text s.pos = CC.closeBrace then
          StepR.tok { s with tokenPos := s.pos, pos := s.pos + 1, token := K.CloseBraceToken }
        else if charCodeAt s.text s.pos = CC.tilde then
          StepR.tok { s with tokenPos := s.pos, pos := s.pos + 1, token := K.TildeToken }
        else if charCodeAt s.text s.pos = CC.atSign then
          StepR.tok { s with tokenPos := s.pos, pos := s.pos + 1, token := K.AtToken }
        else if charCodeAt s.text s.pos = CC.backslash then
          StepR.tok { s with tokenPos := s.pos, pos := s.pos + 1, token := K.Unknown, errors := s.errors ++ [("Unicode escape is not supported yet", s.pos)] }
        else if charCodeAt s.text s.pos = CC.doubleQuote || charCodeAt s.text s.pos = CC.singleQuote then
          StepR.tok { (scanString { s with tokenPos := s.pos }).2 with token := K.StringLiteral, tokenValue := some (scanString { s with tokenPos := s.pos }).1 }
        else if charCodeAt s.text s.pos = CC.d0 && s.pos + 2 < s.endP && (charCodeAt s.text (s.pos + 1) = CC.uX || charCodeAt s.text (s.pos + 1) = CC.lx) then
          StepR.tok { (if substring s.text (s.pos + 2) (runEndOf isHexDigit s.text (s.pos + 2)) = "" then (("0" : String), { s with tokenPos := s.pos, pos := runEndOf isHexDigit s.text (s.pos + 2), errors := s.errors ++ [("Hexadecimal digit expected", runEndOf isHexDigit s.text (s.pos + 2))] }) else (substring s.text (s.pos + 2) (runEndOf isHexDigit s.text (s.pos + 2)), { s with tokenPos := s.pos, pos := runEndOf isHexDigit s.text (s.pos + 2) })).2 with token := K.NumericLiteral, tokenValue := some (Nat.repr (parseIntRadix (if substring s.text (s.pos + 2) (runEndOf isHexDigit s.text (s.pos + 2)) = "" then (("0" : String), { s with tokenPos := s.pos, pos := runEndOf isHexDigit s.text (s.pos + 2), errors := s.errors ++ [("Hexadecimal digit expected", runEndOf isHexDigit s.text (s.pos + 2))] }) else (substring s.text (s.pos + 2) (runEndOf isHexDigit s.text (s.pos + 2)), { s with tokenPos := s.pos, pos := runEndOf isHexDigit s.text (s.pos + 2) })).1 16)), tokenFlags := (if substring s.text (s.pos + 2) (runEndOf isHexDigit s.text (s.pos + 2)) = "" then (("0" : String), { s with tokenPos := s.pos, pos := runEndOf isHexDigit s.text (s.pos + 2), errors := s.errors ++ [("Hexadecimal digit expected", runEndOf isHexDigit s.text (s.pos + 2))] }) else (substring s.text (s.pos + 2) (runEndOf isHexDigit s.text (s.pos + 2)), { s with tokenPos := s.pos, pos := runEndOf isHexDigit s.text (s.pos + 2) })).2.tokenFlags ||| TF.HexSpecifier }
        else if charCodeAt s.text s.pos = CC.d0 && s.pos + 2 < s.endP && (charCodeAt s.text (s.pos + 1) = CC.uB || charCodeAt s.text (s.pos + 1) = CC.lb) then
          StepR.tok { (if substring s.text (s.pos + 2) (runEndOf isBinaryDigit s.text (s.pos + 2)) = "" then (("0" : String), { s with tokenPos := s.pos, pos := runEndOf isBinaryDigit s.text (s.pos + 2), errors := s.errors ++ [("Binary digit expected", runEndOf isBinaryDigit s.text (s.pos + 2))] }) else (substring s.text (s.pos + 2) (runEndOf isBinaryDigit s.text (s.pos + 2)), { s with tokenPos := s.pos, pos := runEndOf isBinaryDigit s.text (s.pos + 2) })).2 with token := K.NumericLiteral, tokenValue := some (Nat.repr (parseIntRadix (if substring s.text (s.pos + 2) (runEndOf isBinaryDigit s.text (s.pos + 2)) = "" then (("0" : String), { s with tokenPos := s.pos, pos := runEndOf isBinaryDigit s.text (s.pos + 2), errors := s.errors ++ [("Binary digit expected", runEndOf isBinaryDigit s.text (s.pos + 2))] }) else (substring s.text (s.pos + 2) (runEndOf isBinaryDigit s.text (s.pos + 2)), { s with tokenPos := s.pos, pos := runEndOf isBinaryDigit s.text (s.pos + 2) })).1 2)), tokenFlags := (if substring s.text (s.pos + 2) (runEndOf isBinaryDigit s.text (s.pos + 2)) = "" then (("0" : String), { s with tokenPos := s.pos, pos := runEndOf isBinaryDigit s.text (s.pos + 2), errors := s.errors ++ [("Binary digit expected", runEndOf isBinaryDigit s.text (s.pos + 2))] }) else (substring s.text (s.pos + 2) (runEndOf isBinaryDigit s.text (s.pos + 2)), { s with tokenPos := s.pos, pos := runEndOf isBinaryDigit s.text (s.pos + 2) })).2.tokenFlags ||| TF.BinarySpecifier }
        else if charCodeAt s.text s.pos = CC.d0 && s.pos + 2 < s.endP && (charCodeAt s.text (s.pos + 1) = CC.uO || charCodeAt s.text (s.pos + 1) = CC.lo) then
          StepR.tok { (if substring s.text (s.pos + 2) (runEndOf isOctalDigit s.text (s.pos + 2)) = "" then (("0" : String), { s with tokenPos := s.pos, pos := runEndOf isOctalDigit s.text (s.pos + 2), errors := s.errors ++ [("Octal digit expected", runEndOf isOctalDigit s.text (s.pos + 2))] }) else (substring s.text (s.pos + 2) (runEndOf isOctalDigit s.text (s.pos + 2)), { s with tokenPos := s.pos, pos := runEndOf isOctalDigit s.text (s.pos + 2) })).2 with token := K.NumericLiteral, tokenValue := some (Nat.repr (parseIntRadix (if substring s.text (s.pos + 2) (runEndOf isOctalDigit s.text (s.pos + 2)) = "" then (("0" : String), { s with tokenPos := s.pos, pos := runEndOf isOctalDigit s.text (s.pos + 2), errors := s.errors ++ [("Octal digit expected", runEndOf isOctalDigit s.text (s.pos + 2))] }) else (substring s.text (s.pos + 2) (runEndOf isOctalDigit s.text (s.pos + 2)), { s with tokenPos := s.pos, pos := runEndOf isOctalDigit s.text (s.pos + 2) })).1 8)), tokenFlags := (if substring s.text (s.pos + 2) (runEndOf isOctalDigit s.text (s.pos + 2)) = "" then (("0" : String), { s with tokenPos := s.pos, pos := runEndOf isOctalDigit s.text (s.pos + 2), errors := s.errors ++ [("Octal digit expected", runEndOf isOctalDigit s.text (s.pos + 2))] }) else (substring s.text (s.pos + 2) (runEndOf isOctalDigit s.text (s.pos + 2)), { s with tokenPos := s.pos, pos := runEndOf isOctalDigit s.text (s.pos + 2) })).2.tokenFlags ||| TF.OctalSpecifier }
        else if charCodeAt s.text s.pos = CC.d0 && s.pos + 1 < s.endP && isOctalDigit (charCodeAt s.text (s.pos + 1)) then
          StepR.tok { s with tokenPos := s.pos, pos := runEndOf isOctalDigit s.text s.pos, token := K.NumericLiteral, tokenValue := some (Nat.repr (parseIntRadix (substring s.text s.pos (runEndOf isOctalDigit s.text s.pos)) 8)), tokenFlags := s.tokenFlags ||| TF.Octal }
        else if isDigit (charCodeAt s.text s.pos) then
          StepR.tok { (scanNumber { s with tokenPos := s.pos }).2 with token := K.NumericLiteral, tokenValue := some (scanNumber { s with tokenPos := s.pos }).1 }
        else if isIdentifierStart (charCodeAt s.text s.pos) then
          StepR.tok { s with tokenPos := s.pos, pos := identRunEnd s.text s.endP (s.endP + 1 - (s.pos + 1)) (s.pos + 1), tokenValue := some (substring s.text s.pos (identRunEnd s.text s.endP (s.endP + 1 - (s.pos + 1)) (s.pos + 1))), token := checkReservedWord (substring s.text s.pos (identRunEnd s.text s.endP (s.endP + 1 - (s.pos + 1)) (s.pos + 1))) }
        else
          StepR.tok { s with tokenPos := s.pos, pos := s.pos + 1, token := K.Unknown, errors := s.errors ++ [("Invalid character", s.pos)] }
  := rfl

set_option maxHeartbeats 4000000 in
theorem scanStep_spec (s : S) (hend : s.endP = s.text.length)
    (hpos : s.pos ≤ s.endP) :
    (∀ s2, scanStep s = StepR.tok s2 →
      s2.text = s.text ∧ s2.endP = s.endP ∧ s2.tokenPos = s.pos ∧
      s2.tokenPos ≤ s2.pos ∧ s2.pos ≤ s.endP ∧
      (s2.token ≠ K.EndOfFileToken → s.pos < s2.pos) ∧
      s2.token ≠ K.ColonEqualsToken) ∧
    (∀ s2, scanStep s = StepR.again s2 →
      s2.text = s.text ∧ s2.endP = s.endP ∧ s.pos < s2.pos ∧ s2.pos ≤ s.endP) := by
  rw [scanStep_eq]
  by_cases h0 : s.pos ≥ s.endP
  · rw [if_pos h0]
    constructor
    · intro s2 hstep
      injection hstep with hstep; subst hstep
      refine ⟨rfl, rfl, rfl, Nat.le_refl _, ?_, ?_, ?_⟩
      · show s.pos ≤ s.endP; omega
      · intro hne; exact absurd rfl hne
      · show K.EndOfFileToken ≠ K.ColonEqualsToken; decide
    · intro s2 hstep; exact StepR.noConfusion hstep
  · rw [if_neg h0]
    by_cases hc1 : (charCodeAt s.text s.pos = CC.lineFeed || charCodeAt s.text s.pos = CC.carriageReturn) = true
    · rw [if_pos hc1]
      constructor
      · intro s2 hstep; exact StepR.noConfusion hstep
      · intro s2 hstep
        injection hstep with hstep; subst hstep
        refine ⟨rfl, rfl, ?_, ?_⟩
        · show s.pos < s.pos + 1; omega
        · show s.pos + 1 ≤ s.endP; omega
    · rw [if_neg hc1]
      by_cases hc2 : (charCodeAt s.text s.pos = CC.tab || charCodeAt s.text s.pos = CC.verticalTab || charCodeAt s.text s.pos = CC.formFeed || charCodeAt s.text s.pos = CC.space) = true
      · rw [if_pos hc2]
        constructor
        · intro s2 hstep; exact StepR.noConfusion hstep
        · intro s2 hstep
          injection hstep with hstep; subst hstep
          refine ⟨rfl, rfl, ?_, ?_⟩
          · show s.pos < s.pos + 1; omega
          · show s.pos + 1 ≤ s.endP; omega
      · rw [if_neg hc2]
        by_cases hc3 : charCodeAt s.text s.pos = CC.exclamation
        · rw [if_pos hc3]
          by_cases hc4 : charCodeAt s.text (s.pos + 1) = CC.equals
          · rw [if_pos hc4]
            by_cases hc5 : charCodeAt s.text (s.pos + 2) = CC.equals
            · rw [if_pos hc5]
              constructor
              · intro s2 hstep
                injection hstep with hstep; subst hstep
                have hb2 : s.pos + 2 < s.text.length := charCodeAt_lt_of_eq hc5 (by decide)
                refine ⟨rfl, rfl, rfl, ?_, ?_, ?_, ?_⟩
                · show s.pos ≤ s.pos + 3; omega
                · show s.pos + 3 ≤ s.endP; omega
                · intro _; show s.pos < s.pos + 3; omega
                · show K.ExclamationEqualsEqualsToken ≠ K.ColonEqualsToken; decide
              · intro s2 hstep; exact StepR.noConfusion hstep
            · rw [if_neg hc5]
              constructor
              · intro s2 hstep
                injection hstep with hstep; subst hstep
                have hb1 : s.pos + 1 < s.text.length := charCodeAt_lt_of_eq hc4 (by decide)
                refine ⟨rfl, rfl, rfl, ?_, ?_, ?_, ?_⟩
                · show s.pos ≤ s.pos + 2; omega
                · show s.pos + 2 ≤ s.endP; omega
                · intro _; show s.pos < s.pos + 2; omega
                · show K.ExclamationEqualsToken ≠ K.ColonEqualsToken; decide
              · intro s2 hstep; exact StepR.noConfusion hstep
          · rw [if_neg hc4]
            constructor
            · intro s2 hstep
              injection hstep with hstep; subst hstep
              refine ⟨rfl, rfl, rfl, ?_, ?_, ?_, ?_⟩
              · show s.pos ≤ s.pos + 1; omega
              · show s.pos + 1 ≤ s.endP; omega
              · intro _; show s.pos < s.pos + 1; omega
              · show K.ExclamationToken ≠ K.ColonEqualsToken; decide
            · intro s2 hstep; exact StepR.noConfusion hstep
        · rw [if_neg hc3]
          by_cases hc6 : charCodeAt s.text s.pos = CC.percent
          · rw [if_pos hc6]
            by_cases hc7 : charCodeAt s.text (s.pos + 1) = CC.equals
            · rw [if_pos hc7]
              constructor
              · intro s2 hstep
                injection hstep with hstep; subst hstep
                have hb1 : s.pos + 1 < s.text.length := charCodeAt_lt_of_eq hc7 (by decide)
                refine ⟨rfl, rfl, rfl, ?_, ?_, ?_, ?_⟩
                · show s.pos ≤ s.pos + 2; omega
                · show s.pos + 2 ≤ s.endP; omega
                · intro _; show s.pos < s.pos + 2; omega
                · show K.PercentEqualsToken ≠ K.ColonEqualsToken; decide
              · intro s2 hstep; exact StepR.noConfusion hstep
            · rw [if_neg hc7]
              constructor
              · intro s2 hstep
                injection hstep with hstep; subst hstep
                refine ⟨rfl, rfl, rfl, ?_, ?_, ?_, ?_⟩
                · show s.pos ≤ s.pos + 1; omega
                · show s.pos + 1 ≤ s.endP; omega
                · intro _; show s.pos < s.pos + 1; omega
                · show K.PercentToken ≠ K.ColonEqualsToken; decide
              · intro s2 hstep; exact StepR.noConfusion hstep
          · rw [if_neg hc6]
            by_cases hc8 : charCodeAt s.text s.pos = CC.ampersand
            · rw [if_pos hc8]
              by_cases hc9 : charCodeAt s.text (s.pos + 1) = CC.ampersand
              · rw [if_pos hc9]
                constructor
                · intro s2 hstep
                  injection hstep with hstep; subst hstep
                  have hb1 : s.pos + 1 < s.text.length := charCodeAt_lt_of_eq hc9 (by decide)
                  refine ⟨rfl, rfl, rfl, ?_, ?_, ?_, ?_⟩
                  · show s.pos ≤ s.pos + 2; omega
                  · show s.pos + 2 ≤ s.endP; omega
                  · intro _; show s.pos < s.pos + 2; omega
                  · show K.AmpersandAmpersandToken ≠ K.ColonEqualsToken; decide
                · intro s2 hstep; exact StepR.noConfusion hstep
              · rw [if_neg hc9]
                by_cases hc10 : charCodeAt s.text (s.pos + 1) = CC.equals
                · rw [if_pos hc10]
                  constructor
                  · intro s2 hstep
                    injection hstep with hstep; subst hstep
                    have hb1 : s.pos + 1 < s.text.length := charCodeAt_lt_of_eq hc10 (by decide)
                    refine ⟨rfl, rfl, rfl, ?_, ?_, ?_, ?_⟩
                    · show s.pos ≤ s.pos + 2; omega
                    · show s.pos + 2 ≤ s.endP; omega
                    · intro _; show s.pos < s.pos + 2; omega
                    · show K.AmpersandEqualsToken ≠ K.ColonEqualsToken; decide
                  · intro s2 hstep; exact StepR.noConfusion hstep
                · rw [if_neg hc10]
                  constructor
                  · intro s2 hstep
                    injection hstep with hstep; subst hstep
                    refine ⟨rfl, rfl, rfl, ?_, ?_, ?_, ?_⟩
                    · show s.pos ≤ s.pos + 1; omega
                    · show s.pos + 1 ≤ s.endP; omega
                    · intro _; show s.pos < s.pos + 1; omega
                    · show K.AmpersandToken ≠ K.ColonEqualsToken; decide
                  · intro s2 hstep; exact StepR.noConfusion hstep
            · rw [if_neg hc8]
              by_cases hc11 : charCodeAt s.text s.pos = CC.openParen
              · rw [if_pos hc11]
                constructor
                · intro s2 hstep
                  injection hstep with hstep; subst hstep
                  refine ⟨rfl, rfl, rfl, ?_, ?_, ?_, ?_⟩
                  · show s.pos ≤ s.pos + 1; omega
                  · show s.pos + 1 ≤ s.endP; omega
                  · intro _; show s.pos < s.pos + 1; omega
                  · show K.OpenParenToken ≠ K.ColonEqualsToken; decide
                · intro s2 hstep; exact StepR.noConfusion hstep
              · rw [if_neg hc11]
                by_cases hc12 : charCodeAt s.text s.pos = CC.closeParen
                · rw [if_pos hc12]
                  constructor
                  · intro s2 hstep
                    injection hstep with hstep; subst hstep
                    refine ⟨rfl, rfl, rfl, ?_, ?_, ?_, ?_⟩
                    · show s.pos ≤ s.pos + 1; omega
                    · show s.pos + 1 ≤ s.endP; omega
                    · intro _; show s.pos < s.pos + 1; omega
                    · show K.CloseParenToken ≠ K.ColonEqualsToken; decide
                  · intro s2 hstep; exact StepR.noConfusion hstep
                · rw [if_neg hc12]
                  by_cases hc13 : charCodeAt s.text s.pos = CC.asterisk
                  · rw [if_pos hc13]
                    by_cases hc14 : charCodeAt s.text (s.pos + 1) = CC.equals
                    · rw [if_pos hc14]
                      constructor
                      · intro s2 hstep
                        injection hstep with hstep; subst hstep
                        have hb1 : s.pos + 1 < s.text.length := charCodeAt_lt_of_eq hc14 (by decide)
                        refine ⟨rfl, rfl, rfl, ?_, ?_, ?_, ?_⟩
                        · show s.pos ≤ s.pos + 2; omega
                        · show s.pos + 2 ≤ s.endP; omega
                        · intro _; show s.pos < s.pos + 2; omega
                        · show K.AsteriskEqualsToken ≠ K.ColonEqualsToken; decide
                      · intro s2 hstep; exact StepR.noConfusion hstep
                    · rw [if_neg hc14]
                      by_cases hc15 : charCodeAt s.text (s.pos + 1) = CC.asterisk
                      · rw [if_pos hc15]
                        by_cases hc16 : charCodeAt s.text (s.pos + 2) = CC.equals
                        · rw [if_pos hc16]
                          constructor
                          · intro s2 hstep
                            injection hstep with hstep; subst hstep
                            have hb2 : s.pos + 2 < s.text.length := charCodeAt_lt_of_eq hc16 (by decide)
                            refine ⟨rfl, rfl, rfl, ?_, ?_, ?_, ?_⟩
                            · show s.pos ≤ s.pos + 3; omega
                            · show s.pos + 3 ≤ s.endP; omega
                            · intro _; show s.pos < s.pos + 3; omega
                            · show K.AsteriskAsteriskEqualsToken ≠ K.ColonEqualsToken; decide
                          · intro s2 hstep; exact StepR.noConfusion hstep
                        · rw [if_neg hc16]
                          constructor
                          · intro s2 hstep
                            injection hstep with hstep; subst hstep
                            have hb1 : s.pos + 1 < s.text.length := charCodeAt_lt_of_eq hc15 (by decide)
                            refine ⟨rfl, rfl, rfl, ?_, ?_, ?_, ?_⟩
                            · show s.pos ≤ s.pos + 2; omega
                            · show s.pos + 2 ≤ s.endP; omega
                            · intro _; show s.pos < s.pos + 2; omega
                            · show K.AsteriskAsteriskToken ≠ K.ColonEqualsToken; decide
                          · intro s2 hstep; exact StepR.noConfusion hstep
                      · rw [if_neg hc15]
                        constructor
                        · intro s2 hstep
                          injection hstep with hstep; subst hstep
                          refine ⟨rfl, rfl, rfl, ?_, ?_, ?_, ?_⟩
                          · show s.pos ≤ s.pos + 1; omega
                          · show s.pos + 1 ≤ s.endP; omega
                          · intro _; show s.pos < s.pos + 1; omega
                          · show K.AsteriskToken ≠ K.ColonEqualsToken; decide
                        · intro s2 hstep; exact StepR.noConfusion hstep
                  · rw [if_neg hc13]
                    by_cases hc17 : charCodeAt s.text s.pos = CC.plus
                    · rw [if_pos hc17]
                      by_cases hc18 : charCodeAt s.text (s.pos + 1) = CC.plus
                      · rw [if_pos hc18]
                        constructor
                        · intro s2 hstep
                          injection hstep with hstep; subst hstep
                          have hb1 : s.pos + 1 < s.text.length := charCodeAt_lt_of_eq hc18 (by decide)
                          refine ⟨rfl, rfl, rfl, ?_, ?_, ?_, ?_⟩
                          · show s.pos ≤ s.pos + 2; omega
                          · show s.pos + 2 ≤ s.endP; omega
                          · intro _; show s.pos < s.pos + 2; omega
                          · show K.PlusPlusToken ≠ K.ColonEqualsToken; decide
                        · intro s2 hstep; exact StepR.noConfusion hstep
                      · rw [if_neg hc18]
                        by_cases hc19 : charCodeAt s.text (s.pos + 1) = CC.equals
                        · rw [if_pos hc19]
                          constructor
                          · intro s2 hstep
                            injection hstep with hstep; subst hstep
                            have hb1 : s.pos + 1 < s.text.length := charCodeAt_lt_of_eq hc19 (by decide)
                            refine ⟨rfl, rfl, rfl, ?_, ?_, ?_, ?_⟩
                            · show s.pos ≤ s.pos + 2; omega
                            · show s.pos + 2 ≤ s.endP; omega
                            · intro _; show s.pos < s.pos + 2; omega
                            · show K.PlusEqualsToken ≠ K.ColonEqualsToken; decide
                          · intro s2 hstep; exact StepR.noConfusion hstep
                        · rw [if_neg hc19]
                          constructor
                          · intro s2 hstep
                            injection hstep with hstep; subst hstep
                            refine ⟨rfl, rfl, rfl, ?_, ?_, ?_, ?_⟩
                            · show s.pos ≤ s.pos + 1; omega
                            · show s.pos + 1 ≤ s.endP; omega
                            · intro _; show s.pos < s.pos + 1; omega
                            · show K.PlusToken ≠ K.ColonEqualsToken; decide
                          · intro s2 hstep; exact StepR.noConfusion hstep
                    · rw [if_neg hc17]
                      by_cases hc20 : charCodeAt s.text s.pos = CC.comma
                      · rw [if_pos hc20]
                        constructor
                        · intro s2 hstep
                          injection hstep with hstep; subst hstep
                          refine ⟨rfl, rfl, rfl, ?_, ?_, ?_, ?_⟩
                          · show s.pos ≤ s.pos + 1; omega
                          · show s.pos + 1 ≤ s.endP; omega
                          · intro _; show s.pos < s.pos + 1; omega
                          · show K.CommaToken ≠ K.ColonEqualsToken; decide
                        · intro s2 hstep; exact StepR.noConfusion hstep
                      · rw [if_neg hc20]
                        by_cases hc21 : charCodeAt s.text s.pos = CC.minus
                        · rw [if_pos hc21]
                          by_cases hc22 : charCodeAt s.text (s.pos + 1) = CC.minus
                          · rw [if_pos hc22]
                            constructor
                            · intro s2 hstep
                              injection hstep with hstep; subst hstep
                              have hb1 : s.pos + 1 < s.text.length := charCodeAt_lt_of_eq hc22 (by decide)
                              refine ⟨rfl, rfl, rfl, ?_, ?_, ?_, ?_⟩
                              · show s.pos ≤ s.pos + 2; omega
                              · show s.pos + 2 ≤ s.endP; omega
                              · intro _; show s.pos < s.pos + 2; omega
                              · show K.MinusMinusToken ≠ K.ColonEqualsToken; decide
                            · intro s2 hstep; exact StepR.noConfusion hstep
                          · rw [if_neg hc22]
                            by_cases hc23 : charCodeAt s.text (s.pos + 1) = CC.equals
                            · rw [if_pos hc23]
                              constructor
                              · intro s2 hstep
                                injection hstep with hstep; subst hstep
                                have hb1 : s.pos + 1 < s.text.length := charCodeAt_lt_of_eq hc23 (by decide)
                                refine ⟨rfl, rfl, rfl, ?_, ?_, ?_, ?_⟩
                                · show s.pos ≤ s.pos + 2; omega
                                · show s.pos + 2 ≤ s.endP; omega
                                · intro _; show s.pos < s.pos + 2; omega
                                · show K.MinusEqualsToken ≠ K.ColonEqualsToken; decide
                              · intro s2 hstep; exact StepR.noConfusion hstep
                            · rw [if_neg hc23]
                              by_cases hc24 : charCodeAt s.text (s.pos + 1) = CC.greaterThan
                              · rw [if_pos hc24]
                                constructor
                                · intro s2 hstep
                                  injection hstep with hstep; subst hstep
                                  have hb1 : s.pos + 1 < s.text.length := charCodeAt_lt_of_eq hc24 (by decide)
                                  refine ⟨rfl, rfl, rfl, ?_, ?_, ?_, ?_⟩
                                  · show s.pos ≤ s.pos + 2; omega
                                  · show s.pos + 2 ≤ s.endP; omega
                                  · intro _; show s.pos < s.pos + 2; omega
                                  · show K.MinusGreaterThanToken ≠ K.ColonEqualsToken; decide
                                · intro s2 hstep; exact StepR.noConfusion hstep
                              · rw [if_neg hc24]
                                constructor
                                · intro s2 hstep
                                  injection hstep with hstep; subst hstep
                                  refine ⟨rfl, rfl, rfl, ?_, ?_, ?_, ?_⟩
                                  · show s.pos ≤ s.pos + 1; omega
                                  · show s.pos + 1 ≤ s.endP; omega
                                  · intro _; show s.pos < s.pos + 1; omega
                                  · show K.MinusToken ≠ K.ColonEqualsToken; decide
                                · intro s2 hstep; exact StepR.noConfusion hstep
                        · rw [if_neg hc21]
                          by_cases hc25 : charCodeAt s.text s.pos = CC.dot
                          · rw [if_pos hc25]
                            by_cases hc26 : (isDigit (charCodeAt s.text (s.pos + 1))) = true
                            · rw [if_pos hc26]
                              constructor
                              · intro s2 hstep
                                injection hstep with hstep; subst hstep
                                rcases hfr : scanNumber { s with tokenPos := s.pos } with ⟨tv, ss⟩
                                obtain ⟨ft, fe, ftp, ftk, flo, fhi, fprog⟩ := scanNumber_spec hfr
                                  (by show s.endP = s.text.length; exact hend) (by show s.pos ≤ s.endP; exact hpos)
                                have gpos : ({ s with tokenPos := s.pos } : S).pos = s.pos := rfl
                                have gend : ({ s with tokenPos := s.pos } : S).endP = s.endP := rfl
                                have gtp : ({ s with tokenPos := s.pos } : S).tokenPos = s.pos := rfl
                                have hprog : s.pos < ss.pos := by have := fprog (Or.inr (by show charCodeAt s.text s.pos = CC.dot; exact hc25)); omega
                                refine ⟨?_, ?_, ?_, ?_, ?_, ?_, ?_⟩
                                · show ss.text = s.text; exact ft
                                · show ss.endP = s.endP; exact fe
                                · show ss.tokenPos = s.pos; exact ftp
                                · show ss.tokenPos ≤ ss.pos; omega
                                · show ss.pos ≤ s.endP; omega
                                · intro _; show s.pos < ss.pos; omega
                                · show K.NumericLiteral ≠ K.ColonEqualsToken; decide
                              · intro s2 hstep; exact StepR.noConfusion hstep
                            · rw [if_neg hc26]
                              by_cases hc27 : (charCodeAt s.text (s.pos + 1) = CC.dot && charCodeAt s.text (s.pos + 2) = CC.dot) = true
                              · rw [if_pos hc27]
                                constructor
                                · intro s2 hstep
                                  injection hstep with hstep; subst hstep
                                  simp only [Bool.and_eq_true, decide_eq_true_eq] at hc27
                                  have hb : s.pos + 2 < s.text.length := charCodeAt_lt_of_eq hc27.2 (by decide)
                                  refine ⟨rfl, rfl, rfl, ?_, ?_, ?_, ?_⟩
                                  · show s.pos ≤ s.pos + 3; omega
                                  · show s.pos + 3 ≤ s.endP; omega
                                  · intro _; show s.pos < s.pos + 3; omega
                                  · show K.DotDotDotToken ≠ K.ColonEqualsToken; decide
                                · intro s2 hstep; exact StepR.noConfusion hstep
                              · rw [if_neg hc27]
                                constructor
                                · intro s2 hstep
                                  injection hstep with hstep; subst hstep
                                  refine ⟨rfl, rfl, rfl, ?_, ?_, ?_, ?_⟩
                                  · show s.pos ≤ s.pos + 1; omega
                                  · show s.pos + 1 ≤ s.endP; omega
                                  · intro _; show s.pos < s.pos + 1; omega
                                  · show K.DotToken ≠ K.ColonEqualsToken; decide
                                · intro s2 hstep; exact StepR.noConfusion hstep
                          · rw [if_neg hc25]
                            by_cases hc28 : charCodeAt s.text s.pos = CC.slash
                            · rw [if_pos hc28]
                              by_cases hc29 : charCodeAt s.text (s.pos + 1) = CC.slash
                              · rw [if_pos hc29]
                                constructor
                                · intro s2 hstep; exact StepR.noConfusion hstep
                                · intro s2 hstep
                                  injection hstep with hstep; subst hstep
                                  obtain ⟨sa, sb⟩ := singleLineCommentEnd_spec s.text s.endP
                                    (s.endP + 1 - (s.pos + 2)) (s.pos + 2)
                                  have hb1 : s.pos + 1 < s.text.length := charCodeAt_lt_of_eq hc29 (by decide)
                                  refine ⟨rfl, rfl, ?_, ?_⟩
                                  · show s.pos < singleLineCommentEnd s.text s.endP (s.endP + 1 - (s.pos + 2)) (s.pos + 2); omega
                                  · show singleLineCommentEnd s.text s.endP (s.endP + 1 - (s.pos + 2)) (s.pos + 2) ≤ s.endP
                                    have := sb (by omega); omega
                              · rw [if_neg hc29]
                                by_cases hc30 : charCodeAt s.text (s.pos + 1) = CC.asterisk
                                · rw [if_pos hc30]
                                  constructor
                                  · intro s2 hstep; exact StepR.noConfusion hstep
                                  · intro s2 hstep
                                    injection hstep with hstep; subst hstep
                                    obtain ⟨ma, mb⟩ := multiLineCommentEnd_spec s.text s.endP hend
                                      (s.endP + 1 - (s.pos + 2)) (s.pos + 2) s.tokenFlags
                                    have hb1 : s.pos + 1 < s.text.length := charCodeAt_lt_of_eq hc30 (by decide)
                                    by_cases hcl : (multiLineCommentEnd s.text s.endP (s.endP + 1 - (s.pos + 2)) (s.pos + 2) s.tokenFlags).2.1 = true
                                    · rw [if_pos hcl]
                                      refine ⟨rfl, rfl, ?_, ?_⟩
                                      · show s.pos < (multiLineCommentEnd s.text s.endP (s.endP + 1 - (s.pos + 2)) (s.pos + 2) s.tokenFlags).1; omega
                                      · show (multiLineCommentEnd s.text s.endP (s.endP + 1 - (s.pos + 2)) (s.pos + 2) s.tokenFlags).1 ≤ s.endP
                                        have := mb (by omega); omega
                                    · rw [if_neg hcl]
                                      refine ⟨rfl, rfl, ?_, ?_⟩
                                      · show s.pos < (multiLineCommentEnd s.text s.endP (s.endP + 1 - (s.pos + 2)) (s.pos + 2) s.tokenFlags).1; omega
                                      · show (multiLineCommentEnd s.text s.endP (s.endP + 1 - (s.pos + 2)) (s.pos + 2) s.tokenFlags).1 ≤ s.endP
                                        have := mb (by omega); omega
                                · rw [if_neg hc30]
                                  by_cases hc31 : charCodeAt s.text (s.pos + 1) = CC.equals
                                  · rw [if_pos hc31]
                                    constructor
                                    · intro s2 hstep
                                      injection hstep with hstep; subst hstep
                                      have hb1 : s.pos + 1 < s.text.length := charCodeAt_lt_of_eq hc31 (by decide)
                                      refine ⟨rfl, rfl, rfl, ?_, ?_, ?_, ?_⟩
                                      · show s.pos ≤ s.pos + 2; omega
                                      · show s.pos + 2 ≤ s.endP; omega
                                      · intro _; show s.pos < s.pos + 2; omega
                                      · show K.SlashEqualsToken ≠ K.ColonEqualsToken; decide
                                    · intro s2 hstep; exact StepR.noConfusion hstep
                                  · rw [if_neg hc31]
                                    constructor
                                    · intro s2 hstep
                                      injection hstep with hstep; subst hstep
                                      refine ⟨rfl, rfl, rfl, ?_, ?_, ?_, ?_⟩
                                      · show s.pos ≤ s.pos + 1; omega
                                      · show s.pos + 1 ≤ s.endP; omega
                                      · intro _; show s.pos < s.pos + 1; omega
                                      · show K.SlashToken ≠ K.ColonEqualsToken; decide
                                    · intro s2 hstep; exact StepR.noConfusion hstep
                            · rw [if_neg hc28]
                              by_cases hc32 : charCodeAt s.text s.pos = CC.colon
                              · rw [if_pos hc32]
                                by_cases hc33 : charCodeAt s.text (s.pos + 1) = CC.equals
                                · rw [if_pos hc33]
                                  constructor
                                  · intro s2 hstep
                                    injection hstep with hstep; subst hstep
                                    have hb1 : s.pos + 1 < s.text.length := charCodeAt_lt_of_eq hc33 (by decide)
                                    refine ⟨rfl, rfl, rfl, ?_, ?_, ?_, ?_⟩
                                    · show s.pos ≤ s.pos + 2; omega
                                    · show s.pos + 2 ≤ s.endP; omega
                                    · intro _; show s.pos < s.pos + 2; omega
                                    · show K.ColonToken ≠ K.ColonEqualsToken; decide
                                  · intro s2 hstep; exact StepR.noConfusion hstep
                                · rw [if_neg hc33]
                                  constructor
                                  · intro s2 hstep
                                    injection hstep with hstep; subst hstep
                                    refine ⟨rfl, rfl, rfl, ?_, ?_, ?_, ?_⟩
                                    · show s.pos ≤ s.pos + 1; omega
                                    · show s.pos + 1 ≤ s.endP; omega
                                    · intro _; show s.pos < s.pos + 1; omega
                                    · show K.ColonToken ≠ K.ColonEqualsToken; decide
                                  · intro s2 hstep; exact StepR.noConfusion hstep
                              · rw [if_neg hc32]
                                by_cases hc34 : charCodeAt s.text s.pos = CC.semicolon
                                · rw [if_pos hc34]
                                  constructor
                                  · intro s2 hstep
                                    injection hstep with hstep; subst hstep
                                    refine ⟨rfl, rfl, rfl, ?_, ?_, ?_, ?_⟩
                                    · show s.pos ≤ s.pos + 1; omega
                                    · show s.pos + 1 ≤ s.endP; omega
                                    · intro _; show s.pos < s.pos + 1; omega
                                    · show K.SemicolonToken ≠ K.ColonEqualsToken; decide
                                  · intro s2 hstep; exact StepR.noConfusion hstep
                                · rw [if_neg hc34]
                                  by_cases hc35 : charCodeAt s.text s.pos = CC.lessThan
                                  · rw [if_pos hc35]
                                    by_cases hc36 : charCodeAt s.text (s.pos + 1) = CC.lessThan
                                    · rw [if_pos hc36]
                                      by_cases hc37 : charCodeAt s.text (s.pos + 2) = CC.equals
                                      · rw [if_pos hc37]
                                        constructor
                                        · intro s2 hstep
                                          injection hstep with hstep; subst hstep
                                          have hb2 : s.pos + 2 < s.text.length := charCodeAt_lt_of_eq hc37 (by decide)
                                          refine ⟨rfl, rfl, rfl, ?_, ?_, ?_, ?_⟩
                                          · show s.pos ≤ s.pos + 3; omega
                                          · show s.pos + 3 ≤ s.endP; omega
                                          · intro _; show s.pos < s.pos + 3; omega
                                          · show K.LessThanLessThanEqualsToken ≠ K.ColonEqualsToken; decide
                                        · intro s2 hstep; exact StepR.noConfusion hstep
                                      · rw [if_neg hc37]
                                        constructor
                                        · intro s2 hstep
                                          injection hstep with hstep; subst hstep
                                          have hb1 : s.pos + 1 < s.text.length := charCodeAt_lt_of_eq hc36 (by decide)
                                          refine ⟨rfl, rfl, rfl, ?_, ?_, ?_, ?_⟩
                                          · show s.pos ≤ s.pos + 2; omega
                                          · show s.pos + 2 ≤ s.endP; omega
                                          · intro _; show s.pos < s.pos + 2; omega
                                          · show K.LessThanLessThanToken ≠ K.ColonEqualsToken; decide
                                        · intro s2 hstep; exact StepR.noConfusion hstep
                                    · rw [if_neg hc36]
                                      by_cases hc38 : charCodeAt s.text (s.pos + 1) = CC.equals
                                      · rw [if_pos hc38]
                                        constructor
                                        · intro s2 hstep
                                          injection hstep with hstep; subst hstep
                                          have hb1 : s.pos + 1 < s.text.length := charCodeAt_lt_of_eq hc38 (by decide)
                                          refine ⟨rfl, rfl, rfl, ?_, ?_, ?_, ?_⟩
                                          · show s.pos ≤ s.pos + 2; omega
                                          · show s.pos + 2 ≤ s.endP; omega
                                          · intro _; show s.pos < s.pos + 2; omega
                                          · show K.LessThanEqualsToken ≠ K.ColonEqualsToken; decide
                                        · intro s2 hstep; exact StepR.noConfusion hstep
                                      · rw [if_neg hc38]
                                        constructor
                                        · intro s2 hstep
                                          injection hstep with hstep; subst hstep
                                          refine ⟨rfl, rfl, rfl, ?_, ?_, ?_, ?_⟩
                                          · show s.pos ≤ s.pos + 1; omega
                                          · show s.pos + 1 ≤ s.endP; omega
                                          · intro _; show s.pos < s.pos + 1; omega
                                          · show K.LessThanToken ≠ K.ColonEqualsToken; decide
                                        · intro s2 hstep; exact StepR.noConfusion hstep
                                  · rw [if_neg hc35]
                                    by_cases hc39 : charCodeAt s.text s.pos = CC.greaterThan
                                    · rw [if_pos hc39]
                                      by_cases hc40 : charCodeAt s.text (s.pos + 1) = CC.greaterThan
                                      · rw [if_pos hc40]
                                        by_cases hc41 : charCodeAt s.text (s.pos + 2) = CC.greaterThan
                                        · rw [if_pos hc41]
                                          by_cases hc42 : charCodeAt s.text (s.pos + 3) = CC.equals
                                          · rw [if_pos hc42]
                                            constructor
                                            · intro s2 hstep
                                              injection hstep with hstep; subst hstep
                                              have hb3 : s.pos + 3 < s.text.length := charCodeAt_lt_of_eq hc42 (by decide)
                                              refine ⟨rfl, rfl, rfl, ?_, ?_, ?_, ?_⟩
                                              · show s.pos ≤ s.pos + 4; omega
                                              · show s.pos + 4 ≤ s.endP; omega
                                              · intro _; show s.pos < s.pos + 4; omega
                                              · show K.GreaterThanGreaterThanGreaterThanEqualsToken ≠ K.ColonEqualsToken; decide
                                            · intro s2 hstep; exact StepR.noConfusion hstep
                                          · rw [if_neg hc42]
                                            constructor
                                            · intro s2 hstep
                                              injection hstep with hstep; subst hstep
                                              have hb2 : s.pos + 2 < s.text.length := charCodeAt_lt_of_eq hc41 (by decide)
                                              refine ⟨rfl, rfl, rfl, ?_, ?_, ?_, ?_⟩
                                              · show s.pos ≤ s.pos + 3; omega
                                              · show s.pos + 3 ≤ s.endP; omega
                                              · intro _; show s.pos < s.pos + 3; omega
                                              · show K.GreaterThanGreaterThanGreaterThanToken ≠ K.ColonEqualsToken; decide
                                            · intro s2 hstep; exact StepR.noConfusion hstep
                                        · rw [if_neg hc41]
                                          by_cases hc43 : charCodeAt s.text (s.pos + 2) = CC.equals
                                          · rw [if_pos hc43]
                                            constructor
                                            · intro s2 hstep
                                              injection hstep with hstep; subst hstep
                                              have hb2 : s.pos + 2 < s.text.length := charCodeAt_lt_of_eq hc43 (by decide)
                                              refine ⟨rfl, rfl, rfl, ?_, ?_, ?_, ?_⟩
                                              · show s.pos ≤ s.pos + 3; omega
                                              · show s.pos + 3 ≤ s.endP; omega
                                              · intro _; show s.pos < s.pos + 3; omega
                                              · show K.GreaterThanGreaterThanEqualsToken ≠ K.ColonEqualsToken; decide
                                            · intro s2 hstep; exact StepR.noConfusion hstep
                                          · rw [if_neg hc43]
                                            constructor
                                            · intro s2 hstep
                                              injection hstep with hstep; subst hstep
                                              have hb1 : s.pos + 1 < s.text.length := charCodeAt_lt_of_eq hc40 (by decide)
                                              refine ⟨rfl, rfl, rfl, ?_, ?_, ?_, ?_⟩
                                              · show s.pos ≤ s.pos + 2; omega
                                              · show s.pos + 2 ≤ s.endP; omega
                                              · intro _; show s.pos < s.pos + 2; omega
                                              · show K.GreaterThanGreaterThanToken ≠ K.ColonEqualsToken; decide
                                            · intro s2 hstep; exact StepR.noConfusion hstep
                                      · rw [if_neg hc40]
                                        by_cases hc44 : charCodeAt s.text (s.pos + 1) = CC.equals
                                        · rw [if_pos hc44]
                                          constructor
                                          · intro s2 hstep
                                            injection hstep with hstep; subst hstep
                                            have hb1 : s.pos + 1 < s.text.length := charCodeAt_lt_of_eq hc44 (by decide)
                                            refine ⟨rfl, rfl, rfl, ?_, ?_, ?_, ?_⟩
                                            · show s.pos ≤ s.pos + 2; omega
                                            · show s.pos + 2 ≤ s.endP; omega
                                            · intro _; show s.pos < s.pos + 2; omega
                                            · show K.GreaterThanEqualsToken ≠ K.ColonEqualsToken; decide
                                          · intro s2 hstep; exact StepR.noConfusion hstep
                                        · rw [if_neg hc44]
                                          constructor
                                          · intro s2 hstep
                                            injection hstep with hstep; subst hstep
                                            refine ⟨rfl, rfl, rfl, ?_, ?_, ?_, ?_⟩
                                            · show s.pos ≤ s.pos + 1; omega
                                            · show s.pos + 1 ≤ s.endP; omega
                                            · intro _; show s.pos < s.pos + 1; omega
                                            · show K.GreaterThanToken ≠ K.ColonEqualsToken; decide
                                          · intro s2 hstep; exact StepR.noConfusion hstep
                                    · rw [if_neg hc39]
                                      by_cases hc45 : charCodeAt s.text s.pos = CC.equals
                                      · rw [if_pos hc45]
                                        by_cases hc46 : charCodeAt s.text (s.pos + 1) = CC.equals
                                        · rw [if_pos hc46]
                                          by_cases hc47 : charCodeAt s.text (s.pos + 2) = CC.equals
                                          · rw [if_pos hc47]
                                            constructor
                                            · intro s2 hstep
                                              injection hstep with hstep; subst hstep
                                              have hb2 : s.pos + 2 < s.text.length := charCodeAt_lt_of_eq hc47 (by decide)
                                              refine ⟨rfl, rfl, rfl, ?_, ?_, ?_, ?_⟩
                                              · show s.pos ≤ s.pos + 3; omega
                                              · show s.pos + 3 ≤ s.endP; omega
                                              · intro _; show s.pos < s.pos + 3; omega
                                              · show K.EqualsEqualsEqualsToken ≠ K.ColonEqualsToken; decide
                                            · intro s2 hstep; exact StepR.noConfusion hstep
                                          · rw [if_neg hc47]
                                            constructor
                                            · intro s2 hstep
                                              injection hstep with hstep; subst hstep
                                              have hb1 : s.pos + 1 < s.text.length := charCodeAt_lt_of_eq hc46 (by decide)
                                              refine ⟨rfl, rfl, rfl, ?_, ?_, ?_, ?_⟩
                                              · show s.pos ≤ s.pos + 2; omega
                                              · show s.pos + 2 ≤ s.endP; omega
                                              · intro _; show s.pos < s.pos + 2; omega
                                              · show K.EqualsEqualsToken ≠ K.ColonEqualsToken; decide
                                            · intro s2 hstep; exact StepR.noConfusion hstep
                                        · rw [if_neg hc46]
                                          by_cases hc48 : charCodeAt s.text (s.pos + 1) = CC.greaterThan
                                          · rw [if_pos hc48]
                                            constructor
                                            · intro s2 hstep
                                              injection hstep with hstep; subst hstep
                                              have hb1 : s.pos + 1 < s.text.length := charCodeAt_lt_of_eq hc48 (by decide)
                                              refine ⟨rfl, rfl, rfl, ?_, ?_, ?_, ?_⟩
                                              · show s.pos ≤ s.pos + 2; omega
                                              · show s.pos + 2 ≤ s.endP; omega
                                              · intro _; show s.pos < s.pos + 2; omega
                                              · show K.EqualsGreaterThanToken ≠ K.ColonEqualsToken; decide
                                            · intro s2 hstep; exact StepR.noConfusion hstep
                                          · rw [if_neg hc48]
                                            constructor
                                            · intro s2 hstep
                                              injection hstep with hstep; subst hstep
                                              refine ⟨rfl, rfl, rfl, ?_, ?_, ?_, ?_⟩
                                              · show s.pos ≤ s.pos + 1; omega
                                              · show s.pos + 1 ≤ s.endP; omega
                                              · intro _; show s.pos < s.pos + 1; omega
                                              · show K.EqualsToken ≠ K.ColonEqualsToken; decide
                                            · intro s2 hstep; exact StepR.noConfusion hstep
                                      · rw [if_neg hc45]
                                        by_cases hc49 : charCodeAt s.text s.pos = CC.question
                                        · rw [if_pos hc49]
                                          by_cases hc50 : (charCodeAt s.text (s.pos + 1) = CC.dot && ¬ isDigit (charCodeAt s.text (s.pos + 2))) = true
                                          · rw [if_pos hc50]
                                            constructor
                                            · intro s2 hstep
                                              injection hstep with hstep; subst hstep
                                              simp only [Bool.and_eq_true, decide_eq_true_eq] at hc50
                                              have hb : s.pos + 1 < s.text.length := charCodeAt_lt_of_eq hc50.1 (by decide)
                                              refine ⟨rfl, rfl, rfl, ?_, ?_, ?_, ?_⟩
                                              · show s.pos ≤ s.pos + 2; omega
                                              · show s.pos + 2 ≤ s.endP; omega
                                              · intro _; show s.pos < s.pos + 2; omega
                                              · show K.QuestionDotToken ≠ K.ColonEqualsToken; decide
                                            · intro s2 hstep; exact StepR.noConfusion hstep
                                          · rw [if_neg hc50]
                                            by_cases hc51 : charCodeAt s.text (s.pos + 1) = CC.question
                                            · rw [if_pos hc51]
                                              constructor
                                              · intro s2 hstep
                                                injection hstep with hstep; subst hstep
                                                have hb1 : s.pos + 1 < s.text.length := charCodeAt_lt_of_eq hc51 (by decide)
                                                refine ⟨rfl, rfl, rfl, ?_, ?_, ?_, ?_⟩
                                                · show s.pos ≤ s.pos + 2; omega
                                                · show s.pos + 2 ≤ s.endP; omega
                                                · intro _; show s.pos < s.pos + 2; omega
                                                · show K.QuestionQuestionToken ≠ K.ColonEqualsToken; decide
                                              · intro s2 hstep; exact StepR.noConfusion hstep
                                            · rw [if_neg hc51]
                                              constructor
                                              · intro s2 hstep
                                                injection hstep with hstep; subst hstep
                                                refine ⟨rfl, rfl, rfl, ?_, ?_, ?_, ?_⟩
                                                · show s.pos ≤ s.pos + 1; omega
                                                · show s.pos + 1 ≤ s.endP; omega
                                                · intro _; show s.pos < s.pos + 1; omega
                                                · show K.QuestionToken ≠ K.ColonEqualsToken; decide
                                              · intro s2 hstep; exact StepR.noConfusion hstep
                                        · rw [if_neg hc49]
                                          by_cases hc52 : charCodeAt s.text s.pos = CC.openBracket
                                          · rw [if_pos hc52]
                                            constructor
                                            · intro s2 hstep
                                              injection hstep with hstep; subst hstep
                                              refine ⟨rfl, rfl, rfl, ?_, ?_, ?_, ?_⟩
                                              · show s.pos ≤ s.pos + 1; omega
                                              · show s.pos + 1 ≤ s.endP; omega
                                              · intro _; show s.pos < s.pos + 1; omega
                                              · show K.OpenBracketToken ≠ K.ColonEqualsToken; decide
                                            · intro s2 hstep; exact StepR.noConfusion hstep
                                          · rw [if_neg hc52]
                                            by_cases hc53 : charCodeAt s.text s.pos = CC.closeBracket
                                            · rw [if_pos hc53]
                                              constructor
                                              · intro s2 hstep
                                                injection hstep with hstep; subst hstep
                                                refine ⟨rfl, rfl, rfl, ?_, ?_, ?_, ?_⟩
                                                · show s.pos ≤ s.pos + 1; omega
                                                · show s.pos + 1 ≤ s.endP; omega
                                                · intro _; show s.pos < s.pos + 1; omega
                                                · show K.CloseBracketToken ≠ K.ColonEqualsToken; decide
                                              · intro s2 hstep; exact StepR.noConfusion hstep
                                            · rw [if_neg hc53]
                                              by_cases hc54 : charCodeAt s.text s.pos = CC.caret
                                              · rw [if_pos hc54]
                                                by_cases hc55 : charCodeAt s.text (s.pos + 1) = CC.equals
                                                · rw [if_pos hc55]
                                                  constructor
                                                  · intro s2 hstep
                                                    injection hstep with hstep; subst hstep
                                                    have hb1 : s.pos + 1 < s.text.length := charCodeAt_lt_of_eq hc55 (by decide)
                                                    refine ⟨rfl, rfl, rfl, ?_, ?_, ?_, ?_⟩
                                                    · show s.pos ≤ s.pos + 2; omega
                                                    · show s.pos + 2 ≤ s.endP; omega
                                                    · intro _; show s.pos < s.pos + 2; omega
                                                    · show K.CaretEqualsToken ≠ K.ColonEqualsToken; decide
                                                  · intro s2 hstep; exact StepR.noConfusion hstep
                                                · rw [if_neg hc55]
                                                  constructor
                                                  · intro s2 hstep
                                                    injection hstep with hstep; subst hstep
                                                    refine ⟨rfl, rfl, rfl, ?_, ?_, ?_, ?_⟩
                                                    · show s.pos ≤ s.pos + 1; omega
                                                    · show s.pos + 1 ≤ s.endP; omega
                                                    · intro _; show s.pos < s.pos + 1; omega
                                                    · show K.CaretToken ≠ K.ColonEqualsToken; decide
                                                  · intro s2 hstep; exact StepR.noConfusion hstep
                                              · rw [if_neg hc54]
                                                by_cases hc56 : charCodeAt s.text s.pos = CC.openBrace
                                                · rw [if_pos hc56]
                                                  constructor
                                                  · intro s2 hstep
                                                    injection hstep with hstep; subst hstep
                                                    refine ⟨rfl, rfl, rfl, ?_, ?_, ?_, ?_⟩
                                                    · show s.pos ≤ s.pos + 1; omega
                                                    · show s.pos + 1 ≤ s.endP; omega
                                                    · intro _; show s.pos < s.pos + 1; omega
                                                    · show K.OpenBraceToken ≠ K.ColonEqualsToken; decide
                                                  · intro s2 hstep; exact StepR.noConfusion hstep
                                                · rw [if_neg hc56]
                                                  by_cases hc57 : charCodeAt s.text s.pos = CC.bar
                                                  · rw [if_pos hc57]
                                                    by_cases hc58 : charCodeAt s.text (s.pos + 1) = CC.bar
                                                    · rw [if_pos hc58]
                                                      constructor
                                                      · intro s2 hstep
                                                        injection hstep with hstep; subst hstep
                                                        have hb1 : s.pos + 1 < s.text.length := charCodeAt_lt_of_eq hc58 (by decide)
                                                        refine ⟨rfl, rfl, rfl, ?_, ?_, ?_, ?_⟩
                                                        · show s.pos ≤ s.pos + 2; omega
                                                        · show s.pos + 2 ≤ s.endP; omega
                                                        · intro _; show s.pos < s.pos + 2; omega
                                                        · show K.BarBarToken ≠ K.ColonEqualsToken; decide
                                                      · intro s2 hstep; exact StepR.noConfusion hstep
                                                    · rw [if_neg hc58]
                                                      by_cases hc59 : charCodeAt s.text (s.pos + 1) = CC.equals
                                                      · rw [if_pos hc59]
                                                        constructor
                                                        · intro s2 hstep
                                                          injection hstep with hstep; subst hstep
                                                          have hb1 : s.pos + 1 < s.text.length := charCodeAt_lt_of_eq hc59 (by decide)
                                                          refine ⟨rfl, rfl, rfl, ?_, ?_, ?_, ?_⟩
                                                          · show s.pos ≤ s.pos + 2; omega
                                                          · show s.pos + 2 ≤ s.endP; omega
                                                          · intro _; show s.pos < s.pos + 2; omega
                                                          · show K.BarEqualsToken ≠ K.ColonEqualsToken; decide
                                                        · intro s2 hstep; exact StepR.noConfusion hstep
                                                      · rw [if_neg hc59]
                                                        constructor
                                                        · intro s2 hstep
                                                          injection hstep with hstep; subst hstep
                                                          refine ⟨rfl, rfl, rfl, ?_, ?_, ?_, ?_⟩
                                                          · show s.pos ≤ s.pos + 1; omega
                                                          · show s.pos + 1 ≤ s.endP; omega
                                                          · intro _; show s.pos < s.pos + 1; omega
                                                          · show K.BarToken ≠ K.ColonEqualsToken; decide
                                                        · intro s2 hstep; exact StepR.noConfusion hstep
                                                  · rw [if_neg hc57]
                                                    by_cases hc60 : charCodeAt s.text s.pos = CC.closeBrace
                                                    · rw [if_pos hc60]
                                                      constructor
                                                      · intro s2 hstep
                                                        injection hstep with hstep; subst hstep
                                                        refine ⟨rfl, rfl, rfl, ?_, ?_, ?_, ?_⟩
                                                        · show s.pos ≤ s.pos + 1; omega
                                                        · show s.pos + 1 ≤ s.endP; omega
                                                        · intro _; show s.pos < s.pos + 1; omega
                                                        · show K.CloseBraceToken ≠ K.ColonEqualsToken; decide
                                                      · intro s2 hstep; exact StepR.noConfusion hstep
                                                    · rw [if_neg hc60]
                                                      by_cases hc61 : charCodeAt s.text s.pos = CC.tilde
                                                      · rw [if_pos hc61]
                                                        constructor
                                                        · intro s2 hstep
                                                          injection hstep with hstep; subst hstep
                                                          refine ⟨rfl, rfl, rfl, ?_, ?_, ?_, ?_⟩
                                                          · show s.pos ≤ s.pos + 1; omega
                                                          · show s.pos + 1 ≤ s.endP; omega
                                                          · intro _; show s.pos < s.pos + 1; omega
                                                          · show K.TildeToken ≠ K.ColonEqualsToken; decide
                                                        · intro s2 hstep; exact StepR.noConfusion hstep
                                                      · rw [if_neg hc61]
                                                        by_cases hc62 : charCodeAt s.text s.pos = CC.atSign
                                                        · rw [if_pos hc62]
                                                          constructor
                                                          · intro s2 hstep
                                                            injection hstep with hstep; subst hstep
                                                            refine ⟨rfl, rfl, rfl, ?_, ?_, ?_, ?_⟩
                                                            · show s.pos ≤ s.pos + 1; omega
                                                            · show s.pos + 1 ≤ s.endP; omega
                                                            · intro _; show s.pos < s.pos + 1; omega
                                                            · show K.AtToken ≠ K.ColonEqualsToken; decide
                                                          · intro s2 hstep; exact StepR.noConfusion hstep
                                                        · rw [if_neg hc62]
                                                          by_cases hc63 : charCodeAt s.text s.pos = CC.backslash
                                                          · rw [if_pos hc63]
                                                            constructor
                                                            · intro s2 hstep
                                                              injection hstep with hstep; subst hstep
                                                              refine ⟨rfl, rfl, rfl, ?_, ?_, ?_, ?_⟩
                                                              · show s.pos ≤ s.pos + 1; omega
                                                              · show s.pos + 1 ≤ s.endP; omega
                                                              · intro _; show s.pos < s.pos + 1; omega
                                                              · show K.Unknown ≠ K.ColonEqualsToken; decide
                                                            · intro s2 hstep; exact StepR.noConfusion hstep
                                                          · rw [if_neg hc63]
                                                            by_cases hc64 : (charCodeAt s.text s.pos = CC.doubleQuote || charCodeAt s.text s.pos = CC.singleQuote) = true
                                                            · rw [if_pos hc64]
                                                              constructor
                                                              · intro s2 hstep
                                                                injection hstep with hstep; subst hstep
                                                                rcases hfr : scanString { s with tokenPos := s.pos } with ⟨tv, ss⟩
                                                                obtain ⟨ft, fe, ftp, ftk, flo, fhi⟩ := scanString_spec hfr
                                                                  (by show s.pos < s.endP; omega)
                                                                have gpos : ({ s with tokenPos := s.pos } : S).pos = s.pos := rfl
                                                                have gend : ({ s with tokenPos := s.pos } : S).endP = s.endP := rfl
                                                                have gtp : ({ s with tokenPos := s.pos } : S).tokenPos = s.pos := rfl
                                                                refine ⟨?_, ?_, ?_, ?_, ?_, ?_, ?_⟩
                                                                · show ss.text = s.text; exact ft
                                                                · show ss.endP = s.endP; exact fe
                                                                · show ss.tokenPos = s.pos; exact ftp
                                                                · show ss.tokenPos ≤ ss.pos; omega
                                                                · show ss.pos ≤ s.endP; omega
                                                                · intro _; show s.pos < ss.pos; omega
                                                                · show K.StringLiteral ≠ K.ColonEqualsToken; decide
                                                              · intro s2 hstep; exact StepR.noConfusion hstep
                                                            · rw [if_neg hc64]
                                                              by_cases hc65 : (charCodeAt s.text s.pos = CC.d0 && s.pos + 2 < s.endP && (charCodeAt s.text (s.pos + 1) = CC.uX || charCodeAt s.text (s.pos + 1) = CC.lx)) = true
                                                              · rw [if_pos hc65]
                                                                constructor
                                                                · intro s2 hstep
                                                                  injection hstep with hstep; subst hstep
                                                                  simp only [Bool.and_eq_true, Bool.or_eq_true, decide_eq_true_eq] at hc65
                                                                  have hge := runEndOf_ge isHexDigit s.text (s.pos + 2)
                                                                  have hle := runEndOf_le isHexDigit s.text (s.pos + 2) isHexDigit_neg (by omega)
                                                                  by_cases hemp : substring s.text (s.pos + 2) (runEndOf isHexDigit s.text (s.pos + 2)) = ""
                                                                  · rw [if_pos hemp]
                                                                    refine ⟨rfl, rfl, rfl, ?_, ?_, ?_, ?_⟩
                                                                    · show s.pos ≤ runEndOf isHexDigit s.text (s.pos + 2); omega
                                                                    · show runEndOf isHexDigit s.text (s.pos + 2) ≤ s.endP; omega
                                                                    · intro _; show s.pos < runEndOf isHexDigit s.text (s.pos + 2); omega
                                                                    · show K.NumericLiteral ≠ K.ColonEqualsToken; decide
                                                                  · rw [if_neg hemp]
                                                                    refine ⟨rfl, rfl, rfl, ?_, ?_, ?_, ?_⟩
                                                                    · show s.pos ≤ runEndOf isHexDigit s.text (s.pos + 2); omega
                                                                    · show runEndOf isHexDigit s.text (s.pos + 2) ≤ s.endP; omega
                                                                    · intro _; show s.pos < runEndOf isHexDigit s.text (s.pos + 2); omega
                                                                    · show K.NumericLiteral ≠ K.ColonEqualsToken; decide
                                                                · intro s2 hstep; exact StepR.noConfusion hstep
                                                              · rw [if_neg hc65]
                                                                by_cases hc66 : (charCodeAt s.text s.pos = CC.d0 && s.pos + 2 < s.endP && (charCodeAt s.text (s.pos + 1) = CC.uB || charCodeAt s.text (s.pos + 1) = CC.lb)) = true
                                                                · rw [if_pos hc66]
                                                                  constructor
                                                                  · intro s2 hstep
                                                                    injection hstep with hstep; subst hstep
                                                                    simp only [Bool.and_eq_true, Bool.or_eq_true, decide_eq_true_eq] at hc66
                                                                    have hge := runEndOf_ge isBinaryDigit s.text (s.pos + 2)
                                                                    have hle := runEndOf_le isBinaryDigit s.text (s.pos + 2) isBinaryDigit_neg (by omega)
                                                                    by_cases hemp : substring s.text (s.pos + 2) (runEndOf isBinaryDigit s.text (s.pos + 2)) = ""
                                                                    · rw [if_pos hemp]
                                                                      refine ⟨rfl, rfl, rfl, ?_, ?_, ?_, ?_⟩
                                                                      · show s.pos ≤ runEndOf isBinaryDigit s.text (s.pos + 2); omega
                                                                      · show runEndOf isBinaryDigit s.text (s.pos + 2) ≤ s.endP; omega
                                                                      · intro _; show s.pos < runEndOf isBinaryDigit s.text (s.pos + 2); omega
                                                                      · show K.NumericLiteral ≠ K.ColonEqualsToken; decide
                                                                    · rw [if_neg hemp]
                                                                      refine ⟨rfl, rfl, rfl, ?_, ?_, ?_, ?_⟩
                                                                      · show s.pos ≤ runEndOf isBinaryDigit s.text (s.pos + 2); omega
                                                                      · show runEndOf isBinaryDigit s.text (s.pos + 2) ≤ s.endP; omega
                                                                      · intro _; show s.pos < runEndOf isBinaryDigit s.text (s.pos + 2); omega
                                                                      · show K.NumericLiteral ≠ K.ColonEqualsToken; decide
                                                                  · intro s2 hstep; exact StepR.noConfusion hstep
                                                                · rw [if_neg hc66]
                                                                  by_cases hc67 : (charCodeAt s.text s.pos = CC.d0 && s.pos + 2 < s.endP && (charCodeAt s.text (s.pos + 1) = CC.uO || charCodeAt s.text (s.pos + 1) = CC.lo)) = true
                                                                  · rw [if_pos hc67]
                                                                    constructor
                                                                    · intro s2 hstep
                                                                      injection hstep with hstep; subst hstep
                                                                      simp only [Bool.and_eq_true, Bool.or_eq_true, decide_eq_true_eq] at hc67
                                                                      have hge := runEndOf_ge isOctalDigit s.text (s.pos + 2)
                                                                      have hle := runEndOf_le isOctalDigit s.text (s.pos + 2) isOctalDigit_neg (by omega)
                                                                      by_cases hemp : substring s.text (s.pos + 2) (runEndOf isOctalDigit s.text (s.pos + 2)) = ""
                                                                      · rw [if_pos hemp]
                                                                        refine ⟨rfl, rfl, rfl, ?_, ?_, ?_, ?_⟩
                                                                        · show s.pos ≤ runEndOf isOctalDigit s.text (s.pos + 2); omega
                                                                        · show runEndOf isOctalDigit s.text (s.pos + 2) ≤ s.endP; omega
                                                                        · intro _; show s.pos < runEndOf isOctalDigit s.text (s.pos + 2); omega
                                                                        · show K.NumericLiteral ≠ K.ColonEqualsToken; decide
                                                                      · rw [if_neg hemp]
                                                                        refine ⟨rfl, rfl, rfl, ?_, ?_, ?_, ?_⟩
                                                                        · show s.pos ≤ runEndOf isOctalDigit s.text (s.pos + 2); omega
                                                                        · show runEndOf isOctalDigit s.text (s.pos + 2) ≤ s.endP; omega
                                                                        · intro _; show s.pos < runEndOf isOctalDigit s.text (s.pos + 2); omega
                                                                        · show K.NumericLiteral ≠ K.ColonEqualsToken; decide
                                                                    · intro s2 hstep; exact StepR.noConfusion hstep
                                                                  · rw [if_neg hc67]
                                                                    by_cases hc68 : (charCodeAt s.text s.pos = CC.d0 && s.pos + 1 < s.endP && isOctalDigit (charCodeAt s.text (s.pos + 1))) = true
                                                                    · rw [if_pos hc68]
                                                                      constructor
                                                                      · intro s2 hstep
                                                                        injection hstep with hstep; subst hstep
                                                                        simp only [Bool.and_eq_true, decide_eq_true_eq] at hc68
                                                                        have hge := runEndOf_ge isOctalDigit s.text s.pos
                                                                        have hle := runEndOf_le isOctalDigit s.text s.pos isOctalDigit_neg (by omega)
                                                                        have hprog := runEndOf_progress isOctalDigit s.text s.pos
                                                                          (by rw [hc68.1.1]; decide) (charCodeAt_lt_of_eq hc68.1.1 (by decide))
                                                                        refine ⟨rfl, rfl, rfl, ?_, ?_, ?_, ?_⟩
                                                                        · show s.pos ≤ runEndOf isOctalDigit s.text s.pos; omega
                                                                        · show runEndOf isOctalDigit s.text s.pos ≤ s.endP; omega
                                                                        · intro _; show s.pos < runEndOf isOctalDigit s.text s.pos; omega
                                                                        · show K.NumericLiteral ≠ K.ColonEqualsToken; decide
                                                                      · intro s2 hstep; exact StepR.noConfusion hstep
                                                                    · rw [if_neg hc68]
                                                                      by_cases hc69 : (isDigit (charCodeAt s.text s.pos)) = true
                                                                      · rw [if_pos hc69]
                                                                        constructor
                                                                        · intro s2 hstep
                                                                          injection hstep with hstep; subst hstep
                                                                          rcases hfr : scanNumber { s with tokenPos := s.pos } with ⟨tv, ss⟩
                                                                          obtain ⟨ft, fe, ftp, ftk, flo, fhi, fprog⟩ := scanNumber_spec hfr
                                                                            (by show s.endP = s.text.length; exact hend) (by show s.pos ≤ s.endP; exact hpos)
                                                                          have gpos : ({ s with tokenPos := s.pos } : S).pos = s.pos := rfl
                                                                          have gend : ({ s with tokenPos := s.pos } : S).endP = s.endP := rfl
                                                                          have gtp : ({ s with tokenPos := s.pos } : S).tokenPos = s.pos := rfl
                                                                          have hprog : s.pos < ss.pos := by have := fprog (Or.inl (by show isDigit (charCodeAt s.text s.pos) = true; exact hc69)); omega
                                                                          refine ⟨?_, ?_, ?_, ?_, ?_, ?_, ?_⟩
                                                                          · show ss.text = s.text; exact ft
                                                                          · show ss.endP = s.endP; exact fe
                                                                          · show ss.tokenPos = s.pos; exact ftp
                                                                          · show ss.tokenPos ≤ ss.pos; omega
                                                                          · show ss.pos ≤ s.endP; omega
                                                                          · intro _; show s.pos < ss.pos; omega
                                                                          · show K.NumericLiteral ≠ K.ColonEqualsToken; decide
                                                                        · intro s2 hstep; exact StepR.noConfusion hstep
                                                                      · rw [if_neg hc69]
                                                                        by_cases hc70 : (isIdentifierStart (charCodeAt s.text s.pos)) = true
                                                                        · rw [if_pos hc70]
                                                                          constructor
                                                                          · intro s2 hstep
                                                                            injection hstep with hstep; subst hstep
                                                                            obtain ⟨ia, ib⟩ := identRunEnd_spec s.text s.endP
                                                                              (s.endP + 1 - (s.pos + 1)) (s.pos + 1)
                                                                            obtain ⟨ra, rb⟩ := checkReservedWord_range (substring s.text s.pos (identRunEnd s.text s.endP (s.endP + 1 - (s.pos + 1)) (s.pos + 1)))
                                                                            refine ⟨rfl, rfl, rfl, ?_, ?_, ?_, ?_⟩
                                                                            · show s.pos ≤ identRunEnd s.text s.endP (s.endP + 1 - (s.pos + 1)) (s.pos + 1); omega
                                                                            · show identRunEnd s.text s.endP (s.endP + 1 - (s.pos + 1)) (s.pos + 1) ≤ s.endP
                                                                              have := ib (by omega); omega
                                                                            · intro _; show s.pos < identRunEnd s.text s.endP (s.endP + 1 - (s.pos + 1)) (s.pos + 1); omega
                                                                            · show checkReservedWord (substring s.text s.pos (identRunEnd s.text s.endP (s.endP + 1 - (s.pos + 1)) (s.pos + 1))) ≠ 15; omega
                                                                          · intro s2 hstep; exact StepR.noConfusion hstep
                                                                        · rw [if_neg hc70]
                                                                          constructor
                                                                          · intro s2 hstep
                                                                            injection hstep with hstep; subst hstep
                                                                            refine ⟨rfl, rfl, rfl, ?_, ?_, ?_, ?_⟩
                                                                            · show s.pos ≤ s.pos + 1; omega
                                                                            · show s.pos + 1 ≤ s.endP; omega
                                                                            · intro _; show s.pos < s.pos + 1; omega
                                                                            · show K.Unknown ≠ K.ColonEqualsToken; decide
                                                                          · intro s2 hstep; exact StepR.noConfusion hstep
end TSGN

namespace TSGN

/-! ## The scan dispatch loop: termination and bounds -/

theorem scanLoop_zero (s : S) : scanLoop 0 s = none := rfl

theorem scanLoop_succ (n : Nat) (s : S) :
    scanLoop (n + 1) s =
      match scanStep s with
      | .tok s2 => some s2
      | .again s2 => scanLoop n s2 := rfl

theorem scanLoop_spec :
    ∀ fuel (s s2 : S), scanLoop fuel s = some s2 →
      s.endP = s.text.length → s.pos ≤ s.endP →
      s2.text = s.text ∧ s2.endP = s.endP ∧ s.pos ≤ s2.tokenPos ∧
      s2.tokenPos ≤ s2.pos ∧ s2.pos ≤ s.endP ∧
      (s2.token ≠ K.EndOfFileToken → s.pos < s2.pos) ∧
      s2.token ≠ K.ColonEqualsToken := by
  intro fuel
  induction fuel with
  | zero =>
    intro s s2 heq
    rw [scanLoop_zero] at heq
    exact Option.noConfusion heq
  | succ n ih =>
    intro s s2 heq hend hpos
    rw [scanLoop_succ] at heq
    obtain ⟨htok, hagain⟩ := scanStep_spec s hend hpos
    cases hstep : scanStep s with
    | tok t =>
      rw [hstep] at heq
      injection heq with heq; subst heq
      obtain ⟨a, b, c, d, e, f, g⟩ := htok t hstep
      exact ⟨a, b, by omega, d, by omega, f, g⟩
    | again t =>
      rw [hstep] at heq
      obtain ⟨a, b, c, d⟩ := hagain t hstep
      obtain ⟨a2, b2, c2, d2, e2, f2, g2⟩ := ih t s2 heq (by rw [b, a]; exact hend)
        (by omega)
      refine ⟨by rw [a2, a], by rw [b2, b], by omega, d2, by omega, fun _ => by omega, g2⟩

theorem scanLoop_isSome :
    ∀ fuel (s : S), s.endP = s.text.length → s.pos ≤ s.endP →
      s.endP + 1 - s.pos + 1 ≤ fuel → (scanLoop fuel s).isSome = true := by
  intro fuel
  induction fuel with
  | zero => intro s _ _ hf; omega
  | succ n ih =>
    intro s hend hpos hf
    rw [scanLoop_succ]
    obtain ⟨htok, hagain⟩ := scanStep_spec s hend hpos
    cases hstep : scanStep s with
    | tok t => rfl
    | again t =>
      obtain ⟨a, b, c, d⟩ := hagain t hstep
      exact ih t (by rw [b, a]; exact hend) (by omega) (by omega)

theorem scan_eq (s : S) :
    scan s =
      match scanLoop (s.endP + 1 - s.pos + 1)
          { s with startPos := s.pos, tokenFlags := TF.None } with
      | some s2 => s2
      | none =>
        { s with startPos := s.pos, tokenFlags := TF.None,
                 tokenPos := s.pos, token := K.EndOfFileToken } := rfl

theorem scan_eq_of_scanLoop {s0 s2 : S}
    (heq : scanLoop (s0.endP + 1 - s0.pos + 1)
      { s0 with startPos := s0.pos, tokenFlags := TF.None } = some s2) :
    scan s0 = s2 := by
  rw [scan_eq, heq]

/-- Every `scan()` from a well-formed state (cursor within a full-buffer
text range) lands within bounds, keeps the buffer, makes strict progress
unless at end of file, and never produces the walrus token kind. -/
theorem scan_spec (s : S) (hend : s.endP = s.text.length) (hpos : s.pos ≤ s.endP) :
    (scan s).text = s.text ∧ (scan s).endP = s.endP ∧
    s.pos ≤ (scan s).tokenPos ∧ (scan s).tokenPos ≤ (scan s).pos ∧
    (scan s).pos ≤ (scan s).endP ∧
    ((scan s).token ≠ K.EndOfFileToken → s.pos < (scan s).pos) ∧
    (scan s).token ≠ K.ColonEqualsToken := by
  have e1 : ({ s with startPos := s.pos, tokenFlags := TF.None } : S).endP = s.endP := rfl
  have e2 : ({ s with startPos := s.pos, tokenFlags := TF.None } : S).pos = s.pos := rfl
  have e3 : ({ s with startPos := s.pos, tokenFlags := TF.None } : S).text = s.text := rfl
  have hsome := scanLoop_isSome (s.endP + 1 - s.pos + 1)
    { s with startPos := s.pos, tokenFlags := TF.None }
    (by rw [e1, e3]; exact hend) (by rw [e1, e2]; exact hpos) (by rw [e1, e2])
  cases hloop : scanLoop (s.endP + 1 - s.pos + 1)
      { s with startPos := s.pos, tokenFlags := TF.None } with
  | none => rw [hloop] at hsome; exact absurd hsome (by simp)
  | some s2 =>
    have hscan := scan_eq_of_scanLoop hloop
    rw [hscan]
    obtain ⟨a, b, c, d, e, f, g⟩ := scanLoop_spec _ _ s2 hloop
      (by rw [e1, e3]; exact hend) (by rw [e1, e2]; exact hpos)
    exact ⟨a.trans e3, b.trans e1, by omega, d, by omega,
      fun hf2 => by have := f hf2; omega, g⟩

end TSGN

namespace TSGN

theorem scanStep_digitStart (s : S)
    (hlt : s.pos < s.endP)
    (h49 : (49 : Int) ≤ charCodeAt s.text s.pos)
    (h57 : charCodeAt s.text s.pos ≤ (57 : Int)) :
    scanStep s =
      StepR.tok { (scanNumber { s with tokenPos := s.pos }).2 with
        token := K.NumericLiteral,
        tokenValue := some (scanNumber { s with tokenPos := s.pos }).1 } := by
  rw [scanStep_eq]
  rw [if_neg (by omega : ¬ s.pos ≥ s.endP)]
  rw [if_neg (by simp only [Bool.or_eq_true, decide_eq_true_eq]; show ¬(charCodeAt s.text s.pos = (10 : Int) ∨ charCodeAt s.text s.pos = (13 : Int)); rintro (hx | hx) <;> omega)]
  rw [if_neg (by simp only [Bool.or_eq_true, decide_eq_true_eq]; show ¬(((charCodeAt s.text s.pos = (9 : Int) ∨ charCodeAt s.text s.pos = (11 : Int)) ∨ charCodeAt s.text s.pos = (12 : Int)) ∨ charCodeAt s.text s.pos = (32 : Int)); rintro (((hx | hx) | hx) | hx) <;> omega)]
  rw [if_neg (by intro hx; rw [hx] at h49 h57; exact absurd (And.intro h49 h57) (by decide))]
  rw [if_neg (by intro hx; rw [hx] at h49 h57; exact absurd (And.intro h49 h57) (by decide))]
  rw [if_neg (by intro hx; rw [hx] at h49 h57; exact absurd (And.intro h49 h57) (by decide))]
  rw [if_neg (by intro hx; rw [hx] at h49 h57; exact absurd (And.intro h49 h57) (by decide))]
  rw [if_neg (by intro hx; rw [hx] at h49 h57; exact absurd (And.intro h49 h57) (by decide))]
  rw [if_neg (by intro hx; rw [hx] at h49 h57; exact absurd (And.intro h49 h57) (by decide))]
  rw [if_neg (by intro hx; rw [hx] at h49 h57; exact absurd (And.intro h49 h57) (by decide))]
  rw [if_neg (by intro hx; rw [hx] at h49 h57; exact absurd (And.intro h49 h57) (by decide))]
  rw [if_neg (by intro hx; rw [hx] at h49 h57; exact absurd (And.intro h49 h57) (by decide))]
  rw [if_neg (by intro hx; rw [hx] at h49 h57; exact absurd (And.intro h49 h57) (by decide))]
  rw [if_neg (by intro hx; rw [hx] at h49 h57; exact absurd (And.intro h49 h57) (by decide))]
  rw [if_neg (by intro hx; rw [hx] at h49 h57; exact absurd (And.intro h49 h57) (by decide))]
  rw [if_neg (by intro hx; rw [hx] at h49 h57; exact absurd (And.intro h49 h57) (by decide))]
  rw [if_neg (by intro hx; rw [hx] at h49 h57; exact absurd (And.intro h49 h57) (by decide))]
  rw [if_neg (by intro hx; rw [hx] at h49 h57; exact absurd (And.intro h49 h57) (by decide))]
  rw [if_neg (by intro hx; rw [hx] at h49 h57; exact absurd (And.intro h49 h57) (by decide))]
  rw [if_neg (by intro hx; rw [hx] at h49 h57; exact absurd (And.intro h49 h57) (by decide))]
  rw [if_neg (by intro hx; rw [hx] at h49 h57; exact absurd (And.intro h49 h57) (by decide))]
  rw [if_neg (by intro hx; rw [hx] at h49 h57; exact absurd (And.intro h49 h57) (by decide))]
  rw [if_neg (by intro hx; rw [hx] at h49 h57; exact absurd (And.intro h49 h57) (by decide))]
  rw [if_neg (by intro hx; rw [hx] at h49 h57; exact absurd (And.intro h49 h57) (by decide))]
  rw [if_neg (by intro hx; rw [hx] at h49 h57; exact absurd (And.intro h49 h57) (by decide))]
  rw [if_neg (by intro hx; rw [hx] at h49 h57; exact absurd (And.intro h49 h57) (by decide))]
  rw [if_neg (by intro hx; rw [hx] at h49 h57; exact absurd (And.intro h49 h57) (by decide))]
  rw [if_neg (by intro hx; rw [hx] at h49 h57; exact absurd (And.intro h49 h57) (by decide))]
  rw [if_neg (by intro hx; rw [hx] at h49 h57; exact absurd (And.intro h49 h57) (by decide))]
  rw [if_neg (by simp only [Bool.or_eq_true, decide_eq_true_eq]; show ¬(charCodeAt s.text s.pos = (34 : Int) ∨ charCodeAt s.text s.pos = (39 : Int)); rintro (hx | hx) <;> omega)]
  rw [if_neg (by simp only [Bool.and_eq_true, Bool.or_eq_true, decide_eq_true_eq]; rintro ⟨⟨hx, -⟩, -⟩; rw [hx] at h49; exact absurd h49 (by decide))]
  rw [if_neg (by simp only [Bool.and_eq_true, Bool.or_eq_true, decide_eq_true_eq]; rintro ⟨⟨hx, -⟩, -⟩; rw [hx] at h49; exact absurd h49 (by decide))]
  rw [if_neg (by simp only [Bool.and_eq_true, Bool.or_eq_true, decide_eq_true_eq]; rintro ⟨⟨hx, -⟩, -⟩; rw [hx] at h49; exact absurd h49 (by decide))]
  rw [if_neg (by simp only [Bool.and_eq_true, Bool.or_eq_true, decide_eq_true_eq]; rintro ⟨⟨hx, -⟩, -⟩; rw [hx] at h49; exact absurd h49 (by decide))]
  rw [if_pos (show isDigit (charCodeAt s.text s.pos) = true from by
    unfold isDigit
    simp only [Bool.and_eq_true, decide_eq_true_eq]
    constructor
    · show (48 : Int) ≤ charCodeAt s.text s.pos; omega
    · show charCodeAt s.text s.pos ≤ (57 : Int); omega)]
end TSGN

namespace TSGN

/-! ## A plain decimal run keeps its text -/

theorem charCodeAt_get {t : List Char} {i : Nat} (h : i < t.length) :
    charCodeAt t i = ((t.get ⟨i, h⟩).toNat : Int) := by
  unfold charCodeAt
  rw [List.get?_eq_get h]

theorem scanNumber_allDigits (s : S)
    (hall : ∀ i, i < s.text.length → isDigit (charCodeAt s.text i) = true)
    (hpos : s.pos ≤ s.text.length)
    (hfl : s.tokenFlags &&& TF.Scientific = 0) :
    scanNumber s = (substring s.text s.pos s.text.length,
      { s with pos := s.text.length }) := by
  rw [scanNumber_eq]
  have hA : runEndOf isDigit s.text s.pos = s.text.length :=
    runEndOf_all isDigit s.text s.pos isDigit_neg hall hpos
  rw [hA]
  rw [scanNumberDec_eq]
  rw [if_neg (show ¬ (charCodeAt ({ s with pos := s.text.length } : S).text
      ({ s with pos := s.text.length } : S).pos = CC.dot) from by
    show ¬ (charCodeAt s.text s.text.length = CC.dot)
    rw [charCodeAt_out (Nat.le_refl _)]
    decide)]
  rw [scanNumberExp_eq]
  rw [if_neg (show ¬ ((charCodeAt ((none, ({ s with pos := s.text.length } : S)) : Option String × S).2.text
        ((none, ({ s with pos := s.text.length } : S)) : Option String × S).2.pos = CC.uE ||
      charCodeAt ((none, ({ s with pos := s.text.length } : S)) : Option String × S).2.text
        ((none, ({ s with pos := s.text.length } : S)) : Option String × S).2.pos = CC.le) = true) from by
    simp only [Bool.or_eq_true, decide_eq_true_eq]
    show ¬ (charCodeAt s.text s.text.length = CC.uE ∨ charCodeAt s.text s.text.length = CC.le)
    rw [charCodeAt_out (Nat.le_refl _)]
    rintro (hx | hx) <;> exact absurd hx (by decide))]
  unfold scanNumberFinish
  rw [if_neg (show ¬ ((((none, ({ s with pos := s.text.length } : S)) : Option String × S).1.isSome ||
      decide (((((none, ({ s with pos := s.text.length } : S)) : Option String × S).2.pos,
        ((none, ({ s with pos := s.text.length } : S)) : Option String × S).2) : Nat × S).2.tokenFlags &&&
          TF.Scientific ≠ 0)) = true) from by
    simp only [Bool.or_eq_true, decide_eq_true_eq, Option.isSome]
    rintro (hx | hx)
    · exact Bool.noConfusion hx
    · exact hx hfl)]

end TSGN

namespace TSGN

theorem scan_of_stepTok {s : S} {r : S} (hpos : s.pos ≤ s.endP)
    (hstep : scanStep { s with startPos := s.pos, tokenFlags := TF.None } =
      StepR.tok r) :
    scan s = r := by
  rw [scan_eq]
  rw [show s.endP + 1 - s.pos + 1 = (s.endP - s.pos) + 2 from by omega]
  rw [scanLoop_succ, hstep]

theorem substring_full (ds : List Char) :
    substring ds 0 ds.length = String.mk ds := by
  unfold substring
  rw [List.take_length, List.drop_zero]

/-- Scanning a nonempty all-digit buffer whose first digit is not `0`
yields a numeric literal whose value is exactly the original text. -/
theorem scan_allDigits (ds : List Char) (hne : ds ≠ [])
    (hdig : ∀ c ∈ ds, isDigitChar c = true)
    (h0 : charCodeAt ds 0 ≠ CC.d0) :
    (scan (mkScanner (String.mk ds))).token = K.NumericLiteral ∧
    (scan (mkScanner (String.mk ds))).tokenValue = some (String.mk ds) := by
  have hlen : 0 < ds.length := List.length_pos.mpr hne
  have hbounds : ∀ i, i < ds.length →
      (48 : Int) ≤ charCodeAt ds i ∧ charCodeAt ds i ≤ 57 := by
    intro i hi
    rw [charCodeAt_get hi]
    have hm := hdig (ds.get ⟨i, hi⟩) (List.get_mem ds i hi)
    unfold isDigitChar at hm
    simp only [Bool.and_eq_true, decide_eq_true_eq] at hm
    omega
  have h49 : (49 : Int) ≤ charCodeAt ds 0 := by
    have hb := hbounds 0 hlen
    have hne48 : charCodeAt ds 0 ≠ (48 : Int) := h0
    omega
  have h57 : charCodeAt ds 0 ≤ (57 : Int) := (hbounds 0 hlen).2
  have hall : ∀ i, i < ds.length → isDigit (charCodeAt ds i) = true := by
    intro i hi
    unfold isDigit
    simp only [Bool.and_eq_true, decide_eq_true_eq]
    have hb := hbounds i hi
    constructor
    · show (48 : Int) ≤ charCodeAt ds i; omega
    · show charCodeAt ds i ≤ (57 : Int); omega
  have hstep := scanStep_digitStart
    { mkScanner (String.mk ds) with
        startPos := (mkScanner (String.mk ds)).pos, tokenFlags := TF.None }
    (by show 0 < ds.length; omega)
    (by show (49 : Int) ≤ charCodeAt ds 0; omega)
    (by show charCodeAt ds 0 ≤ (57 : Int); omega)
  have hscan := scan_of_stepTok (s := mkScanner (String.mk ds))
    (by show (0 : Nat) ≤ ds.length; omega) hstep
  rw [hscan]
  constructor
  · rfl
  · rw [scanNumber_allDigits]
    · show some (substring ds 0 ds.length) = some (String.mk ds)
      rw [substring_full]
    · exact fun i hi => hall i hi
    · exact Nat.zero_le _
    · show TF.None &&& TF.Scientific = 0
      rfl

end TSGN

namespace TSGN

/-! ## The checkpoint helpers restore the observable state -/

/-- Reducing `runM parseIdentifier` on the accepting branch: the scanner
classifies the token as an identifier and it is a keyword kind. -/
theorem parseIdentifier_run_accept (sc : S) (pc nc : Nat) (errs : List String)
    (hid : scannerIsIdentifier sc = true) (hkw : sc.token ≠ K.Identifier) :
    runM parseIdentifier ⟨sc, sc.token, 0, pc, nc, errs⟩ =
      Except.ok
        ((((ASTNode.mk K.Identifier sc.startPos sc.startPos 0 []).setProp "text"
              (match sc.tokenValue with
               | some v => JSVal.strV v
               | none => JSVal.undef)).setProp "originalKeywordKind"
            (JSVal.natV sc.token)).withEndPos (scan sc).startPos,
         ⟨scan sc, (scan sc).token, 0, pc, nc + 1, errs⟩) := by
  show runM
      (if ¬ scannerIsIdentifier sc then
        (do
          perror ("Identifier expected, but got " ++ kindNameModel sc.token)
          let node ← createNode K.Identifier none
          let node := node.setProp "text" (JSVal.strV "")
          finishNode node none)
      else
        (do
          let node ← createNode K.Identifier none
          let node := node.setProp "text"
            (match sc.tokenValue with
             | some v => JSVal.strV v
             | none => JSVal.undef)
          let node :=
            if sc.token ≠ K.Identifier then
              node.setProp "originalKeywordKind" (JSVal.natV sc.token)
            else node
          let _ ← nextToken
          finishNode node none))
      ⟨sc, sc.token, 0, pc, nc, errs⟩ = _
  rw [hid]
  rw [if_neg (by decide : ¬ ¬ (true = true))]
  show runM
      (do
        let _ ← nextToken
        finishNode
          (if sc.token ≠ K.Identifier then
            ((ASTNode.mk K.Identifier sc.startPos sc.startPos 0 []).setProp "text"
              (match sc.tokenValue with
               | some v => JSVal.strV v
               | none => JSVal.undef)).setProp "originalKeywordKind" (JSVal.natV sc.token)
          else
            (ASTNode.mk K.Identifier sc.startPos sc.startPos 0 []).setProp "text"
              (match sc.tokenValue with
               | some v => JSVal.strV v
               | none => JSVal.undef))
          none)
      ⟨sc, sc.token, 0, pc, nc + 1, errs⟩ = _
  rw [if_pos hkw]
  rfl

/-- Reducing `runM parseIdentifier` on the rejecting branch: the scanner
does not classify the token as an identifier; an error is reported, an
empty-text `Identifier` node is synthesized, and nothing is consumed. -/
theorem parseIdentifier_run_reject (sc : S) (pc nc : Nat) (errs : List String)
    (hid : scannerIsIdentifier sc = false) :
    runM parseIdentifier ⟨sc, sc.token, 0, pc, nc, errs⟩ =
      Except.ok
        (((ASTNode.mk K.Identifier sc.startPos sc.startPos 0 []).setProp "text"
            (JSVal.strV "")).withEndPos sc.startPos,
         ⟨sc, sc.token, 0, pc, nc + 1,
          errs ++ ["Identifier expected, but got " ++ kindNameModel sc.token]⟩) := by
  show runM
      (if ¬ scannerIsIdentifier sc then
        (do
          perror ("Identifier expected, but got " ++ kindNameModel sc.token)
          let node ← createNode K.Identifier none
          let node := node.setProp "text" (JSVal.strV "")
          finishNode node none)
      else
        (do
          let node ← createNode K.Identifier none
          let node := node.setProp "text"
            (match sc.tokenValue with
             | some v => JSVal.strV v
             | none => JSVal.undef)
          let node :=
            if sc.token ≠ K.Identifier then
              node.setProp "originalKeywordKind" (JSVal.natV sc.token)
            else node
          let _ ← nextToken
          finishNode node none))
      ⟨sc, sc.token, 0, pc, nc, errs⟩ = _
  rw [hid]
  rw [if_pos (by decide : ¬ (false = true))]
  rfl

end TSGN

namespace TSGN

/-- C4: for every callback `cb`, whenever `lookAhead(cb)` returns (with any
result), the observable scanner state — text range end, `pos`, `startPos`,
`tokenPos`, token kind, token value, token flags — and the parser's
current-token mirror are exactly what they were immediately before the
call. -/
theorem claim_C4 {α : Type} (cb : M α) (st : PState) (r : α) (st' : PState)
    (h : runM (lookAheadP cb) st = Except.ok (r, st')) :
    st'.sc.endP = st.sc.endP ∧ st'.sc.pos = st.sc.pos ∧
    st'.sc.startPos = st.sc.startPos ∧ st'.sc.tokenPos = st.sc.tokenPos ∧
    st'.sc.token = st.sc.token ∧ st'.sc.tokenValue = st.sc.tokenValue ∧
    st'.sc.tokenFlags = st.sc.tokenFlags ∧ st'.ptoken = st.ptoken := by
  have h1 : (match (match cb st with
        | .error e => (Except.error e : Except PErr (α × PState))
        | .ok (r1, st1) => Except.ok (r1, { st1 with sc := scRestore st.sc st1.sc })) with
      | .error e => (Except.error e : Except PErr (α × PState))
      | .ok (r0, st0) =>
        if st.contextFlags = st0.contextFlags then
          Except.ok (r0, { st0 with ptoken := st.ptoken })
        else Except.error PErr.assertFail) = Except.ok (r, st') := h
  rcases hrun : cb st with e | p
  · rw [hrun] at h1
    exact Except.noConfusion h1
  · obtain ⟨r1, st1⟩ := p
    rw [hrun] at h1
    have h2 : (if st.contextFlags = st1.contextFlags then
        Except.ok (r1, { st1 with sc := scRestore st.sc st1.sc, ptoken := st.ptoken })
        else (Except.error PErr.assertFail : Except PErr (α × PState))) = Except.ok (r, st') := h1
    by_cases hcf : st.contextFlags = st1.contextFlags
    · rw [if_pos hcf] at h2
      injection h2 with h3
      have hst : ({ st1 with sc := scRestore st.sc st1.sc, ptoken := st.ptoken } : PState) = st' :=
        congrArg Prod.snd h3
      subst hst
      exact ⟨rfl, rfl, rfl, rfl, rfl, rfl, rfl, rfl⟩
    · rw [if_neg hcf] at h2
      exact Except.noConfusion h2

/-- A concrete checkpoint: looking one token ahead from the start of
`"ab"` returns the identifier token kind and the state is fully
restored. -/
theorem claim_C4_witness :
    (initPState "ab").sc.endP = (initPState "ab").sc.endP ∧
    (initPState "ab").sc.pos = (initPState "ab").sc.pos ∧
    (initPState "ab").sc.startPos = (initPState "ab").sc.startPos ∧
    (initPState "ab").sc.tokenPos = (initPState "ab").sc.tokenPos ∧
    (initPState "ab").sc.token = (initPState "ab").sc.token ∧
    (initPState "ab").sc.tokenValue = (initPState "ab").sc.tokenValue ∧
    (initPState "ab").sc.tokenFlags = (initPState "ab").sc.tokenFlags ∧
    (initPState "ab").ptoken = (initPState "ab").ptoken :=
  claim_C4 nextToken (initPState "ab") 61 (initPState "ab") rfl

end TSGN

namespace TSGN

/-- C2: the two-character sequence `:=` does NOT scan to the dedicated
walrus kind: the scanner's colon case consumes both characters but
returns `ColonToken`, no `scan` result ever carries `ColonEqualsToken`,
and consequently `tryParseWalrusDeclaration` on `"x := 1;"` returns the
falsy result instead of a walrus `VariableDeclaration`. -/
theorem claim_C2 :
    (scan (mkScanner ":=")).token = K.ColonToken ∧
    (scan (mkScanner ":=")).pos = 2 ∧
    (∀ s : S, s.endP = s.text.length → s.pos ≤ s.endP →
      (scan s).token ≠ K.ColonEqualsToken) ∧
    walrusProbe "x := 1;" = some false := by
  refine ⟨by decide, by decide, ?_, by decide⟩
  intro s hend hpos
  exact (scan_spec s hend hpos).2.2.2.2.2.2

/-- C6: numeric literal scanning — `"0x1A"` scans to value `"26"` with the
hex-specifier flag, `"0o17"` to `"15"` with the octal-specifier flag,
`"0755"` to `"493"` with the legacy octal flag, `"1.5e2"` normalizes to
`"150"` (scientific flag); and a nonempty all-digit text not starting
with `0` scans to one `NumericLiteral` token whose value is exactly the
original digit text. -/
theorem claim_C6 :
    ((scan (mkScanner "0x1A")).token = K.NumericLiteral ∧
     (scan (mkScanner "0x1A")).tokenValue = some "26" ∧
     (scan (mkScanner "0x1A")).tokenFlags = TF.HexSpecifier ∧
     (scan (mkScanner "0o17")).tokenValue = some "15" ∧
     (scan (mkScanner "0o17")).tokenFlags = TF.OctalSpecifier ∧
     (scan (mkScanner "0755")).tokenValue = some "493" ∧
     (scan (mkScanner "0755")).tokenFlags = TF.Octal ∧
     (scan (mkScanner "1.5e2")).token = K.NumericLiteral ∧
     (scan (mkScanner "1.5e2")).tokenValue = some "150" ∧
     (scan (mkScanner "1.5e2")).tokenFlags = TF.Scientific) ∧
    (∀ ds : List Char, ds ≠ [] → (∀ c ∈ ds, isDigitChar c = true) →
      charCodeAt ds 0 ≠ CC.d0 →
      (scan (mkScanner (String.mk ds))).token = K.NumericLiteral ∧
      (scan (mkScanner (String.mk ds))).tokenValue = some (String.mk ds)) := by
  refine ⟨by decide, ?_⟩
  intro ds h1 h2 h3
  exact scan_allDigits ds h1 h2 h3

/-- C7: scanning `"'abc"` (no closing quote before end of input) reports
"Unterminated string literal" through the error sink and still yields a
`StringLiteral` token whose value is the accumulated `"abc"`; a line
break before the closing quote terminates the same way. -/
theorem claim_C7 :
    (scan (mkScanner "'abc")).token = K.StringLiteral ∧
    (scan (mkScanner "'abc")).tokenValue = some "abc" ∧
    (scan (mkScanner "'abc")).errors = [("Unterminated string literal", 4)] ∧
    (scan (mkScanner "'ab\ncd'")).token = K.StringLiteral ∧
    (scan (mkScanner "'ab\ncd'")).tokenValue = some "ab" ∧
    (scan (mkScanner "'ab\ncd'")).errors = [("Unterminated string literal", 3)] := by
  decide

/-- C9: `scan()` terminates on every input (the fueled dispatch loop
always yields a result within the canonical fuel) and never stalls: a
non-`EndOfFileToken` result strictly advances `pos`; in particular the
unclassifiable byte `#` reports "Invalid character", yields an `Unknown`
token and advances by exactly one. -/
theorem claim_C9 :
    (∀ s : S, s.endP = s.text.length → s.pos ≤ s.endP →
      (scanLoop (s.endP + 1 - s.pos + 1)
          { s with startPos := s.pos, tokenFlags := TF.None }).isSome = true ∧
      ((scan s).token ≠ K.EndOfFileToken → s.pos < (scan s).pos)) ∧
    (scan (mkScanner "#")).token = K.Unknown ∧
    (scan (mkScanner "#")).pos = 1 ∧
    (scan (mkScanner "#")).errors = [("Invalid character", 0)] := by
  refine ⟨?_, by decide, by decide, by decide⟩
  intro s hend hpos
  have e1 : ({ s with startPos := s.pos, tokenFlags := TF.None } : S).endP = s.endP := rfl
  have e2 : ({ s with startPos := s.pos, tokenFlags := TF.None } : S).pos = s.pos := rfl
  have e3 : ({ s with startPos := s.pos, tokenFlags := TF.None } : S).text = s.text := rfl
  refine ⟨scanLoop_isSome (s.endP + 1 - s.pos + 1) _
      (by rw [e1, e3]; exact hend) (by rw [e1, e2]; exact hpos) (by rw [e1, e2]),
    (scan_spec s hend hpos).2.2.2.2.2.1⟩

end TSGN

namespace TSGN

/-- C8 (amended): for a scan from a state whose active range ends at the
end of the text buffer, the token's raw text equals the source substring
from `tokenPos` to `pos`, and `tokenPos` and `pos` lie within the active
range.  (Unrestricted, the in-range half is false: see the
counterexample, where a shortened range end is overrun.) -/
theorem claim_C8 (s : S) (hend : s.endP = s.text.length) (hpos : s.pos ≤ s.endP) :
    tokenTextS (scan s) = substring s.text (scan s).tokenPos (scan s).pos ∧
    s.pos ≤ (scan s).tokenPos ∧ (scan s).tokenPos ≤ (scan s).pos ∧
    (scan s).pos ≤ (scan s).endP := by
  obtain ⟨a, -, c, d, e, -, -⟩ := scan_spec s hend hpos
  refine ⟨?_, c, d, e⟩
  show substring (scan s).text (scan s).tokenPos (scan s).pos = _
  rw [a]

/-- Against the unamended C8: after `setTextRange(0, 2)` on the buffer
`"12345"` the active range ends at 2, yet the first `scan` runs the
numeric literal to position 5, outside the active range (its token text
is the whole `"12345"`). -/
theorem claim_C8_cex :
    (scan (setTextRange (mkScanner "12345") 0 (some 2))).endP = 2 ∧
    (scan (setTextRange (mkScanner "12345") 0 (some 2))).pos = 5 ∧
    tokenTextS (scan (setTextRange (mkScanner "12345") 0 (some 2))) = "12345" := by
  decide

/-- The amended C8 at a concrete full-range state: scanning `"ab"` from
position 0. -/
theorem claim_C8_witness :
    tokenTextS (scan (mkScanner "ab")) =
      substring (mkScanner "ab").text (scan (mkScanner "ab")).tokenPos
        (scan (mkScanner "ab")).pos ∧
    (mkScanner "ab").pos ≤ (scan (mkScanner "ab")).tokenPos ∧
    (scan (mkScanner "ab")).tokenPos ≤ (scan (mkScanner "ab")).pos ∧
    (scan (mkScanner "ab")).pos ≤ (scan (mkScanner "ab")).endP :=
  claim_C8 (mkScanner "ab") (by decide) (by decide)

/-- C10: a token kind strictly above `LastReservedWord` (every contextual
keyword) is accepted where an identifier is required — the scanner
classifies it as an identifier and `parseIdentifier` yields an
`Identifier` node carrying the token's text and recording the keyword
kind in `originalKeywordKind` — while a reserved-word kind
(`BreakKeyword` through `UsingKeyword`) is rejected: an "Identifier
expected" diagnostic is reported and an `Identifier` node with empty text
is synthesized without consuming the token. -/
theorem claim_C10 (sc : S) (pc nc : Nat) (errs : List String) :
    (K.LastReservedWord < sc.token →
      scannerIsIdentifier sc = true ∧
      ∃ n st2, runM parseIdentifier ⟨sc, sc.token, 0, pc, nc, errs⟩ = Except.ok (n, st2) ∧
        n.kind = K.Identifier ∧
        n.prop "text" = (match sc.tokenValue with
                         | some v => JSVal.strV v
                         | none => JSVal.undef) ∧
        n.prop "originalKeywordKind" = JSVal.natV sc.token ∧
        st2.perrors = errs) ∧
    (K.FirstReservedWord ≤ sc.token → sc.token ≤ K.LastReservedWord →
      scannerIsIdentifier sc = false ∧
      ∃ n st2, runM parseIdentifier ⟨sc, sc.token, 0, pc, nc, errs⟩ = Except.ok (n, st2) ∧
        n.kind = K.Identifier ∧ n.prop "text" = JSVal.strV "" ∧ st2.sc = sc ∧
        st2.perrors = errs ++ ["Identifier expected, but got " ++ kindNameModel sc.token]) := by
  constructor
  · intro hgt
    have hgt' : (111 : Nat) < sc.token := hgt
    have hkw : sc.token ≠ K.Identifier := by show sc.token ≠ 61; omega
    have hid : scannerIsIdentifier sc = true := by
      have h2 : decide (sc.token > K.LastReservedWord) = true := decide_eq_true hgt
      unfold scannerIsIdentifier
      rw [h2, Bool.or_true]
    refine ⟨hid, _, _, parseIdentifier_run_accept sc pc nc errs hid hkw, rfl, ?_, ?_, rfl⟩
    · rfl
    · rfl
  · intro hlo hhi
    have hlo' : (62 : Nat) ≤ sc.token := hlo
    have hhi' : sc.token ≤ (111 : Nat) := hhi
    have hid : scannerIsIdentifier sc = false := by
      have h1 : decide (sc.token = K.Identifier) = false :=
        decide_eq_false (by show ¬ sc.token = 61; omega)
      have h2 : decide (sc.token > K.LastReservedWord) = false :=
        decide_eq_false (by show ¬ (111 : Nat) < sc.token; omega)
      unfold scannerIsIdentifier
      rw [h1, h2]
      rfl
    refine ⟨hid, _, _, parseIdentifier_run_reject sc pc nc errs hid, rfl, rfl, rfl, rfl⟩

/-- C10 at concrete tokens: after scanning `"state"` the token kind 143 is
a contextual keyword and is classified as an identifier; after scanning
`"break"` the reserved kind 62 is not. -/
theorem claim_C10_witness :
    scannerIsIdentifier (scan (mkScanner "state")) = true ∧
    scannerIsIdentifier (scan (mkScanner "break")) = false :=
  ⟨((claim_C10 (scan (mkScanner "state")) 0 0 []).1 (by decide)).1,
   (((claim_C10 (scan (mkScanner "break")) 0 0 []).2 (by decide) (by decide)).1)⟩

end TSGN

namespace TSGN

set_option maxRecDepth 100000 in
/-- C1: `parseSourceFile` does NOT confine aborts to failed internal
assertions — the plain input `"(class);"` makes the parse throw a
`TypeError` (the `parseClassExpression` stub returns `undefined` and the
caller dereferences it), rather than reporting through the sink. -/
theorem claim_C1 :
    parseErr "(class);" = some PErr.typeError ∧
    parseErrF 300 "(class);" = some PErr.typeError := by
  decide

set_option maxRecDepth 100000 in
/-- C3: the spec's parenthesized `for` headers do not parse at all (at
fuel 300 the parse only runs out of fuel, modelling the parser's
guard-less statement-list loop spinning forever, while the same fuel
parses `"for \x7b\x7d"`-style inputs), and the paren-free `in` form
produces a `ForOfStatement` — not a `ForInStatement` — because the
in/of discrimination reads the still-current `let` token. -/
theorem claim_C3 :
    parseErrF 300 "for (let x in obj) \x7b\x7d" = some PErr.fuelOut ∧
    parseErrF 300 "for (let x of obj) \x7b\x7d" = some PErr.fuelOut ∧
    parseErrF 300 "for (;;) \x7b\x7d" = some PErr.fuelOut ∧
    parseErrF 300 "for let x in obj \x7b\x7d" = none ∧
    (stmtAt (parseTreeF 300 "for let x in obj \x7b\x7d") 0).kind = K.ForOfStatement ∧
    (stmtAt (parseTreeF 300 "for let x of obj \x7b\x7d") 0).kind = K.ForOfStatement := by
  decide

end TSGN

namespace TSGN

set_option maxRecDepth 100000 in
/-- C5: operator precedence and associativity — `"1+2*3"` parses as
`1+(2*3)` (the right operand of the `+` node is the `*` product),
`"2**3**2"` groups right-associatively as `2**(3**2)`, and `"a=b=c"`
assigns right-associatively as `a=(b=c)`. -/
theorem claim_C5 :
    (child (stmtAt (parseTreeF 300 "1+2*3;") 0) "expression").kind = K.BinaryExpression ∧
    opKindOf (child (stmtAt (parseTreeF 300 "1+2*3;") 0) "expression") = K.PlusToken ∧
    textOf (child (child (stmtAt (parseTreeF 300 "1+2*3;") 0) "expression") "left") = "1" ∧
    (child (child (stmtAt (parseTreeF 300 "1+2*3;") 0) "expression") "right").kind
      = K.BinaryExpression ∧
    opKindOf (child (child (stmtAt (parseTreeF 300 "1+2*3;") 0) "expression") "right")
      = K.AsteriskToken ∧
    textOf (child (child (child (stmtAt (parseTreeF 300 "1+2*3;") 0) "expression") "right")
      "left") = "2" ∧
    textOf (child (child (child (stmtAt (parseTreeF 300 "1+2*3;") 0) "expression") "right")
      "right") = "3" ∧
    opKindOf (child (stmtAt (parseTreeF 300 "2**3**2;") 0) "expression")
      = K.AsteriskAsteriskToken ∧
    textOf (child (child (stmtAt (parseTreeF 300 "2**3**2;") 0) "expression") "left") = "2" ∧
    opKindOf (child (child (stmtAt (parseTreeF 300 "2**3**2;") 0) "expression") "right")
      = K.AsteriskAsteriskToken ∧
    textOf (child (child (child (stmtAt (parseTreeF 300 "2**3**2;") 0) "expression") "right")
      "left") = "3" ∧
    textOf (child (child (child (stmtAt (parseTreeF 300 "2**3**2;") 0) "expression") "right")
      "right") = "2" ∧
    (child (stmtAt (parseTreeF 300 "a=b=c;") 0) "expression").kind = K.AssignmentExpression ∧
    opKindOf (child (stmtAt (parseTreeF 300 "a=b=c;") 0) "expression") = K.EqualsToken ∧
    textOf (child (child (stmtAt (parseTreeF 300 "a=b=c;") 0) "expression") "left") = "a" ∧
    (child (child (stmtAt (parseTreeF 300 "a=b=c;") 0) "expression") "right").kind
      = K.AssignmentExpression ∧
    textOf (child (child (child (stmtAt (parseTreeF 300 "a=b=c;") 0) "expression") "right")
      "left") = "b" ∧
    textOf (child (child (child (stmtAt (parseTreeF 300 "a=b=c;") 0) "expression") "right")
      "right") = "c" := by
  decide

end TSGN
